import Mathlib

/-!
# Hospital CMS front end: header, doctor services, doctor cards, dashboards, login

A shallow embedding of the browser-side scripts under `static/js`:

* `components/header.js`      : the loading of the script, and `renderHeader`,
  `attachHeaderButtonListeners`, `logout`, `logoutPatient`
* `services/doctorServices.js`: `getDoctors`, `deleteDoctor`, `saveDoctor`, `filterDoctors`
* `components/doctorCard.js`  : `createDoctorCard` and the click handlers of its buttons
* `adminDashboard.js`         : `loadDoctorCards`, `filterDoctorsOnChange`, `renderDoctorCards`,
  `window.deleteDoctor`, `window.adminAddDoctor`
* `services/index.js`         : `window.adminLoginHandler`, `window.doctorLoginHandler`
* `doctorDashboard.js`        : `displayMessageRow`, `loadAppointments`, `handleSearchChange`

JavaScript strings are Lean strings (sequences of Unicode scalar values), `null` from
`localStorage.getItem` is `none`, an exception is the `error` side of `Except`.
The browser state a script reads or writes is an explicit record that is passed through.
-/

namespace HealthFlow

/-! ## Strings and truthiness -/

/-- JavaScript's `s.endsWith(suffix)`: `suffix` is a suffix of `s`. -/
def endsWith (s suffix : String) : Bool := suffix.data.isSuffixOf s.data

/-- JavaScript truthiness of a value that is a string or `null`: `null` and `""` are falsy. -/
def truthy : Option String → Bool
  | none => false
  | some s => s != ""

/-! ## localStorage -/

/-- The browser's `localStorage`: a finite map from string keys to string values. -/
structure LocalStorage where
  items : List (String × String)
deriving DecidableEq, Repr

/-- The call `localStorage.getItem(key)`: the stored value, `none` for JavaScript's `null`. -/
def LocalStorage.getItem (s : LocalStorage) (key : String) : Option String :=
  s.items.lookup key

/-- The call `localStorage.removeItem(key)`. -/
def LocalStorage.removeItem (s : LocalStorage) (key : String) : LocalStorage :=
  ⟨s.items.filter (fun kv => kv.1 != key)⟩

/-- The call `localStorage.setItem(key, value)`. -/
def LocalStorage.setItem (s : LocalStorage) (key value : String) : LocalStorage :=
  ⟨(key, value) :: (s.removeItem key).items⟩

/-! ## The header fragment

The data that `header.js` works on and the function expressions that its text assigns to
`window.renderHeader`, `window.attachHeaderButtonListeners`, `window.logout` and
`window.logoutPatient`. Whether these assignments are ever executed is the matter of the
section on loading the script, below. -/

/-- A listener registered with `addEventListener('click', ...)` in `header.js`. -/
inductive Listener where
  /-- The arrow function `() => { window.openModal(name); }`. -/
  | openModal (name : String)
deriving DecidableEq, Repr

/-- One control inside the header's `<nav>`: a `<button>` or an `<a>`. -/
structure NavControl where
  tag : String
  id : Option String
  cls : Option String
  href : Option String
  onclick : Option String
  label : String
  listeners : List Listener
deriving DecidableEq, Repr

/-- The markup assigned to `headerDiv.innerHTML`: the logo section, which is the same in every
branch, and the controls of the `<nav>`. -/
structure Header where
  logoSrc : String
  logoAlt : String
  logoTitle : String
  nav : List NavControl
deriving DecidableEq, Repr

/-- The `#header` element of the page. -/
inductive HeaderSlot where
  /-- No such element: `document.getElementById("header")` is `null`. -/
  | missing
  /-- The element exists; `content` is what its `innerHTML` was last set to by the script. -/
  | present (content : Option Header)
deriving DecidableEq, Repr

/-- A callback handed to `window.showMessageBox`. -/
inductive Callback where
  /-- The arrow function `() => { window.location.href = url; }`. -/
  | redirectTo (url : String)
deriving DecidableEq, Repr

/-- What a script does that is visible outside it, in the order it happens. -/
inductive Effect where
  /-- A call `console.error(msg)`. -/
  | consoleError (msg : String)
  /-- A call `window.showMessageBox(title, message, callback)`. -/
  | showMessageBox (title message : String) (callback : Option Callback)
  /-- The assignment `window.location.href = url`. -/
  | navigate (url : String)
  /-- The assignment `headerDiv.innerHTML = markup`. -/
  | setHeaderHTML (markup : Header)
deriving DecidableEq, Repr

/-- The part of the browser that `header.js` reads and writes. -/
structure World where
  /-- The value of `window.location.pathname`. -/
  pathname : String
  localStorage : LocalStorage
  header : HeaderSlot
  /-- The effects so far, oldest first. -/
  log : List Effect
deriving DecidableEq, Repr

/-- The effects that `w2` has beyond those of `w1`. -/
def emitted (w1 w2 : World) : List Effect := w2.log.drop w1.log.length

def World.emit (w : World) (e : Effect) : World := { w with log := w.log ++ [e] }

/-- The root-page test in the function written for `renderHeader` (step 3). -/
def isRootPath (pathname : String) : Bool :=
  endsWith pathname "/" || endsWith pathname "/index.html"

def button (id : Option String) (onclick : Option String) (label : String) : NavControl :=
  { tag := "button", id := id, cls := some "adminBtn", href := none, onclick := onclick,
    label := label, listeners := [] }

def anchor (onclick : String) (label : String) : NavControl :=
  { tag := "a", id := none, cls := none, href := some "#", onclick := some onclick,
    label := label, listeners := [] }

/-- The logo section and an open `<nav>` holding `nav`. -/
def headerWith (nav : List NavControl) : Header :=
  { logoSrc := "../assets/images/logo/logo.png", logoAlt := "Hospital CMS Logo",
    logoTitle := "Hospital CMS", nav := nav }

/-- The minimal header of the root page. -/
def rootHeader : Header :=
  headerWith [button (some "doctorLogin") none "Doctor Login",
              button (some "adminLogin") none "Admin Login",
              button (some "patientSignup") none "Sign Up"]

def adminNav : List NavControl :=
  [button (some "addDocBtn") (some "openModal('addDoctor')") "Add Doctor",
   anchor "logout()" "Logout"]

def doctorNav : List NavControl :=
  [button none (some "window.location.href='/app/doctorDashboard.html'") "Home",
   anchor "logout()" "Logout"]

def patientNav : List NavControl :=
  [button (some "patientLogin") none "Login",
   button (some "patientSignup") none "Sign Up"]

def loggedPatientNav : List NavControl :=
  [button (some "home") (some "window.location.href='/pages/loggedPatientDashboard.html'") "Home",
   button (some "patientAppointments")
     (some "window.location.href='/pages/patientAppointments.html'") "Appointments",
   anchor "logoutPatient()" "Logout"]

/-- The call `document.getElementById(id)` followed by `addEventListener('click', l)` when the element
exists: the first control with that id gets the listener. -/
def addClickListener (id : String) (l : Listener) : List NavControl → List NavControl
  | [] => []
  | c :: cs =>
    if c.id = some id then { c with listeners := c.listeners ++ [l] } :: cs
    else c :: addClickListener id l cs

/-- The function expression that `header.js` assigns to `window.attachHeaderButtonListeners`
(lines 226 to 260). -/
def attachHeaderButtonListenersFunction (w : World) : World :=
  match w.header with
  | .present (some h) =>
    let nav := addClickListener "doctorLogin" (.openModal "doctorLogin") h.nav
    let nav := addClickListener "adminLogin" (.openModal "adminLogin") nav
    let nav := addClickListener "patientLogin" (.openModal "patientLogin") nav
    let nav := addClickListener "patientSignup" (.openModal "patientSignup") nav
    { w with header := .present (some { h with nav := nav }) }
  | _ => w

/-- The assignment `headerDiv.innerHTML = markup`. -/
def World.setHeaderHTML (w : World) (markup : Header) : World :=
  { w with header := .present (some markup), log := w.log ++ [.setHeaderHTML markup] }

/-- The two statements `localStorage.removeItem("userRole"); localStorage.removeItem("token");`. -/
def World.clearSession (w : World) : World :=
  { w with localStorage := (w.localStorage.removeItem "userRole").removeItem "token" }

/-- The function expression that `header.js` assigns to `window.renderHeader` (lines 127 to
221). -/
def renderHeaderFunction (w : World) : World :=
  match w.header with
  | .missing => w.emit (.consoleError "Header injection point (#header) not found.")
  | .present _ =>
    if isRootPath w.pathname then
      attachHeaderButtonListenersFunction (w.clearSession.setHeaderHTML rootHeader)
    else
      let role := w.localStorage.getItem "userRole"
      let token := w.localStorage.getItem "token"
      if (role = some "loggedPatient" ∨ role = some "admin" ∨ role = some "doctor")
          ∧ truthy token = false then
        w.clearSession.emit
          (.showMessageBox "Session Expired"
            "Session expired or invalid login. Please log in again." (some (.redirectTo "/")))
      else if role = some "admin" then
        attachHeaderButtonListenersFunction (w.setHeaderHTML (headerWith adminNav))
      else if role = some "doctor" then
        attachHeaderButtonListenersFunction (w.setHeaderHTML (headerWith doctorNav))
      else if role = some "patient" then
        attachHeaderButtonListenersFunction (w.setHeaderHTML (headerWith patientNav))
      else if role = some "loggedPatient" then
        attachHeaderButtonListenersFunction (w.setHeaderHTML (headerWith loggedPatientNav))
      else
        w.emit (.navigate "/")

/-- The header element's content once the function written for `renderHeader` has finished on
the root page: the minimal header, with the click listeners on its buttons. -/
def rootHeaderWired : Header :=
  headerWith
    [{ button (some "doctorLogin") none "Doctor Login" with
        listeners := [.openModal "doctorLogin"] },
     { button (some "adminLogin") none "Admin Login" with
        listeners := [.openModal "adminLogin"] },
     { button (some "patientSignup") none "Sign Up" with
        listeners := [.openModal "patientSignup"] }]

/-- The user acknowledges a message box: its callback runs. -/
def runCallback (w : World) : Callback → World
  | .redirectTo url => w.emit (.navigate url)

/-- The function expression that `header.js` assigns to `window.logout` (lines 263 to 268). -/
def logoutFunction (w : World) : World := w.clearSession.emit (.navigate "/")

/-- The function expression that `header.js` assigns to `window.logoutPatient` (lines 271 to
276). -/
def logoutPatientFunction (w : World) : World :=
  w.clearSession.emit (.navigate "/pages/patientDashboard.html")

/-- The visible labels of the controls in the header's `<nav>`, in document order. -/
def navLabels (s : HeaderSlot) : List (String × String) :=
  match s with
  | .present (some h) => h.nav.map (fun c => (c.tag, c.label))
  | _ => []

/-! ## Loading header.js

A script runs only when its whole text parses. After the block comment of lines 1 to 124 the
first token of `header.js` is the lone `/` at the start of line 126 (a `//` was meant), and
where a statement may start such a `/` opens a regular-expression literal, which the line
never closes. The text is a `SyntaxError`: none of its assignments to `window` is executed,
and the four names stay undefined on every page that includes the script. -/

/-- A line terminator of JavaScript source text. -/
def isLineTerminator (c : Char) : Bool :=
  c == '\n' || c == '\r' || c.toNat == 0x2028 || c.toNat == 0x2029

/-- The scanner inside a regular-expression literal, after the opening `/`: whether a `/` that
is neither escaped nor inside a class `[...]` closes the literal before the line ends. The
flags say whether the scanner is inside a class and whether the last character was an
unescaped backslash. -/
def regexLiteralCloses : Bool → Bool → List Char → Bool
  | _, _, [] => false
  | inClass, escaped, c :: rest =>
    if isLineTerminator c then false
    else if escaped then regexLiteralCloses inClass false rest
    else if c = '\\' then regexLiteralCloses inClass true rest
    else if inClass then regexLiteralCloses (c != ']') false rest
    else if c = '[' then regexLiteralCloses true false rest
    else if c = '/' then true
    else regexLiteralCloses false false rest

/-- Line 126 of `header.js`: the first line after the opening comment that is not empty. -/
def headerJsLine126 : String :=
  "    / Global function exposed to the window, usually called from the <body> onload event"

/-- Whether the scanner gets past the first token of `header.js`. Where a statement may start,
`//` opens a line comment, `/*` a block comment, and any other `/` a regular-expression
literal, which has to be closed on its line. -/
def headerJsParses : Bool :=
  match headerJsLine126.data.dropWhile (fun c => c == ' ' || c == '\t') with
  | '/' :: '/' :: _ => true
  | '/' :: '*' :: _ => true
  | '/' :: rest => regexLiteralCloses false false rest
  | _ => true

/-- An exception at a call that the page makes. -/
inductive CallError where
  /-- The called name is not defined: a `ReferenceError`. -/
  | referenceError (name : String)
deriving DecidableEq, Repr

/-- The global `window.renderHeader` on a page that includes `header.js`; `none` is
`undefined`. -/
def window.renderHeader : Option (World → World) :=
  if headerJsParses then some renderHeaderFunction else none

/-- The global `window.attachHeaderButtonListeners` on a page that includes `header.js`. -/
def window.attachHeaderButtonListeners : Option (World → World) :=
  if headerJsParses then some attachHeaderButtonListenersFunction else none

/-- The global `window.logout` on a page that includes `header.js`. -/
def window.logout : Option (World → World) :=
  if headerJsParses then some logoutFunction else none

/-- The global `window.logoutPatient` on a page that includes `header.js`. -/
def window.logoutPatient : Option (World → World) :=
  if headerJsParses then some logoutPatientFunction else none

/-- A call `name()` of a global: the function runs when the global is defined; when it is
not, the call throws a `ReferenceError` and the page stays as it is. -/
def callGlobal (name : String) (fn : Option (World → World)) (w : World) :
    Except CallError World :=
  match fn with
  | some f => .ok (f w)
  | none => .error (.referenceError name)

/-- The call `renderHeader()`, as `renderContent()` of `util.js` makes it when a page loads. -/
def renderHeader (w : World) : Except CallError World :=
  callGlobal "renderHeader" window.renderHeader w

/-- The call `attachHeaderButtonListeners()`. -/
def attachHeaderButtonListeners (w : World) : Except CallError World :=
  callGlobal "attachHeaderButtonListeners" window.attachHeaderButtonListeners w

/-- The call `logout()`, as the `onclick` of a Logout link makes it. -/
def logout (w : World) : Except CallError World :=
  callGlobal "logout" window.logout w

/-- The call `logoutPatient()`, as the `onclick` of the patient's Logout link makes it. -/
def logoutPatient (w : World) : Except CallError World :=
  callGlobal "logoutPatient" window.logoutPatient w

/-! ## JavaScript values -/

/-- A value produced by `JSON.parse`. A number is kept as the text that JavaScript's
number-to-string conversion gives for it, for example `1` or `2.5`; positive and negative zero
are both written `0`. -/
inductive Json where
  | null
  | bool (b : Bool)
  | num (repr : String)
  | str (s : String)
  | arr (items : List Json)
  | obj (fields : List (String × Json))
deriving Repr

/-- A JavaScript value as these scripts meet it: `none` is `undefined`. -/
abbrev JsVal := Option Json

/-- An exception (a rejected promise, for an `async` function). -/
inductive JsError where
  /-- The rejection of `fetch`: the request did not produce a response. -/
  | networkFailure
  /-- The rejection of `response.json()`: the body is not JSON. -/
  | parseFailure
  /-- A property read on `null` or `undefined`. -/
  | typeError
deriving DecidableEq, Repr

/-- JavaScript truthiness, as tested by `if (v)` and `v || w`. -/
def jsTruthy : JsVal → Bool
  | none => false
  | some .null => false
  | some (.bool b) => b
  | some (.num repr) => repr != "0"
  | some (.str s) => s != ""
  | some (.arr _) => true
  | some (.obj _) => true

mutual
/-- JavaScript's string conversion of a JSON value, as a template literal applies it. -/
def Json.toStr : Json → String
  | .null => "null"
  | .bool b => if b then "true" else "false"
  | .num repr => repr
  | .str s => s
  | .arr items => ",".intercalate (Json.itemStrs items)
  | .obj _ => "[object Object]"
/-- The strings that `Array.prototype.join` puts between separators: `null` gives the empty
string, every other item its string conversion. -/
def Json.itemStrs : List Json → List String
  | [] => []
  | .null :: rest => "" :: Json.itemStrs rest
  | .bool b :: rest => Json.toStr (.bool b) :: Json.itemStrs rest
  | .num repr :: rest => Json.toStr (.num repr) :: Json.itemStrs rest
  | .str s :: rest => Json.toStr (.str s) :: Json.itemStrs rest
  | .arr items :: rest => Json.toStr (.arr items) :: Json.itemStrs rest
  | .obj fields :: rest => Json.toStr (.obj fields) :: Json.itemStrs rest
end

/-- The interpolation of a value in a template literal. -/
def toStr : JsVal → String
  | none => "undefined"
  | some v => v.toStr

/-- The property read `v.key` for a key that no prototype defines, such as `name` or `message`:
an own field of an object, `undefined` on any other value, a `TypeError` on `null`. -/
def getProp (v : Json) (key : String) : Except JsError JsVal :=
  match v with
  | .null => .error .typeError
  | .obj fields => .ok (fields.lookup key)
  | _ => .ok none

/-- The operator `a || b`. -/
def jsOr (a b : JsVal) : JsVal := if jsTruthy a then a else b

/-- A `try { body } catch (error) { handler }` block; also `promise.catch(handler)`. -/
def tryCatch {α : Type} (body : Except JsError α) (handler : JsError → Except JsError α) :
    Except JsError α :=
  match body with
  | .ok a => .ok a
  | .error e => handler e

/-! ## fetch -/

/-- The arguments of one `fetch` call. -/
structure Request where
  url : String
  method : String
  headers : List (String × String)
  /-- The value handed to `JSON.stringify` for the request body. -/
  body : Option Json
deriving Repr

/-- A response as the scripts read it. -/
structure Response where
  status : Nat
  statusText : String
  /-- The body, as `response.text()` resolves it. -/
  text : String
  /-- The body as `response.json()` resolves it; `none` when the body is not JSON. -/
  json : Option Json
deriving Repr

/-- The getter `response.ok`: the status is in the range 200 to 299. -/
def Response.ok (r : Response) : Bool := decide (200 ≤ r.status) && decide (r.status ≤ 299)

/-- The call `response.json()`. -/
def Response.parseJson (r : Response) : Except JsError Json :=
  match r.json with
  | some v => .ok v
  | none => .error .parseFailure

/-- The network and the backend behind it: what `await fetch(...)` gives for a request. -/
abbrev Fetch := Request → Except JsError Response

/-! ## URLSearchParams

`toString` is the `application/x-www-form-urlencoded` serialiser of the URL Standard, and
`parseQuery` is that standard's parser, the one the receiving side applies to a query string
(and `new URLSearchParams(query)` in a browser). -/

/-- The UTF-8 bytes of a character. -/
def utf8Bytes (c : Char) : List Nat :=
  let n := c.toNat
  if n < 0x80 then [n]
  else if n < 0x800 then [0xC0 + n / 0x40, 0x80 + n % 0x40]
  else if n < 0x10000 then [0xE0 + n / 0x1000, 0x80 + n / 0x40 % 0x40, 0x80 + n % 0x40]
  else [0xF0 + n / 0x40000, 0x80 + n / 0x1000 % 0x40, 0x80 + n / 0x40 % 0x40, 0x80 + n % 0x40]

/-- An upper-case hexadecimal digit. -/
def hexDigit (d : Nat) : Char :=
  ['0', '1', '2', '3', '4', '5', '6', '7', '8', '9', 'A', 'B', 'C', 'D', 'E', 'F'].getD d '0'

/-- A byte written as `%XX`. -/
def percentByte (b : Nat) : List Char := ['%', hexDigit (b / 16), hexDigit (b % 16)]

/-- The characters that the serialiser leaves as they are: ASCII letters and digits and
`*`, `-`, `.`, `_`. -/
def formSafe (c : Char) : Bool :=
  c.isAlphanum || c == '*' || c == '-' || c == '.' || c == '_'

/-- One character, serialised: a space becomes `+`, a safe character stays, every other one
becomes the percent-encoding of its UTF-8 bytes. -/
def formEncodeChar (c : Char) : List Char :=
  if c = ' ' then ['+']
  else if formSafe c then [c]
  else (utf8Bytes c).flatMap percentByte

/-- A name or a value, serialised. -/
def formEncode (s : String) : List Char := s.data.flatMap formEncodeChar

/-- A `URLSearchParams` object: its list of name-value pairs. -/
structure URLSearchParams where
  pairs : List (String × String)
deriving DecidableEq, Repr

/-- The call `params.append(name, value)`. -/
def URLSearchParams.append (p : URLSearchParams) (name value : String) : URLSearchParams :=
  ⟨p.pairs ++ [(name, value)]⟩

/-- The call `params.toString()`: the pairs as `name=value`, joined by `&`. -/
def URLSearchParams.toString (p : URLSearchParams) : String :=
  ⟨['&'].intercalate (p.pairs.map (fun nv => formEncode nv.1 ++ '=' :: formEncode nv.2))⟩

/-- The value of a hexadecimal digit, of either case. -/
def hexValue (c : Char) : Option Nat :=
  if '0' ≤ c ∧ c ≤ '9' then some (c.toNat - 0x30)
  else if 'A' ≤ c ∧ c ≤ 'F' then some (c.toNat - 0x37)
  else if 'a' ≤ c ∧ c ≤ 'f' then some (c.toNat - 0x57)
  else none

/-- The bytes of a character that is not part of a `%XX` escape: `+` stands for a space. -/
def plainBytes (c : Char) : List Nat := if c = '+' then [0x20] else utf8Bytes c

/-- Percent-decoding, with `+` read as a space: `%` followed by two hexadecimal digits is the
byte they spell, anything else stands for itself. -/
def percentDecode : List Char → List Nat
  | [] => []
  | [c] => plainBytes c
  | [c, h] => plainBytes c ++ plainBytes h
  | c :: h :: l :: rest =>
    if c = '%' then
      match hexValue h, hexValue l with
      | some a, some b => (16 * a + b) :: percentDecode rest
      | _, _ => plainBytes c ++ percentDecode (h :: l :: rest)
    else plainBytes c ++ percentDecode (h :: l :: rest)

/-- The state of the Encoding Standard's UTF-8 decoder. -/
structure Utf8Decoder where
  codePoint : Nat
  bytesNeeded : Nat
  lower : Nat
  upper : Nat
deriving DecidableEq, Repr

def Utf8Decoder.initial : Utf8Decoder := ⟨0, 0, 0x80, 0xBF⟩

/-- The character U+FFFD, which the decoder emits for malformed input. -/
def replacementChar : Char := Char.ofNat 0xFFFD

/-- The decoder reads a byte while it expects the first byte of a character. -/
def Utf8Decoder.start (b : Nat) : Utf8Decoder × List Char :=
  if b < 0x80 then (.initial, [Char.ofNat b])
  else if 0xC2 ≤ b ∧ b ≤ 0xDF then (⟨b - 0xC0, 1, 0x80, 0xBF⟩, [])
  else if 0xE0 ≤ b ∧ b ≤ 0xEF then
    (⟨b - 0xE0, 2, if b = 0xE0 then 0xA0 else 0x80, if b = 0xED then 0x9F else 0xBF⟩, [])
  else if 0xF0 ≤ b ∧ b ≤ 0xF4 then
    (⟨b - 0xF0, 3, if b = 0xF0 then 0x90 else 0x80, if b = 0xF4 then 0x8F else 0xBF⟩, [])
  else (.initial, [replacementChar])

/-- The decoder reads a byte: the next state and the characters emitted. -/
def Utf8Decoder.step (s : Utf8Decoder) (b : Nat) : Utf8Decoder × List Char :=
  if s.bytesNeeded = 0 then Utf8Decoder.start b
  else if b < s.lower ∨ s.upper < b then
    ((Utf8Decoder.start b).1, replacementChar :: (Utf8Decoder.start b).2)
  else if s.bytesNeeded = 1 then (.initial, [Char.ofNat (s.codePoint * 64 + (b - 0x80))])
  else (⟨s.codePoint * 64 + (b - 0x80), s.bytesNeeded - 1, 0x80, 0xBF⟩, [])

def utf8DecodeFrom (s : Utf8Decoder) : List Nat → List Char
  | [] => if s.bytesNeeded = 0 then [] else [replacementChar]
  | b :: rest => (s.step b).2 ++ utf8DecodeFrom (s.step b).1 rest

/-- UTF-8 decoding, with U+FFFD for what is malformed. -/
def utf8Decode (bytes : List Nat) : List Char := utf8DecodeFrom .initial bytes

/-- A serialised name or value, read back. -/
def formDecode (cs : List Char) : String := ⟨utf8Decode (percentDecode cs)⟩

/-- The parameters that a query string carries: the string is cut at every `&`, empty pieces
are dropped, each piece is cut at its first `=` into name and value, and both are decoded. -/
def parseQuery (query : String) : List (String × String) :=
  ((query.data.splitOn '&').filter (fun piece => !piece.isEmpty)).map
    (fun piece => (formDecode (piece.takeWhile (· != '=')),
                   formDecode ((piece.dropWhile (· != '=')).drop 1)))

/-! ## services/doctorServices.js -/

/-- The constant `DOCTOR_API`, for the `API_BASE_URL` that `config.js` exports. -/
def DOCTOR_API (API_BASE_URL : String) : String := API_BASE_URL ++ "/doctor"

/-- The object `{ success, message }` that `deleteDoctor` and `saveDoctor` return. -/
structure ServiceResult where
  success : Bool
  message : JsVal
deriving Repr

/-- The request of `getDoctors`. -/
def getDoctorsRequest (API_BASE_URL : String) : Request :=
  { url := DOCTOR_API API_BASE_URL, method := "GET", headers := [], body := none }

/-- The function `getDoctors`. The `console.error` lines are left out. -/
def getDoctors (API_BASE_URL : String) (fetch : Fetch) : Except JsError Json :=
  tryCatch
    (do
      let response ← fetch (getDoctorsRequest API_BASE_URL)
      if !response.ok then
        return Json.arr []
      response.parseJson)
    (fun _ => pure (Json.arr []))

/-- The request of `deleteDoctor`. -/
def deleteDoctorRequest (API_BASE_URL : String) (id : JsVal) (token : String) : Request :=
  { url := DOCTOR_API API_BASE_URL ++ "/" ++ toStr id, method := "DELETE",
    headers := [("Authorization", "Bearer " ++ token)], body := none }

/-- The function `deleteDoctor`. The `console.error` line is left out. -/
def deleteDoctor (API_BASE_URL : String) (fetch : Fetch) (id : JsVal) (token : String) :
    Except JsError ServiceResult :=
  tryCatch
    (do
      let response ← fetch (deleteDoctorRequest API_BASE_URL id token)
      if response.ok then
        let message := jsOr (some (.str response.text)) (some (.str "Doctor deleted successfully."))
        return { success := true, message := message }
      else if response.status = 404 then
        return { success := false, message := some (.str "Doctor not found.") }
      else
        let errorData ← tryCatch response.parseJson (fun _ => pure (Json.obj []))
        let errorMessage := jsOr (← getProp errorData "message") (some (.str response.statusText))
        return { success := false,
                 message := some (.str ("Deletion failed: " ++ toStr errorMessage)) })
    (fun _ => pure { success := false,
                     message := some (.str "An unexpected network error occurred.") })

/-- The request of `saveDoctor`. -/
def saveDoctorRequest (API_BASE_URL : String) (doctor : Json) (token : String) : Request :=
  { url := DOCTOR_API API_BASE_URL, method := "POST",
    headers := [("Content-Type", "application/json"), ("Authorization", "Bearer " ++ token)],
    body := some doctor }

/-- The function `saveDoctor`. The `console.error` line is left out. -/
def saveDoctor (API_BASE_URL : String) (fetch : Fetch) (doctor : Json) (token : String) :
    Except JsError ServiceResult :=
  tryCatch
    (do
      let response ← fetch (saveDoctorRequest API_BASE_URL doctor token)
      if response.ok then
        let data ← response.parseJson
        return { success := true,
                 message := some (.str ("Doctor " ++ toStr (← getProp data "name")
                              ++ " added successfully!")) }
      else
        let errorData ← tryCatch response.parseJson (fun _ => pure (Json.obj []))
        let errorMessage := jsOr (← getProp errorData "message")
          (some (.str "Failed to add doctor."))
        return { success := false, message := errorMessage })
    (fun _ => pure { success := false,
                     message := some (.str "An unexpected network error occurred during saving.") })

/-- The `URLSearchParams` that `filterDoctors` builds: a pair for each non-empty argument. -/
def filterDoctorsParams (name time specialty : String) : URLSearchParams :=
  let params : URLSearchParams := ⟨[]⟩
  let params := if name != "" then params.append "name" name else params
  let params := if time != "" then params.append "time" time else params
  let params := if specialty != "" then params.append "specialty" specialty else params
  params

/-- The request of `filterDoctors`. -/
def filterDoctorsRequest (API_BASE_URL : String) (name time specialty : String) : Request :=
  let params := filterDoctorsParams name time specialty
  let url := DOCTOR_API API_BASE_URL ++ "/filter?" ++ params.toString
  { url := url, method := "GET", headers := [], body := none }

/-- The function `filterDoctors`. The `console.error` lines are left out. -/
def filterDoctors (API_BASE_URL : String) (fetch : Fetch) (name time specialty : String) :
    Except JsError Json :=
  tryCatch
    (do
      let response ← fetch (filterDoctorsRequest API_BASE_URL name time specialty)
      if !response.ok then
        return Json.arr []
      response.parseJson)
    (fun _ => pure (Json.arr []))

/-! ## components/doctorCard.js -/

/-- A doctor record: the fields of the object, as the backend sent them. -/
structure Doctor where
  fields : List (String × Json)
deriving Repr

/-- The property read `doctor.key`. -/
def Doctor.get (doctor : Doctor) (key : String) : JsVal := doctor.fields.lookup key

/-- A click listener that `createDoctorCard` registers on a button. -/
inductive CardListener where
  /-- The admin's handler: ask for confirmation, then delete `doctor`. -/
  | confirmDelete (doctor : Doctor)
  /-- The handler for a patient who is not logged in: show the login-required message. -/
  | loginRequired
  /-- The logged-in patient's handler: fetch the patient, then open the booking overlay. -/
  | bookAppointment (doctor : Doctor)
deriving Repr

/-- An element without element children: `img`, `h3`, `p`, `button`. -/
structure Element where
  tag : String
  classes : List String
  attrs : List (String × String)
  textContent : String
  listeners : List CardListener
deriving Repr

/-- A `div` that holds elements: the info section and the actions container. -/
structure Div where
  classes : List String
  attrs : List (String × String)
  children : List Element
deriving Repr

/-- The card: a `div` that holds the info section and, when it has buttons, the actions
container. -/
structure Card where
  classes : List String
  dataset : List (String × String)
  children : List Div
deriving Repr

def Div.appendChild (d : Div) (e : Element) : Div := { d with children := d.children ++ [e] }

def Card.appendChild (c : Card) (d : Div) : Card := { c with children := c.children ++ [d] }

/-- The text that the assignment `element.textContent = v` stores: nothing for `null` and
`undefined`, the string conversion otherwise. -/
def textContentOf : JsVal → String
  | none => ""
  | some .null => ""
  | some v => v.toStr

/-- The value of `times` in `createDoctorCard`. -/
def availabilityText (availableTimes : JsVal) : JsVal :=
  match availableTimes with
  | some (.arr items) => some (.str (", ".intercalate (Json.itemStrs items)))
  | v => jsOr v (some (.str "N/A"))

/-- The function `createDoctorCard`. -/
def createDoctorCard (localStorage : LocalStorage) (doctor : Doctor) : Card :=
  let card : Card :=
    { classes := ["doctor-card"], dataset := [("doctorId", toStr (doctor.get "id"))],
      children := [] }
  let role := localStorage.getItem "userRole"
  let infoDiv : Div := { classes := ["doctor-info"], attrs := [], children := [] }
  let image : Element :=
    { tag := "img", classes := ["doctor-profile-pic"],
      attrs := [("src", toStr (jsOr (doctor.get "profilePic")
                  (some (.str "../assets/images/doctor-placeholder.png")))),
                ("alt", "Profile picture of Dr. " ++ toStr (doctor.get "name"))],
      textContent := "", listeners := [] }
  let infoDiv := infoDiv.appendChild image
  let name : Element :=
    { tag := "h3", classes := [], attrs := [], textContent := textContentOf (doctor.get "name"),
      listeners := [] }
  let specialization : Element :=
    { tag := "p", classes := ["doctor-specialty"], attrs := [],
      textContent := "Specialty: " ++ toStr (doctor.get "specialty"), listeners := [] }
  let email : Element :=
    { tag := "p", classes := ["doctor-email"], attrs := [],
      textContent := "Email: " ++ toStr (doctor.get "email"), listeners := [] }
  let times := availabilityText (doctor.get "availableTimes")
  let availability : Element :=
    { tag := "p", classes := ["doctor-availability"], attrs := [],
      textContent := "Availability: " ++ toStr times, listeners := [] }
  let infoDiv := infoDiv.appendChild name
  let infoDiv := infoDiv.appendChild specialization
  let infoDiv := infoDiv.appendChild email
  let infoDiv := infoDiv.appendChild availability
  let actionsDiv : Div := { classes := ["card-actions"], attrs := [("role", "group")],
                            children := [] }
  let actionsDiv :=
    if role = some "admin" then
      let removeBtn : Element :=
        { tag := "button", classes := ["danger-btn"], attrs := [], textContent := "Delete",
          listeners := [.confirmDelete doctor] }
      actionsDiv.appendChild removeBtn
    else if role = some "patient" then
      let bookNow : Element :=
        { tag := "button", classes := ["primary-btn"], attrs := [], textContent := "Book Now",
          listeners := [.loginRequired] }
      actionsDiv.appendChild bookNow
    else if role = some "loggedPatient" then
      let bookNow : Element :=
        { tag := "button", classes := ["primary-btn"], attrs := [], textContent := "Book Now",
          listeners := [.bookAppointment doctor] }
      actionsDiv.appendChild bookNow
    else actionsDiv
  let card := card.appendChild infoDiv
  if actionsDiv.children.length > 0 then card.appendChild actionsDiv else card

/-- The buttons of a card, in document order. -/
def Card.buttons (c : Card) : List Element :=
  (c.children.flatMap (fun d => d.children)).filter (fun e => e.tag == "button")

/-- The labels of a card's buttons. -/
def Card.buttonLabels (c : Card) : List String := c.buttons.map (fun e => e.textContent)

/-- Whether the card holds an actions container, a `div` of class `card-actions`. -/
def Card.hasActionsContainer (c : Card) : Bool :=
  c.children.any (fun d => d.classes.contains "card-actions")

/-! ## Backends used as examples -/

/-- A backend that serves the list at `/doctor` and knows no other path. -/
def listOnlyBackend : Fetch := fun request =>
  if request.url = "http://localhost:8080/doctor" then
    .ok { status := 200, statusText := "OK", text := "[\x7b\"id\":1,\"name\":\"A\"\x7d]",
          json := some (.arr [.obj [("id", .num "1"), ("name", .str "A")]]) }
  else
    .ok { status := 404, statusText := "Not Found", text := "", json := none }

/-- A backend that answers every request with `201 Created` and the stored doctor. -/
def createdBackend : Fetch := fun _ =>
  .ok { status := 201, statusText := "Created", text := "\x7b\"id\":7,\"name\":\"A\"\x7d",
        json := some (.obj [("id", .num "7"), ("name", .str "A")]) }

/-- A backend that answers every request with `200 OK` and a body that is not JSON. -/
def plainTextBackend : Fetch := fun _ =>
  .ok { status := 200, statusText := "OK", text := "saved", json := none }

/-- A backend that answers every request with `204 No Content`. -/
def noContentBackend : Fetch := fun _ =>
  .ok { status := 204, statusText := "No Content", text := "", json := none }

/-- A backend that answers every request with `500` and the JSON body `null`. -/
def nullErrorBackend : Fetch := fun _ =>
  .ok { status := 500, statusText := "Internal Server Error", text := "null",
        json := some .null }

/-- A backend that answers every request with `500` and a JSON error object. -/
def errorBackend : Fetch := fun _ =>
  .ok { status := 500, statusText := "Internal Server Error",
        text := "\x7b\"message\":\"Email already exists\"\x7d",
        json := some (.obj [("message", .str "Email already exists")]) }

/-! ## The page of the dashboards

The part of the browser that `adminDashboard.js`, the click handlers of `doctorCard.js` and the
login handlers of `services/index.js` read and write. An `async` function is run up to its
`await` on the network by one definition and resumed by another where the order of the two
matters; an exception that nothing catches is recorded as the effect `uncaught`. -/

/-- JavaScript's white space and line terminators, the characters that `trim` removes. -/
def isJsWhitespace (c : Char) : Bool :=
  [0x09, 0x0A, 0x0B, 0x0C, 0x0D, 0x20, 0xA0, 0x1680, 0x2028, 0x2029, 0x202F, 0x205F, 0x3000,
    0xFEFF].contains c.toNat
  || (decide (0x2000 ≤ c.toNat) && decide (c.toNat ≤ 0x200A))

/-- JavaScript's `s.trim()`. -/
def jsTrim (s : String) : String :=
  ⟨((s.data.dropWhile isJsWhitespace).reverse.dropWhile isJsWhitespace).reverse⟩

/-- A child of the content area `#content`. -/
inductive ContentNode where
  /-- A paragraph `<p class="cls">text</p>`. -/
  | paragraph (cls text : String)
  /-- A doctor card; `nodeId` tells this node from every other node that was ever created. -/
  | card (nodeId : Nat) (card : Card)
deriving Repr

/-- A callback handed to `window.showMessageBox` by the dashboard scripts. -/
inductive PageCallback where
  /-- The admin card's `async (confirmed) => ...`, for the card node `nodeId` of `doctor`. -/
  | deleteConfirmed (nodeId : Nat) (doctor : Doctor)
  /-- The arrow function `() => { closeModal(); loadDoctorCards(); }` of `adminAddDoctor`. -/
  | closeModalAndReload
deriving Repr

/-- What these scripts do that is visible outside them, in the order it happens. -/
inductive PageEffect where
  /-- A call `event.preventDefault()`. -/
  | preventDefault
  /-- A call `fetch(url, options)`. -/
  | fetch (request : Request)
  /-- A call `window.showMessageBox(title, message, callback, isConfirm)`. -/
  | showMessageBox (title : String) (message : JsVal) (callback : Option PageCallback)
      (isConfirm : Bool)
  /-- A call `window.getPatientData(token)`. -/
  | getPatientData (token : String)
  /-- A call `window.showBookingOverlay(e, doctor, patientData)`. -/
  | showBookingOverlay (doctor : Doctor) (patientData : JsVal)
  /-- A call `closeModal()`. -/
  | closeModal
  /-- A call `window.selectRole(role)`. -/
  | selectRole (role : String)
  /-- An exception that leaves an `async` function which nobody awaits. -/
  | uncaught (error : JsError)
deriving Repr

/-- The state of the page. -/
structure Page where
  localStorage : LocalStorage
  /-- The children of `contentDiv`; `none` when the page has no `#content` element. -/
  content : Option (List ContentNode)
  /-- The identity that the next created card node gets. -/
  nextNodeId : Nat
  /-- The effects so far, oldest first. -/
  log : List PageEffect
deriving Repr

def Page.emit (p : Page) (e : PageEffect) : Page := { p with log := p.log ++ [e] }

/-- The effects that `p2` has beyond those of `p1`. -/
def Page.effectsSince (p1 p2 : Page) : List PageEffect := p2.log.drop p1.log.length

/-- The guarded assignment `if (contentDiv) contentDiv.innerHTML = markup`. -/
def Page.setContent (p : Page) (nodes : List ContentNode) : Page :=
  match p.content with
  | none => p
  | some _ => { p with content := some nodes }

/-- The call `contentDiv.appendChild(node)`. -/
def Page.appendChild (p : Page) (node : ContentNode) : Page :=
  { p with content := p.content.map (fun nodes => nodes ++ [node]) }

def ContentNode.isCard (nodeId : Nat) : ContentNode → Bool
  | .card n _ => n == nodeId
  | .paragraph _ _ => false

/-- The call `card.remove()` for the card node `nodeId`: the node leaves its parent; nothing
happens when it has none. -/
def Page.removeCard (p : Page) (nodeId : Nat) : Page :=
  { p with content := p.content.map (fun nodes => nodes.filter (fun n => !n.isCard nodeId)) }

/-- The card node `nodeId` of the content area, when it is there. -/
def Page.findCard (p : Page) (nodeId : Nat) : Option Card :=
  match p.content with
  | none => none
  | some nodes => nodes.findSome? (fun n =>
      match n with
      | .card m c => if m = nodeId then some c else none
      | .paragraph _ _ => none)

/-- The card nodes of the content area, in document order. -/
def Page.cards (p : Page) : List (Nat × Card) :=
  match p.content with
  | none => []
  | some nodes => nodes.filterMap (fun n =>
      match n with
      | .card m c => some (m, c)
      | .paragraph _ _ => none)

/-! ## adminDashboard.js -/

/-- The record that `createDoctorCard(doctor)` reads its properties from: an object gives its
fields, `null` makes the first property read throw, every other value has none of the
properties that are read. -/
def doctorOfJson : Json → Except JsError Doctor
  | .null => .error .typeError
  | .obj fields => .ok ⟨fields⟩
  | _ => .ok ⟨[]⟩

/-- The test `value.length === 0`. -/
def lengthIsZero : Json → Bool
  | .arr items => items.isEmpty
  | .str s => s.isEmpty
  | .obj fields =>
    match fields.lookup "length" with
    | some (.num repr) => repr == "0"
    | _ => false
  | _ => false

/-- The loop `doctors.forEach(doctor => contentDiv.appendChild(createDoctorCard(doctor)))`. -/
def appendDoctorCards : List Json → Page → Page
  | [], p => p
  | doctor :: rest, p =>
    match doctorOfJson doctor with
    | .error e => p.emit (.uncaught e)
    | .ok record =>
      let card := createDoctorCard p.localStorage record
      appendDoctorCards rest
        { p.appendChild (.card p.nextNodeId card) with nextNodeId := p.nextNodeId + 1 }

/-- The function `renderDoctorCards`. -/
def renderDoctorCards (doctors : Json) (p : Page) : Page :=
  match p.content with
  | none => p
  | some _ =>
    let p := { p with content := some [] }
    if !jsTruthy (some doctors) || lengthIsZero doctors then
      p.appendChild (.paragraph "no-records-message" "No doctors found matching the criteria.")
    else
      match doctors with
      | .arr items => appendDoctorCards items p
      | _ => p.emit (.uncaught .typeError)

/-- The function `loadDoctorCards` up to `await getDoctors()`: the loading message is shown and
the request is sent. -/
def loadDoctorCardsStart (API_BASE_URL : String) (p : Page) : Page :=
  (p.setContent [.paragraph "loading-message" "Loading doctor records..."]).emit
    (.fetch (getDoctorsRequest API_BASE_URL))

/-- The function `loadDoctorCards` from `await getDoctors()` on, once the network has
answered. -/
def loadDoctorCardsFinish (API_BASE_URL : String) (fetch : Fetch) (p : Page) : Page :=
  match getDoctors API_BASE_URL fetch with
  | .error e => p.emit (.uncaught e)
  | .ok doctors => renderDoctorCards doctors p

/-- The function `loadDoctorCards`, run from start to end. -/
def loadDoctorCards (API_BASE_URL : String) (fetch : Fetch) (p : Page) : Page :=
  loadDoctorCardsFinish API_BASE_URL fetch (loadDoctorCardsStart API_BASE_URL p)

/-- The search bar and the two filter drop-downs: the `value` of each, `none` for an element
that the page does not have. -/
structure FilterControls where
  searchBar : Option String
  filterTime : Option String
  filterSpecialty : Option String
deriving DecidableEq, Repr

/-- The function `filterDoctorsOnChange`, run from start to end. -/
def filterDoctorsOnChange (API_BASE_URL : String) (fetch : Fetch) (controls : FilterControls)
    (p : Page) : Page :=
  let name := (controls.searchBar.map jsTrim).getD ""
  let time := controls.filterTime.getD ""
  let specialty := controls.filterSpecialty.getD ""
  let p := p.setContent [.paragraph "loading-message" "Filtering results..."]
  let p := p.emit (.fetch (filterDoctorsRequest API_BASE_URL name time specialty))
  match filterDoctors API_BASE_URL fetch name time specialty with
  | .error e => p.emit (.uncaught e)
  | .ok filteredDoctors => renderDoctorCards filteredDoctors p

/-- The function `window.deleteDoctor` of `adminDashboard.js`: the page afterwards and the
value that the returned promise settles with. -/
def window.deleteDoctor (API_BASE_URL : String) (fetch : Fetch) (doctorId : JsVal) (p : Page) :
    Page × Except JsError Bool :=
  match p.localStorage.getItem "token" with
  | none =>
    (p.emit (.showMessageBox "Auth Error" (some (.str "Session expired. Please log in."))
      none false), .ok false)
  | some token =>
    if token = "" then
      (p.emit (.showMessageBox "Auth Error" (some (.str "Session expired. Please log in."))
        none false), .ok false)
    else
      let p := p.emit (.fetch (deleteDoctorRequest API_BASE_URL doctorId token))
      match HealthFlow.deleteDoctor API_BASE_URL fetch doctorId token with
      | .error e => (p, .error e)
      | .ok result =>
        let p :=
          if result.success then loadDoctorCardsStart API_BASE_URL p
          else
            p.emit (.showMessageBox "Deletion Failed"
              (jsOr result.message
                (some (.str "Could not delete doctor due to server error."))) none false)
        (p, .ok result.success)

/-- The form of the Add Doctor modal: the `value` of each input and the values of the checked
availability boxes. -/
structure AddDoctorForm where
  addDoctorName : String
  addDoctorSpecialty : String
  addDoctorEmail : String
  addDoctorPassword : String
  addDoctorMobile : String
  availability : List String
deriving DecidableEq, Repr

/-- The object `newDoctor` that `adminAddDoctor` hands to `saveDoctor`. -/
def newDoctor (name specialty email password mobileNo : String) (availableTimes : List String) :
    Json :=
  .obj [("name", .str name), ("specialty", .str specialty), ("email", .str email),
        ("password", .str password), ("mobileNo", .str mobileNo),
        ("availableTimes", .arr (availableTimes.map Json.str))]

/-- The function `window.adminAddDoctor`. -/
def window.adminAddDoctor (API_BASE_URL : String) (fetch : Fetch) (form : AddDoctorForm)
    (p : Page) : Page :=
  let p := p.emit .preventDefault
  match p.localStorage.getItem "token" with
  | none =>
    p.emit (.showMessageBox "Authentication Error"
      (some (.str "Admin token missing. Please log in again.")) none false)
  | some token =>
    if token = "" then
      p.emit (.showMessageBox "Authentication Error"
        (some (.str "Admin token missing. Please log in again.")) none false)
    else
      let name := jsTrim form.addDoctorName
      let specialty := jsTrim form.addDoctorSpecialty
      let email := jsTrim form.addDoctorEmail
      let password := form.addDoctorPassword
      let mobileNo := jsTrim form.addDoctorMobile
      let availableTimes := form.availability
      if name = "" ∨ specialty = "" ∨ email = "" ∨ password = "" ∨ mobileNo = ""
          ∨ availableTimes.length = 0 then
        p.emit (.showMessageBox "Validation Error"
          (some (.str "Please fill in all fields and select at least one availability slot."))
          none false)
      else
        let doctor := newDoctor name specialty email password mobileNo availableTimes
        let p := p.emit (.fetch (saveDoctorRequest API_BASE_URL doctor token))
        match saveDoctor API_BASE_URL fetch doctor token with
        | .error e => p.emit (.uncaught e)
        | .ok result =>
          if result.success then
            p.emit (.showMessageBox "Success" result.message (some .closeModalAndReload) false)
          else
            p.emit (.showMessageBox "Error"
              (jsOr result.message (some (.str "Failed to add doctor. Please check inputs.")))
              none false)

/-! ## The click handlers of doctorCard.js -/

/-- A click listener of a card button runs, for the card node `nodeId`; `getPatientData` is
the global `window.getPatientData`. -/
def runCardListener (getPatientData : String → Except JsError JsVal) (nodeId : Nat) :
    CardListener → Page → Page
  | .confirmDelete doctor, p =>
    p.emit (.showMessageBox "Confirm Deletion"
      (some (.str ("Are you sure you want to delete Dr. " ++ toStr (doctor.get "name")
        ++ "? This action cannot be undone.")))
      (some (.deleteConfirmed nodeId doctor)) true)
  | .loginRequired, p =>
    p.emit (.showMessageBox "Action Required"
      (some (.str "You need to log in or sign up as a patient to book an appointment."))
      none false)
  | .bookAppointment doctor, p =>
    match p.localStorage.getItem "token" with
    | none =>
      p.emit (.showMessageBox "Error"
        (some (.str "Authentication token missing. Please log in again.")) none false)
    | some token =>
      if token = "" then
        p.emit (.showMessageBox "Error"
          (some (.str "Authentication token missing. Please log in again.")) none false)
      else
        let p := p.emit (.getPatientData token)
        match getPatientData token with
        | .error e => p.emit (.uncaught e)
        | .ok patientData =>
          if jsTruthy patientData then p.emit (.showBookingOverlay doctor patientData)
          else
            p.emit (.showMessageBox "Error"
              (some (.str "Could not retrieve patient data. Cannot proceed with booking."))
              none false)

/-- A click on the button of the card node `nodeId`: the click listeners of the button run. -/
def clickCardButton (getPatientData : String → Except JsError JsVal) (nodeId : Nat) (p : Page) :
    Page :=
  match p.findCard nodeId with
  | none => p
  | some card =>
    (card.buttons.flatMap (fun b => b.listeners)).foldl
      (fun page listener => runCardListener getPatientData nodeId listener page) p

/-- The message box calls a callback: with `confirmed` for a confirmation box, without an
argument otherwise. For `deleteConfirmed` the page is the one at the end of the callback; the
reload that `window.deleteDoctor` has started is still waiting for the network. -/
def runPageCallback (API_BASE_URL : String) (fetch : Fetch) (confirmed : Bool) :
    PageCallback → Page → Page
  | .deleteConfirmed nodeId doctor, p =>
    if confirmed then
      match window.deleteDoctor API_BASE_URL fetch (doctor.get "id") p with
      | (p, .error e) => p.emit (.uncaught e)
      | (p, .ok success) =>
        if success then
          (p.removeCard nodeId).emit (.showMessageBox "Success"
            (some (.str (toStr (doctor.get "name") ++ " has been deleted."))) none false)
        else
          p.emit (.showMessageBox "Error"
            (some (.str ("Failed to delete " ++ toStr (doctor.get "name")
              ++ ". Please try again."))) none false)
    else p
  | .closeModalAndReload, p => loadDoctorCardsStart API_BASE_URL (p.emit .closeModal)

/-! ## services/index.js -/

/-- The constant `ADMIN_API` of `services/index.js`. -/
def Login.ADMIN_API (API_BASE_URL : String) : String := API_BASE_URL ++ "/admin/login"

/-- The constant `DOCTOR_API` of `services/index.js`. -/
def Login.DOCTOR_API (API_BASE_URL : String) : String := API_BASE_URL ++ "/doctor/login"

/-- The request of `adminLoginHandler`. -/
def adminLoginRequest (API_BASE_URL username password : String) : Request :=
  { url := Login.ADMIN_API API_BASE_URL, method := "POST",
    headers := [("Content-Type", "application/json")],
    body := some (.obj [("username", .str username), ("password", .str password)]) }

/-- The request of `doctorLoginHandler`. -/
def doctorLoginRequest (API_BASE_URL email password : String) : Request :=
  { url := Login.DOCTOR_API API_BASE_URL, method := "POST",
    headers := [("Content-Type", "application/json")],
    body := some (.obj [("email", .str email), ("password", .str password)]) }

def Page.setItem (p : Page) (key value : String) : Page :=
  { p with localStorage := p.localStorage.setItem key value }

/-- The function `window.adminLoginHandler`; `username` and `password` are the values of the
two inputs. -/
def window.adminLoginHandler (API_BASE_URL : String) (fetch : Fetch)
    (username password : String) (p : Page) : Page :=
  let p := p.emit .preventDefault
  if username = "" ∨ password = "" then
    p.emit (.showMessageBox "Login Error"
      (some (.str "Please enter both username and password.")) none false)
  else
    let p := p.emit (.fetch (adminLoginRequest API_BASE_URL username password))
    let caught := p.emit (.showMessageBox "System Error"
      (some (.str "An unexpected network or system error occurred.")) none false)
    match fetch (adminLoginRequest API_BASE_URL username password) with
    | .error _ => caught
    | .ok response =>
      if response.ok then
        match response.parseJson with
        | .error _ => caught
        | .ok data =>
          match getProp data "token" with
          | .error _ => caught
          | .ok token =>
            if jsTruthy token then
              let p := p.setItem "token" (toStr token)
              let p := p.setItem "userRole" "admin"
              p.emit (.selectRole "admin")
            else
              p.emit (.showMessageBox "Login Failed"
                (some (.str "Authentication successful, but no token received.")) none false)
      else
        p.emit (.showMessageBox "Login Failed"
          (some (.str "Invalid Admin credentials!")) none false)

/-- The function `window.doctorLoginHandler`; `email` and `password` are the values of the two
inputs. -/
def window.doctorLoginHandler (API_BASE_URL : String) (fetch : Fetch)
    (email password : String) (p : Page) : Page :=
  let p := p.emit .preventDefault
  if email = "" ∨ password = "" then
    p.emit (.showMessageBox "Login Error"
      (some (.str "Please enter both email and password.")) none false)
  else
    let p := p.emit (.fetch (doctorLoginRequest API_BASE_URL email password))
    let caught := p.emit (.showMessageBox "System Error"
      (some (.str "An unexpected network or system error occurred.")) none false)
    match fetch (doctorLoginRequest API_BASE_URL email password) with
    | .error _ => caught
    | .ok response =>
      if response.ok then
        match response.parseJson with
        | .error _ => caught
        | .ok data =>
          match getProp data "token" with
          | .error _ => caught
          | .ok token =>
            if jsTruthy token then
              let p := p.setItem "token" (toStr token)
              let p := p.setItem "userRole" "doctor"
              p.emit (.selectRole "doctor")
            else
              p.emit (.showMessageBox "Login Failed"
                (some (.str "Authentication successful, but no token received.")) none false)
      else
        p.emit (.showMessageBox "Login Failed"
          (some (.str "Invalid Doctor credentials!")) none false)

/-! ## doctorDashboard.js

The imports `getAllAppointments` and `createPatientRow` are parameters; `Row` is the type of
the rows that `createPatientRow` builds. The `console.error` line is left out. -/

/-- Whether the HTML parser reads a string that is spliced into markup between a start tag and
its end tag as the text it is. That fails for `<`, which opens a tag, for `&`, which opens a
character reference, for U+0000, which the parser drops, and for a carriage return, which it
rewrites. -/
def isPlainText (s : String) : Bool :=
  s.data.all (fun c => c != '<' && c != '&' && c != '\r' && c.toNat != 0)

/-- What the table body `#patientTableBody` holds. -/
inductive TableRow (Row : Type) where
  /-- The single-cell row `<tr><td colspan="5" class="noPatientRecord">text</td></tr>`: what the
  parser builds from the markup of `displayMessageRow` for a message that is plain text. -/
  | message (text : String)
  /-- What the parser builds from the markup of `displayMessageRow` for a message that is not
  plain text: the message is spliced into `innerHTML` unescaped and is read as markup, which
  may give no row, one row or several. The message is kept as it is and not parsed. -/
  | markup (message : String)
  /-- A row that `createPatientRow` built for an appointment. -/
  | patient (row : Row)
deriving Repr

/-- The table body and the state variables of the module. -/
structure DoctorDashboard (Row : Type) where
  /-- The rows of `tableBody`; `none` when the page has no `#patientTableBody` element. -/
  tableBody : Option (List (TableRow Row))
  selectedDate : String
  token : Option String
  patientName : Option String
  doctorId : Option String
deriving Repr

/-- The function `displayMessageRow`: the assignment of the row markup, with `message` spliced
in unescaped, to `tableBody.innerHTML`. -/
def DoctorDashboard.displayMessageRow {Row : Type} (s : DoctorDashboard Row) (message : String) :
    DoctorDashboard Row :=
  match s.tableBody with
  | none => s
  | some _ =>
    let row : TableRow Row := if isPlainText message then .message message else .markup message
    { s with tableBody := some [row] }

/-- The loop `appointments.forEach(...)` of `loadAppointments`: the state when the loop ends,
and the exception that ended it, if one did. -/
def appendPatientRows {Row : Type} (createPatientRow : Json → Except JsError Row) :
    List Json → DoctorDashboard Row → DoctorDashboard Row × Option JsError
  | [], s => (s, none)
  | appointment :: rest, s =>
    match createPatientRow appointment with
    | .error e => (s, some e)
    | .ok row =>
      appendPatientRows createPatientRow rest
        { s with tableBody := s.tableBody.map (fun rows => rows ++ [.patient row]) }

/-- The function `loadAppointments`. -/
def loadAppointments {Row : Type}
    (getAllAppointments : String → Option String → Option String → Option String
      → Except JsError JsVal)
    (createPatientRow : Json → Except JsError Row) (s : DoctorDashboard Row) :
    DoctorDashboard Row :=
  if truthy s.token = false ∨ truthy s.doctorId = false then
    s.displayMessageRow "Authentication required. Please log in."
  else
    let s := s.displayMessageRow "Loading appointments..."
    let caught := fun (state : DoctorDashboard Row) =>
      state.displayMessageRow "An error occurred while fetching appointments. Please try again."
    match getAllAppointments s.selectedDate s.patientName s.token s.doctorId with
    | .error _ => caught s
    | .ok appointments =>
      let s := { s with tableBody := s.tableBody.map (fun _ => []) }
      let noAppointments := s.displayMessageRow
        ("No appointments found for " ++ s.selectedDate
          ++ (if truthy s.patientName then " matching the search query." else "."))
      match appointments with
      | none => noAppointments
      | some value =>
        if !jsTruthy (some value) || lengthIsZero value then noAppointments
        else
          match value with
          | .arr items =>
            match appendPatientRows createPatientRow items s with
            | (s, none) => s
            | (s, some _) => caught s
          | _ => caught s

/-- The function `handleSearchChange`; `value` is `event.target.value`, the text of the search
bar. -/
def handleSearchChange {Row : Type}
    (getAllAppointments : String → Option String → Option String → Option String
      → Except JsError JsVal)
    (createPatientRow : Json → Except JsError Row) (value : String) (s : DoctorDashboard Row) :
    DoctorDashboard Row :=
  let searchValue := jsTrim value
  let s := { s with patientName := if searchValue = "" then none else some searchValue }
  loadAppointments getAllAppointments createPatientRow s

/-! ## Shapes of the values that the services return -/

/-- JavaScript's `Array.isArray(v)`. -/
def Json.isArray : Json → Bool
  | .arr _ => true
  | _ => false

/-- Whether a value is a string other than the empty one. -/
def isNonEmptyString : JsVal → Bool
  | some (.str s) => s != ""
  | _ => false

/-! ## Pages and backends used as examples -/

/-- A backend that cannot be reached: every `fetch` rejects. -/
def unreachableBackend : Fetch := fun _ => .error .networkFailure

/-- A backend on which deleting succeeds; its list holds doctor B alone. -/
def deletingBackend : Fetch := fun request =>
  if request.method = "DELETE" then
    .ok { status := 200, statusText := "OK", text := "Doctor deleted", json := none }
  else
    .ok { status := 200, statusText := "OK", text := "[\x7b\"id\":2,\"name\":\"B\"\x7d]",
          json := some (.arr [.obj [("id", .num "2"), ("name", .str "B")]]) }

/-- The admin's page after the cards of the doctors A and B have been rendered. -/
def twoCardsPage : Page :=
  renderDoctorCards
    (.arr [.obj [("id", .num "1"), ("name", .str "A")],
           .obj [("id", .num "2"), ("name", .str "B")]])
    ⟨⟨[("userRole", "admin"), ("token", "abc")]⟩, some [], 0, []⟩

/-- A backend whose every answer is `200 OK` with a token in the body. -/
def tokenBackend : Fetch := fun _ =>
  .ok { status := 200, statusText := "OK", text := "\x7b\"token\":\"jwt-1\"\x7d",
        json := some (.obj [("token", .str "jwt-1")]) }

/-- A backend that answers every request with `400` and a JSON body whose `message` is a list
of validation errors, here an empty one. -/
def validationBackend : Fetch := fun _ =>
  .ok { status := 400, statusText := "Bad Request", text := "\x7b\"message\":[]\x7d",
        json := some (.obj [("message", .arr [])]) }

/-- The admin's page before the list of doctors is loaded. -/
def adminPage : Page := ⟨⟨[("userRole", "admin"), ("token", "abc")]⟩, some [], 0, []⟩

/-- A backend that answers every request with `200 OK` and, as the JSON body, a string that
holds the method and the URL of the request it received. -/
def echoBackend : Fetch := fun request =>
  .ok { status := 200, statusText := "OK",
        text := "\"" ++ request.method ++ " " ++ request.url ++ "\"",
        json := some (.str (request.method ++ " " ++ request.url)) }

/-! ## Theorems -/

theorem lookup_filter_self (items : List (String × String)) (key : String) :
    (items.filter (fun kv => kv.1 != key)).lookup key = none := by
  induction items with
  | nil => rfl
  | cons kv rest ih =>
    obtain ⟨k, v⟩ := kv
    by_cases h : k = key
    · subst h
      simpa [List.filter_cons] using ih
    · have hne : (key == k) = false := by
        simpa using fun e : key = k => h e.symm
      simp only [List.filter_cons, bne_iff_ne, ne_eq, h, not_false_eq_true, decide_True, ite_true,
        List.lookup, hne]
      exact ih

theorem lookup_filter_other (items : List (String × String)) (key other : String)
    (hne : other ≠ key) :
    (items.filter (fun kv => kv.1 != key)).lookup other = items.lookup other := by
  induction items with
  | nil => rfl
  | cons kv rest ih =>
    obtain ⟨k, v⟩ := kv
    by_cases h : k = key
    · subst h
      have hne2 : (other == k) = false := by simpa using hne
      simpa [List.filter_cons, List.lookup, hne2] using ih
    · by_cases h2 : other = k
      · subst h2
        simp [List.filter_cons, h, List.lookup]
      · have hne2 : (other == k) = false := by simpa using h2
        simp only [List.filter_cons, bne_iff_ne, ne_eq, h, not_false_eq_true, decide_True,
          ite_true, List.lookup, hne2]
        exact ih

theorem getItem_removeItem_self (s : LocalStorage) (key : String) :
    (s.removeItem key).getItem key = none :=
  lookup_filter_self s.items key

theorem getItem_removeItem_other (s : LocalStorage) (key other : String) (hne : other ≠ key) :
    (s.removeItem key).getItem other = s.getItem other :=
  lookup_filter_other s.items key other hne

theorem clearSession_userRole (w : World) :
    w.clearSession.localStorage.getItem "userRole" = none := by
  simp only [World.clearSession]
  rw [getItem_removeItem_other _ _ _ (by decide)]
  exact getItem_removeItem_self _ _

theorem clearSession_token (w : World) :
    w.clearSession.localStorage.getItem "token" = none := by
  simp only [World.clearSession]
  exact getItem_removeItem_self _ _

theorem clearSession_other (w : World) (key : String) (h1 : key ≠ "userRole")
    (h2 : key ≠ "token") :
    w.clearSession.localStorage.getItem key = w.localStorage.getItem key := by
  simp only [World.clearSession]
  rw [getItem_removeItem_other _ _ _ h2, getItem_removeItem_other _ _ _ h1]

theorem emitted_emit (w : World) (e : Effect) : emitted w (w.emit e) = [e] := by
  simp [emitted, World.emit]

theorem truthy_eq_false_iff (t : Option String) : truthy t = false ↔ t = none ∨ t = some "" := by
  cases t with
  | none => simp [truthy]
  | some s => simp [truthy]

theorem truthy_eq_true_iff (t : Option String) : truthy t = true ↔ ∃ s, t = some s ∧ s ≠ "" := by
  cases t with
  | none => simp [truthy]
  | some s => simp [truthy]

/-- The function written for `renderHeader`, had the script defined it: on a page whose path
ends neither in "/" nor in "/index.html" and that has the `#header` element, a stored
`userRole` (absent included) that is none of admin, doctor, patient, loggedPatient makes it
assign "/" to `window.location.href` and do nothing else: the header element keeps its
content, no markup is written, the session store is untouched. -/
theorem renderHeaderFunction_unknown_role (w : World) (content : Option Header)
    (hslash : endsWith w.pathname "/" = false)
    (hindex : endsWith w.pathname "/index.html" = false)
    (hheader : w.header = .present content)
    (hrole : ∀ r ∈ ["admin", "doctor", "patient", "loggedPatient"],
      w.localStorage.getItem "userRole" ≠ some r) :
    renderHeaderFunction w = { w with log := w.log ++ [.navigate "/"] }
    ∧ emitted w (renderHeaderFunction w) = [.navigate "/"]
    ∧ (renderHeaderFunction w).header = w.header
    ∧ ∀ m, Effect.setHeaderHTML m ∉ emitted w (renderHeaderFunction w) := by
  have hroot : isRootPath w.pathname = false := by simp [isRootPath, hslash, hindex]
  have h1 := hrole "admin" (by simp)
  have h2 := hrole "doctor" (by simp)
  have h3 := hrole "patient" (by simp)
  have h4 := hrole "loggedPatient" (by simp)
  have key : renderHeaderFunction w = w.emit (.navigate "/") := by
    simp [renderHeaderFunction, hheader, hroot, h1, h2, h3, h4]
  rw [key]
  refine ⟨rfl, emitted_emit _ _, rfl, ?_⟩
  intro m
  simp [emitted_emit]

theorem renderHeaderFunction_unknown_role_witness :
    renderHeaderFunction ⟨"/pages/adminDashboard.html", ⟨[("userRole", "nurse"), ("token", "t0")]⟩,
        .present none, []⟩
      = ⟨"/pages/adminDashboard.html", ⟨[("userRole", "nurse"), ("token", "t0")]⟩,
          .present none, [.navigate "/"]⟩ :=
  (renderHeaderFunction_unknown_role
    ⟨"/pages/adminDashboard.html", ⟨[("userRole", "nurse"), ("token", "t0")]⟩, .present none, []⟩
    none (by decide) (by decide) rfl (by decide)).1

theorem emitted_clearSession_emit (w : World) (e : Effect) :
    emitted w (w.clearSession.emit e) = [e] := by
  simp [emitted, World.emit, World.clearSession]

theorem emitted_attach_setHeaderHTML (w : World) (m : Header) :
    emitted w (attachHeaderButtonListenersFunction (w.setHeaderHTML m)) = [.setHeaderHTML m] := by
  simp [emitted, attachHeaderButtonListenersFunction, World.setHeaderHTML]

theorem localStorage_attach_setHeaderHTML (w : World) (m : Header) :
    (attachHeaderButtonListenersFunction (w.setHeaderHTML m)).localStorage = w.localStorage := by
  simp [attachHeaderButtonListenersFunction, World.setHeaderHTML]

/-- The function written for `renderHeader`, had the script defined it: on a non-root page
(path ending neither in "/" nor in "/index.html", `#header` element present) with stored role
loggedPatient, admin or doctor: if the token is absent or empty, the function removes
`userRole` and `token`, shows the session-expired message box whose callback assigns "/" to
`window.location.href`, and leaves the header element as it was; and whenever it writes header
markup for one of these roles, a non-empty token is stored. -/
theorem renderHeaderFunction_expired_session (w : World) (content : Option Header)
    (hslash : endsWith w.pathname "/" = false)
    (hindex : endsWith w.pathname "/index.html" = false)
    (hheader : w.header = .present content)
    (hrole : w.localStorage.getItem "userRole" = some "loggedPatient"
      ∨ w.localStorage.getItem "userRole" = some "admin"
      ∨ w.localStorage.getItem "userRole" = some "doctor") :
    ((w.localStorage.getItem "token" = none ∨ w.localStorage.getItem "token" = some "") →
        (renderHeaderFunction w).localStorage.getItem "userRole" = none
        ∧ (renderHeaderFunction w).localStorage.getItem "token" = none
        ∧ emitted w (renderHeaderFunction w) =
            [.showMessageBox "Session Expired"
              "Session expired or invalid login. Please log in again." (some (.redirectTo "/"))]
        ∧ emitted (renderHeaderFunction w) (runCallback (renderHeaderFunction w) (.redirectTo "/"))
            = [.navigate "/"]
        ∧ (renderHeaderFunction w).header = w.header)
    ∧ (∀ m, Effect.setHeaderHTML m ∈ emitted w (renderHeaderFunction w) →
        ∃ t, w.localStorage.getItem "token" = some t ∧ t ≠ "") := by
  have hroot : isRootPath w.pathname = false := by simp [isRootPath, hslash, hindex]
  have expired : truthy (w.localStorage.getItem "token") = false →
      renderHeaderFunction w = w.clearSession.emit
        (.showMessageBox "Session Expired"
          "Session expired or invalid login. Please log in again." (some (.redirectTo "/"))) := by
    intro ht
    simp [renderHeaderFunction, hheader, hroot, hrole, ht]
  constructor
  · intro htoken
    rw [expired ((truthy_eq_false_iff _).2 htoken)]
    refine ⟨clearSession_userRole w, clearSession_token w, emitted_clearSession_emit _ _, ?_, rfl⟩
    exact emitted_emit _ _
  · intro m hm
    cases ht : truthy (w.localStorage.getItem "token") with
    | true => exact (truthy_eq_true_iff _).1 ht
    | false =>
      rw [expired ht, emitted_clearSession_emit] at hm
      simp at hm

theorem renderHeaderFunction_expired_session_witness :
    (renderHeaderFunction ⟨"/pages/adminDashboard.html", ⟨[("userRole", "admin")]⟩,
        .present none, []⟩).localStorage.getItem "userRole" = none :=
  ((renderHeaderFunction_expired_session
    ⟨"/pages/adminDashboard.html", ⟨[("userRole", "admin")]⟩, .present none, []⟩
    none (by decide) (by decide) rfl (by decide)).1 (by decide)).1

/-- The function written for `renderHeader`, on the root path of a page without the `#header`
element: it returns at its first guard and the stored role and token are still there. -/
theorem renderHeaderFunction_root_without_header_keeps_session :
    isRootPath "/" = true
    ∧ (renderHeaderFunction ⟨"/", ⟨[("userRole", "admin"), ("token", "abc")]⟩,
        .missing, []⟩).localStorage.getItem "userRole" = some "admin"
    ∧ (renderHeaderFunction ⟨"/", ⟨[("userRole", "admin"), ("token", "abc")]⟩,
        .missing, []⟩).localStorage.getItem "token" = some "abc" := by
  decide

/-- The function written for `renderHeader`, had the script defined it: on the root path
(pathname ending in "/" or "/index.html") of a page that has the `#header` element, for every
prior session state it leaves `userRole` and `token` absent from the session store, every
other key as it was, and the header element holding the minimal root header, the same
whatever role or token was stored. -/
theorem renderHeaderFunction_root_resets_session (w : World) (content : Option Header)
    (hpath : endsWith w.pathname "/" = true ∨ endsWith w.pathname "/index.html" = true)
    (hheader : w.header = .present content) :
    (renderHeaderFunction w).localStorage.getItem "userRole" = none
    ∧ (renderHeaderFunction w).localStorage.getItem "token" = none
    ∧ (∀ key, key ≠ "userRole" → key ≠ "token" →
        (renderHeaderFunction w).localStorage.getItem key = w.localStorage.getItem key)
    ∧ (renderHeaderFunction w).header = .present (some rootHeaderWired)
    ∧ emitted w (renderHeaderFunction w) = [.setHeaderHTML rootHeader] := by
  have hroot : isRootPath w.pathname = true := by
    rcases hpath with h | h <;> simp [isRootPath, h]
  have key : renderHeaderFunction w
      = attachHeaderButtonListenersFunction (w.clearSession.setHeaderHTML rootHeader) := by
    simp [renderHeaderFunction, hheader, hroot]
  rw [key]
  refine ⟨?_, ?_, ?_, ?_, ?_⟩
  · rw [localStorage_attach_setHeaderHTML]; exact clearSession_userRole w
  · rw [localStorage_attach_setHeaderHTML]; exact clearSession_token w
  · intro k h1 h2
    rw [localStorage_attach_setHeaderHTML]; exact clearSession_other w k h1 h2
  · rfl
  · simp [emitted, attachHeaderButtonListenersFunction, World.setHeaderHTML, World.clearSession]

theorem renderHeaderFunction_root_resets_session_witness :
    (renderHeaderFunction ⟨"/index.html", ⟨[("userRole", "doctor"), ("token", "abc")]⟩,
        .present none, []⟩).header = .present (some rootHeaderWired) :=
  (renderHeaderFunction_root_resets_session
    ⟨"/index.html", ⟨[("userRole", "doctor"), ("token", "abc")]⟩, .present none, []⟩
    none (Or.inr (by decide)) rfl).2.2.2.1

/-- The function written for `renderHeader`, had the script defined it: on a non-root page
(path ending neither in "/" nor in "/index.html", `#header` element present) with a valid
session (a non-empty token for admin, doctor and loggedPatient; any token state for patient),
the `<nav>` that it leaves in the header element holds exactly the role's fixed controls, in
this order: admin, Add Doctor and Logout; doctor, Home and Logout; patient, Login and Sign Up;
loggedPatient, Home, Appointments and Logout. One markup is written, the one of that role, and
the session store is not touched. -/
theorem renderHeaderFunction_role_buttons (w : World) (content : Option Header)
    (hslash : endsWith w.pathname "/" = false)
    (hindex : endsWith w.pathname "/index.html" = false)
    (hheader : w.header = .present content) :
    (w.localStorage.getItem "userRole" = some "admin" →
      truthy (w.localStorage.getItem "token") = true →
        navLabels (renderHeaderFunction w).header = [("button", "Add Doctor"), ("a", "Logout")]
        ∧ emitted w (renderHeaderFunction w) = [.setHeaderHTML (headerWith adminNav)]
        ∧ (renderHeaderFunction w).localStorage = w.localStorage)
    ∧ (w.localStorage.getItem "userRole" = some "doctor" →
      truthy (w.localStorage.getItem "token") = true →
        navLabels (renderHeaderFunction w).header = [("button", "Home"), ("a", "Logout")]
        ∧ emitted w (renderHeaderFunction w) = [.setHeaderHTML (headerWith doctorNav)]
        ∧ (renderHeaderFunction w).localStorage = w.localStorage)
    ∧ (w.localStorage.getItem "userRole" = some "patient" →
        navLabels (renderHeaderFunction w).header = [("button", "Login"), ("button", "Sign Up")]
        ∧ emitted w (renderHeaderFunction w) = [.setHeaderHTML (headerWith patientNav)]
        ∧ (renderHeaderFunction w).localStorage = w.localStorage)
    ∧ (w.localStorage.getItem "userRole" = some "loggedPatient" →
      truthy (w.localStorage.getItem "token") = true →
        navLabels (renderHeaderFunction w).header
          = [("button", "Home"), ("button", "Appointments"), ("a", "Logout")]
        ∧ emitted w (renderHeaderFunction w) = [.setHeaderHTML (headerWith loggedPatientNav)]
        ∧ (renderHeaderFunction w).localStorage = w.localStorage) := by
  have hroot : isRootPath w.pathname = false := by simp [isRootPath, hslash, hindex]
  refine ⟨?_, ?_, ?_, ?_⟩
  · intro hr ht
    have key : renderHeaderFunction w
        = attachHeaderButtonListenersFunction (w.setHeaderHTML (headerWith adminNav)) := by
      simp [renderHeaderFunction, hheader, hroot, hr, ht]
    rw [key]
    exact ⟨rfl, emitted_attach_setHeaderHTML _ _, localStorage_attach_setHeaderHTML _ _⟩
  · intro hr ht
    have key : renderHeaderFunction w
        = attachHeaderButtonListenersFunction (w.setHeaderHTML (headerWith doctorNav)) := by
      simp [renderHeaderFunction, hheader, hroot, hr, ht]
    rw [key]
    exact ⟨rfl, emitted_attach_setHeaderHTML _ _, localStorage_attach_setHeaderHTML _ _⟩
  · intro hr
    have key : renderHeaderFunction w
        = attachHeaderButtonListenersFunction (w.setHeaderHTML (headerWith patientNav)) := by
      simp [renderHeaderFunction, hheader, hroot, hr]
    rw [key]
    exact ⟨rfl, emitted_attach_setHeaderHTML _ _, localStorage_attach_setHeaderHTML _ _⟩
  · intro hr ht
    have key : renderHeaderFunction w
        = attachHeaderButtonListenersFunction (w.setHeaderHTML (headerWith loggedPatientNav)) := by
      simp [renderHeaderFunction, hheader, hroot, hr, ht]
    rw [key]
    exact ⟨rfl, emitted_attach_setHeaderHTML _ _, localStorage_attach_setHeaderHTML _ _⟩

theorem renderHeaderFunction_role_buttons_witness :
    navLabels (renderHeaderFunction ⟨"/pages/adminDashboard.html",
        ⟨[("userRole", "admin"), ("token", "abc")]⟩, .present none, []⟩).header
      = [("button", "Add Doctor"), ("a", "Logout")] :=
  ((renderHeaderFunction_role_buttons
    ⟨"/pages/adminDashboard.html", ⟨[("userRole", "admin"), ("token", "abc")]⟩,
      .present none, []⟩
    none (by decide) (by decide) rfl).1 (by decide) (by decide)).1

theorem filterDoctorsParams_pairs (name time specialty : String) :
    (filterDoctorsParams name time specialty).pairs
      = [("name", name), ("time", time), ("specialty", specialty)].filter
          (fun nv => nv.2 != "") := by
  by_cases h1 : name = "" <;> by_cases h2 : time = "" <;> by_cases h3 : specialty = "" <;>
    simp [filterDoctorsParams, URLSearchParams.append, h1, h2, h3, List.filter_cons]

/-- The shared reading of a list response in `getDoctors` and `filterDoctors`: the parsed body
of a successful response, the empty array in every other case. -/
theorem listResponse_cases (outcome : Except JsError Response) :
    (∀ r j, outcome = .ok r → r.ok = true → r.json = some j →
        tryCatch (do
          let response ← outcome
          if !response.ok then
            return Json.arr []
          response.parseJson) (fun _ => pure (Json.arr [])) = .ok j)
    ∧ ((∀ r j, outcome = .ok r → r.ok = true → r.json ≠ some j) →
        tryCatch (do
          let response ← outcome
          if !response.ok then
            return Json.arr []
          response.parseJson) (fun _ => pure (Json.arr [])) = .ok (.arr [])) := by
  constructor
  · intro r j hf hok hj
    simp [tryCatch, hf, hok, Response.parseJson, hj, bind, Except.bind, pure, Except.pure]
  · intro h
    cases hf : outcome with
    | error e => simp [tryCatch, bind, Except.bind, pure, Except.pure]
    | ok r =>
      cases hok : r.ok with
      | false => simp [tryCatch, hok, bind, Except.bind, pure, Except.pure]
      | true =>
        cases hj : r.json with
        | none =>
          simp [tryCatch, hok, Response.parseJson, hj, bind, Except.bind, pure, Except.pure]
        | some j => exact absurd hj (h r j hf hok)

theorem char_valid (c : Char) :
    c.toNat < 0xD800 ∨ (0xDFFF < c.toNat ∧ c.toNat < 0x110000) := c.valid

theorem utf8DecodeFrom_cons (s : Utf8Decoder) (b : Nat) (rest : List Nat) :
    utf8DecodeFrom s (b :: rest) = (s.step b).2 ++ utf8DecodeFrom (s.step b).1 rest := rfl

theorem step_initial (b : Nat) : Utf8Decoder.initial.step b = Utf8Decoder.start b := by
  simp [Utf8Decoder.step, Utf8Decoder.initial]

theorem step_continue (cp needed lower upper b : Nat) (hn : 1 < needed) (hl : lower ≤ b)
    (hu : b ≤ upper) :
    Utf8Decoder.step ⟨cp, needed, lower, upper⟩ b
      = (⟨cp * 64 + (b - 0x80), needed - 1, 0x80, 0xBF⟩, []) := by
  have h0 : ¬ needed = 0 := by omega
  have h1 : ¬ needed = 1 := by omega
  have h2 : ¬ (b < lower ∨ upper < b) := by omega
  simp only [Utf8Decoder.step, h0, h1, h2, if_false]

theorem step_last (cp lower upper b : Nat) (hl : lower ≤ b) (hu : b ≤ upper) :
    Utf8Decoder.step ⟨cp, 1, lower, upper⟩ b
      = (.initial, [Char.ofNat (cp * 64 + (b - 0x80))]) := by
  have h2 : ¬ (b < lower ∨ upper < b) := by omega
  simp [Utf8Decoder.step, h2]

theorem start_one (b : Nat) (h : b < 0x80) :
    Utf8Decoder.start b = (.initial, [Char.ofNat b]) := by
  simp [Utf8Decoder.start, h]

theorem start_two (b : Nat) (h1 : 0xC2 ≤ b) (h2 : b ≤ 0xDF) :
    Utf8Decoder.start b = (⟨b - 0xC0, 1, 0x80, 0xBF⟩, []) := by
  have h0 : ¬ b < 0x80 := by omega
  simp [Utf8Decoder.start, h0, h1, h2]

theorem start_three (b : Nat) (h1 : 0xE0 ≤ b) (h2 : b ≤ 0xEF) :
    Utf8Decoder.start b
      = (⟨b - 0xE0, 2, if b = 0xE0 then 0xA0 else 0x80, if b = 0xED then 0x9F else 0xBF⟩, []) := by
  have h0 : ¬ b < 0x80 := by omega
  have h3 : ¬ (0xC2 ≤ b ∧ b ≤ 0xDF) := by omega
  simp only [Utf8Decoder.start, h0, h3, h1, h2, if_false, and_self, if_true]

theorem start_four (b : Nat) (h1 : 0xF0 ≤ b) (h2 : b ≤ 0xF4) :
    Utf8Decoder.start b
      = (⟨b - 0xF0, 3, if b = 0xF0 then 0x90 else 0x80, if b = 0xF4 then 0x8F else 0xBF⟩, []) := by
  have h0 : ¬ b < 0x80 := by omega
  have h3 : ¬ (0xC2 ≤ b ∧ b ≤ 0xDF) := by omega
  have h4 : ¬ (0xE0 ≤ b ∧ b ≤ 0xEF) := by omega
  simp only [Utf8Decoder.start, h0, h3, h4, h1, h2, if_false, and_self, if_true]

theorem utf8Decode_utf8Bytes (c : Char) (rest : List Nat) :
    utf8DecodeFrom .initial (utf8Bytes c ++ rest) = c :: utf8DecodeFrom .initial rest := by
  have hv := char_valid c
  have hc : ∀ n, n = c.toNat → Char.ofNat n = c := fun n h => h ▸ Char.ofNat_toNat c
  unfold utf8Bytes
  simp only []
  split_ifs with h1 h2 h3
  · rw [List.singleton_append, utf8DecodeFrom_cons, step_initial, start_one _ h1]
    simp
  · rw [List.cons_append, List.singleton_append, utf8DecodeFrom_cons, step_initial,
      start_two _ (by omega) (by omega), utf8DecodeFrom_cons,
      step_last _ _ _ _ (by omega) (by omega)]
    simp only [List.nil_append, List.singleton_append]
    rw [hc _ (by omega)]
  · rw [List.cons_append, List.cons_append, List.singleton_append, utf8DecodeFrom_cons,
      step_initial, start_three _ (by omega) (by omega), utf8DecodeFrom_cons,
      step_continue _ _ _ _ _ (by omega) (by split_ifs <;> omega) (by split_ifs <;> omega),
      utf8DecodeFrom_cons, step_last _ _ _ _ (by omega) (by omega)]
    simp only [List.nil_append, List.singleton_append]
    rw [hc _ (by omega)]
  · rw [List.cons_append, List.cons_append, List.cons_append, List.singleton_append,
      utf8DecodeFrom_cons,
      step_initial, start_four _ (by omega) (by omega), utf8DecodeFrom_cons,
      step_continue _ _ _ _ _ (by omega) (by split_ifs <;> omega) (by split_ifs <;> omega),
      utf8DecodeFrom_cons,
      step_continue _ _ _ _ _ (by omega) (by omega) (by omega),
      utf8DecodeFrom_cons, step_last _ _ _ _ (by omega) (by omega)]
    simp only [List.nil_append, List.singleton_append]
    rw [hc _ (by omega)]

theorem utf8Decode_flatMap_utf8Bytes (cs : List Char) :
    utf8Decode (cs.flatMap utf8Bytes) = cs := by
  unfold utf8Decode
  induction cs with
  | nil => rfl
  | cons c cs ih => rw [List.flatMap_cons, utf8Decode_utf8Bytes, ih]

theorem utf8Bytes_lt (c : Char) : ∀ b ∈ utf8Bytes c, b < 256 := by
  have hv := char_valid c
  intro b hb
  unfold utf8Bytes at hb
  simp only [] at hb
  split_ifs at hb <;> simp at hb <;> omega

theorem hexValue_hexDigit (d : Nat) (h : d < 16) : hexValue (hexDigit d) = some d := by
  interval_cases d <;> rfl

theorem hexDigit_mem (d : Nat) :
    hexDigit d ∈ ['0', '1', '2', '3', '4', '5', '6', '7', '8', '9', 'A', 'B', 'C', 'D', 'E', 'F'] := by
  by_cases h : d < 16
  · interval_cases d <;> simp [hexDigit]
  · have : hexDigit d = '0' := by
      unfold hexDigit
      rw [List.getD_eq_default]
      simpa using h
    simp [this]

theorem percentDecode_plain (c : Char) (hc : c ≠ '%') (t : List Char) :
    percentDecode (c :: t) = plainBytes c ++ percentDecode t := by
  match t with
  | [] => simp [percentDecode]
  | [h] => simp [percentDecode]
  | h :: l :: rest => simp [percentDecode, hc]

theorem percentDecode_percentByte (b : Nat) (hb : b < 256) (t : List Char) :
    percentDecode (percentByte b ++ t) = b :: percentDecode t := by
  have h1 := hexValue_hexDigit (b / 16) (by omega)
  have h2 := hexValue_hexDigit (b % 16) (by omega)
  simp only [percentByte, List.cons_append, List.nil_append, percentDecode, h1, h2, if_true]
  congr 1
  omega

theorem percentDecode_bytes (bs : List Nat) (hbs : ∀ b ∈ bs, b < 256) (t : List Char) :
    percentDecode (bs.flatMap percentByte ++ t) = bs ++ percentDecode t := by
  induction bs with
  | nil => rfl
  | cons b bs ih =>
    rw [List.flatMap_cons, List.append_assoc,
      percentDecode_percentByte b (hbs b (List.mem_cons_self _ _)),
      ih (fun x hx => hbs x (List.mem_cons_of_mem _ hx))]
    rfl

theorem formSafe_ne (c : Char) (h : formSafe c = true) :
    c ≠ '%' ∧ c ≠ '+' ∧ c ≠ '&' ∧ c ≠ '=' := by
  refine ⟨?_, ?_, ?_, ?_⟩ <;> (intro e; subst e; revert h; decide)

theorem percentDecode_formEncodeChar (c : Char) (t : List Char) :
    percentDecode (formEncodeChar c ++ t) = utf8Bytes c ++ percentDecode t := by
  unfold formEncodeChar
  split_ifs with h1 h2
  · subst h1
    rw [List.singleton_append, percentDecode_plain _ (by decide)]
    rfl
  · have hs := formSafe_ne c h2
    rw [List.singleton_append, percentDecode_plain _ hs.1]
    simp [plainBytes, hs.2.1]
  · exact percentDecode_bytes _ (utf8Bytes_lt c) t

theorem percentDecode_formEncode (cs : List Char) :
    percentDecode (cs.flatMap formEncodeChar) = cs.flatMap utf8Bytes := by
  induction cs with
  | nil => rfl
  | cons c cs ih =>
    rw [List.flatMap_cons, percentDecode_formEncodeChar, ih, List.flatMap_cons]

theorem formDecode_formEncode (s : String) : formDecode (formEncode s) = s := by
  unfold formDecode formEncode
  rw [percentDecode_formEncode, utf8Decode_flatMap_utf8Bytes]

theorem formEncodeChar_no_separator (c x : Char) (hx : x ∈ formEncodeChar c) :
    x ≠ '&' ∧ x ≠ '=' := by
  unfold formEncodeChar at hx
  split_ifs at hx with h1 h2
  · simp at hx; subst hx; decide
  · simp at hx; subst hx
    exact ⟨(formSafe_ne _ h2).2.2.1, (formSafe_ne _ h2).2.2.2⟩
  · simp only [List.mem_flatMap, percentByte, List.mem_cons, List.mem_singleton,
      List.not_mem_nil, or_false] at hx
    obtain ⟨b, _, hb⟩ := hx
    rcases hb with hb | hb | hb
    · subst hb; decide
    · have := hexDigit_mem (b / 16)
      rw [← hb] at this
      constructor <;> (intro e; subst e; revert this; decide)
    · have := hexDigit_mem (b % 16)
      rw [← hb] at this
      constructor <;> (intro e; subst e; revert this; decide)

theorem formEncode_no_separator (s : String) (x : Char) (hx : x ∈ formEncode s) :
    x ≠ '&' ∧ x ≠ '=' := by
  unfold formEncode at hx
  rw [List.mem_flatMap] at hx
  obtain ⟨c, _, hc⟩ := hx
  exact formEncodeChar_no_separator c x hc

theorem takeWhile_until (p : Char → Bool) (xs : List Char) (a : Char) (ys : List Char)
    (hxs : ∀ x ∈ xs, p x = true) (ha : p a = false) :
    (xs ++ a :: ys).takeWhile p = xs ∧ (xs ++ a :: ys).dropWhile p = a :: ys := by
  induction xs with
  | nil => simp [List.takeWhile, List.dropWhile, ha]
  | cons x xs ih =>
    have hx := hxs x (List.mem_cons_self _ _)
    have := ih (fun y hy => hxs y (List.mem_cons_of_mem _ hy))
    simp [List.takeWhile, List.dropWhile, hx, this.1, this.2]

theorem parsePair_encodePair (nv : String × String) :
    (formDecode ((formEncode nv.1 ++ '=' :: formEncode nv.2).takeWhile (· != '=')),
      formDecode (((formEncode nv.1 ++ '=' :: formEncode nv.2).dropWhile (· != '=')).drop 1))
      = nv := by
  have h := takeWhile_until (· != '=') (formEncode nv.1) '=' (formEncode nv.2)
    (fun x hx => by simpa using (formEncode_no_separator nv.1 x hx).2) (by simp)
  rw [h.1, h.2]
  simp [formDecode_formEncode]

theorem parseQuery_toString (p : URLSearchParams) : parseQuery p.toString = p.pairs := by
  obtain ⟨pairs⟩ := p
  unfold parseQuery URLSearchParams.toString
  simp only
  by_cases hp : pairs = []
  · subst hp; rfl
  · rw [List.splitOn_intercalate]
    · rw [List.filter_eq_self.2]
      · rw [List.map_map]
        conv_rhs => rw [← List.map_id pairs]
        apply List.map_congr_left
        intro nv _
        exact parsePair_encodePair nv
      · intro l hl
        rw [List.mem_map] at hl
        obtain ⟨nv, _, rfl⟩ := hl
        simp
    · intro l hl hmem
      rw [List.mem_map] at hl
      obtain ⟨nv, _, rfl⟩ := hl
      rw [List.mem_append, List.mem_cons] at hmem
      rcases hmem with h | h | h
      · exact (formEncode_no_separator nv.1 _ h).1 rfl
      · exact absurd h (by decide)
      · exact (formEncode_no_separator nv.2 _ h).1 rfl
    · simpa using hp

/-- The request that `filterDoctors` builds: its URL is `DOCTOR_API + "/filter?"` followed by a
query string which, read back by the URL Standard's parser, carries exactly the parameters of
the fields name, time, specialty, in this order, whose argument is not empty, each with the
argument as its value. -/
theorem filterDoctorsRequest_query_parameters (API_BASE_URL name time specialty : String) :
    (filterDoctorsRequest API_BASE_URL name time specialty).url
      = DOCTOR_API API_BASE_URL ++ "/filter?"
          ++ (filterDoctorsParams name time specialty).toString
    ∧ parseQuery (filterDoctorsParams name time specialty).toString
      = [("name", name), ("time", time), ("specialty", specialty)].filter
          (fun nv => nv.2 != "")
    ∧ (∀ value, ("name", value) ∈ parseQuery (filterDoctorsParams name time specialty).toString
        ↔ name ≠ "" ∧ value = name)
    ∧ (∀ value, ("time", value) ∈ parseQuery (filterDoctorsParams name time specialty).toString
        ↔ time ≠ "" ∧ value = time)
    ∧ (∀ value,
        ("specialty", value) ∈ parseQuery (filterDoctorsParams name time specialty).toString
        ↔ specialty ≠ "" ∧ value = specialty)
    ∧ (∀ field value,
        (field, value) ∈ parseQuery (filterDoctorsParams name time specialty).toString →
        field = "name" ∨ field = "time" ∨ field = "specialty")
    ∧ (filterDoctorsParams "Smith" "" "").toString = "name=Smith"
    ∧ (filterDoctorsRequest API_BASE_URL "Smith" "" "").url
      = DOCTOR_API API_BASE_URL ++ "/filter?name=Smith" := by
  have hq : parseQuery (filterDoctorsParams name time specialty).toString
      = [("name", name), ("time", time), ("specialty", specialty)].filter
          (fun nv => nv.2 != "") := by
    rw [parseQuery_toString, filterDoctorsParams_pairs]
  refine ⟨rfl, hq, ?_, ?_, ?_, ?_, by decide, ?_⟩
  · intro value
    rw [hq]
    by_cases h1 : name = "" <;> by_cases h2 : time = "" <;> by_cases h3 : specialty = "" <;>
      simp [List.filter_cons, h1, h2, h3]
  · intro value
    rw [hq]
    by_cases h1 : name = "" <;> by_cases h2 : time = "" <;> by_cases h3 : specialty = "" <;>
      simp [List.filter_cons, h1, h2, h3]
  · intro value
    rw [hq]
    by_cases h1 : name = "" <;> by_cases h2 : time = "" <;> by_cases h3 : specialty = "" <;>
      simp [List.filter_cons, h1, h2, h3]
  · intro field value
    rw [hq]
    by_cases h1 : name = "" <;> by_cases h2 : time = "" <;> by_cases h3 : specialty = "" <;>
      simp [List.filter_cons, h1, h2, h3] <;> tauto
  · show DOCTOR_API API_BASE_URL ++ "/filter?" ++ (filterDoctorsParams "Smith" "" "").toString = _
    rw [show (filterDoctorsParams "Smith" "" "").toString = "name=Smith" by decide,
      String.append_assoc]
    congr 1

theorem listResponse_never_throws (outcome : Except JsError Response) (e : JsError) :
    tryCatch (do
      let response ← outcome
      if !response.ok then
        return Json.arr []
      response.parseJson) (fun _ => pure (Json.arr [])) ≠ .error e := by
  unfold tryCatch
  split
  · simp
  · simp [pure, Except.pure]

/-- C6, as stated, fails: with all criteria empty `filterDoctors` requests
`DOCTOR_API + "/filter?"` while `getDoctors` requests `DOCTOR_API`, and a backend that serves
only the latter gives `getDoctors` its list and `filterDoctors` the empty array. -/
theorem filterDoctors_empty_is_another_request :
    (filterDoctorsRequest "http://localhost:8080" "" "" "").url
      = "http://localhost:8080/doctor/filter?"
    ∧ (getDoctorsRequest "http://localhost:8080").url = "http://localhost:8080/doctor"
    ∧ filterDoctors "http://localhost:8080" listOnlyBackend "" "" "" = .ok (.arr [])
    ∧ getDoctors "http://localhost:8080" listOnlyBackend
      = .ok (.arr [.obj [("id", .num "1"), ("name", .str "A")]])
    ∧ filterDoctors "http://localhost:8080" listOnlyBackend "" "" ""
      ≠ getDoctors "http://localhost:8080" listOnlyBackend := by
  refine ⟨by decide, by decide, rfl, rfl, ?_⟩
  intro h
  have h2 : (Except.ok (Json.arr []) : Except JsError Json)
      = .ok (.arr [.obj [("id", .num "1"), ("name", .str "A")]]) := h
  injection h2 with h3
  injection h3 with h4
  cases h4

/-- C6, amended: `filterDoctors("", "", "")` appends no query parameters; it sends a GET without
headers or body, as `getDoctors()` does, but to `DOCTOR_API + "/filter?"`, which is never the
URL `DOCTOR_API` of `getDoctors()`; the two yield the same result whenever the backend gives
the two requests the same outcome. -/
theorem filterDoctors_empty_criteria (API_BASE_URL : String) (fetch : Fetch) :
    (filterDoctorsParams "" "" "").pairs = []
    ∧ (filterDoctorsParams "" "" "").toString = ""
    ∧ filterDoctorsRequest API_BASE_URL "" "" ""
      = { getDoctorsRequest API_BASE_URL with url := DOCTOR_API API_BASE_URL ++ "/filter?" }
    ∧ (filterDoctorsRequest API_BASE_URL "" "" "").url ≠ (getDoctorsRequest API_BASE_URL).url
    ∧ (fetch (filterDoctorsRequest API_BASE_URL "" "" "") = fetch (getDoctorsRequest API_BASE_URL)
        → filterDoctors API_BASE_URL fetch "" "" "" = getDoctors API_BASE_URL fetch) := by
  have hq : (filterDoctorsParams "" "" "").toString = "" := by decide
  have hurl : (filterDoctorsRequest API_BASE_URL "" "" "").url
      = DOCTOR_API API_BASE_URL ++ "/filter?" := by
    show DOCTOR_API API_BASE_URL ++ "/filter?" ++ (filterDoctorsParams "" "" "").toString = _
    rw [hq]; simp
  refine ⟨by decide, hq, ?_, ?_, ?_⟩
  · simp only [filterDoctorsRequest, getDoctorsRequest, hq]; simp
  · rw [hurl]
    intro h
    have hlen := congrArg String.length h
    simp [getDoctorsRequest, String.length_append] at hlen
    have h8 : "/filter?".length = 8 := by decide
    omega
  · intro h
    simp only [filterDoctors, getDoctors, h]

theorem filterDoctors_empty_criteria_witness :
    filterDoctors "http://localhost:8080" createdBackend "" "" ""
      = getDoctors "http://localhost:8080" createdBackend :=
  (filterDoctors_empty_criteria "http://localhost:8080" createdBackend).2.2.2.2 rfl

/-- C7: whatever the request gives, `getDoctors` and `filterDoctors` return normally: the parsed
JSON body when the response is successful and its body parses, the empty array when the status
is not a success, when the body does not parse, and when `fetch` throws. Neither ever throws. -/
theorem list_services_swallow_failures (API_BASE_URL : String) (fetch : Fetch)
    (name time specialty : String) :
    ((∀ r j, fetch (getDoctorsRequest API_BASE_URL) = .ok r → r.ok = true → r.json = some j →
        getDoctors API_BASE_URL fetch = .ok j)
      ∧ (∀ r, fetch (getDoctorsRequest API_BASE_URL) = .ok r → r.ok = false →
        getDoctors API_BASE_URL fetch = .ok (.arr []))
      ∧ (∀ r, fetch (getDoctorsRequest API_BASE_URL) = .ok r → r.json = none →
        getDoctors API_BASE_URL fetch = .ok (.arr []))
      ∧ (∀ e, fetch (getDoctorsRequest API_BASE_URL) = .error e →
        getDoctors API_BASE_URL fetch = .ok (.arr []))
      ∧ (∀ e, getDoctors API_BASE_URL fetch ≠ .error e))
    ∧ ((∀ r j, fetch (filterDoctorsRequest API_BASE_URL name time specialty) = .ok r →
          r.ok = true → r.json = some j →
        filterDoctors API_BASE_URL fetch name time specialty = .ok j)
      ∧ (∀ r, fetch (filterDoctorsRequest API_BASE_URL name time specialty) = .ok r →
          r.ok = false →
        filterDoctors API_BASE_URL fetch name time specialty = .ok (.arr []))
      ∧ (∀ r, fetch (filterDoctorsRequest API_BASE_URL name time specialty) = .ok r →
          r.json = none →
        filterDoctors API_BASE_URL fetch name time specialty = .ok (.arr []))
      ∧ (∀ e, fetch (filterDoctorsRequest API_BASE_URL name time specialty) = .error e →
        filterDoctors API_BASE_URL fetch name time specialty = .ok (.arr []))
      ∧ (∀ e, filterDoctors API_BASE_URL fetch name time specialty ≠ .error e)) := by
  constructor
  · refine ⟨?_, ?_, ?_, ?_, ?_⟩
    · intro r j hf hok hj
      exact (listResponse_cases _).1 r j hf hok hj
    · intro r hf hok
      refine (listResponse_cases _).2 ?_
      intro r2 j hf2 hok2
      rw [hf] at hf2; cases hf2; simp [hok] at hok2
    · intro r hf hj
      refine (listResponse_cases _).2 ?_
      intro r2 j hf2 _
      rw [hf] at hf2; cases hf2; simp [hj]
    · intro e hf
      refine (listResponse_cases _).2 ?_
      intro r2 j hf2
      rw [hf] at hf2; cases hf2
    · intro e
      exact listResponse_never_throws _ e
  · refine ⟨?_, ?_, ?_, ?_, ?_⟩
    · intro r j hf hok hj
      exact (listResponse_cases _).1 r j hf hok hj
    · intro r hf hok
      refine (listResponse_cases _).2 ?_
      intro r2 j hf2 hok2
      rw [hf] at hf2; cases hf2; simp [hok] at hok2
    · intro r hf hj
      refine (listResponse_cases _).2 ?_
      intro r2 j hf2 _
      rw [hf] at hf2; cases hf2; simp [hj]
    · intro e hf
      refine (listResponse_cases _).2 ?_
      intro r2 j hf2
      rw [hf] at hf2; cases hf2
    · intro e
      exact listResponse_never_throws _ e

theorem list_services_swallow_failures_witness :
    getDoctors "http://localhost:8080" listOnlyBackend
        = .ok (.arr [.obj [("id", .num "1"), ("name", .str "A")]])
    ∧ filterDoctors "http://localhost:8080" listOnlyBackend "Smith" "" "" = .ok (.arr []) :=
  ⟨(list_services_swallow_failures "http://localhost:8080" listOnlyBackend "Smith" "" "").1.1
      { status := 200, statusText := "OK", text := "[\x7b\"id\":1,\"name\":\"A\"\x7d]",
        json := some (.arr [.obj [("id", .num "1"), ("name", .str "A")]]) }
      (.arr [.obj [("id", .num "1"), ("name", .str "A")]]) rfl rfl rfl,
   (list_services_swallow_failures "http://localhost:8080" listOnlyBackend "Smith" "" "").2.2.1
      { status := 404, statusText := "Not Found", text := "", json := none } rfl rfl⟩

/-- C8, as stated, fails: a `201 Created` response, which is not status 200, gives
`success: true`; and a `200` response whose body is not JSON gives `success: false`. -/
theorem saveDoctor_success_is_not_status_200 :
    (createdBackend (saveDoctorRequest "http://localhost:8080"
        (.obj [("name", .str "A"), ("email", .str "a@x.org")]) "tok")).map (fun r => r.status)
      = .ok 201
    ∧ saveDoctor "http://localhost:8080" createdBackend
        (.obj [("name", .str "A"), ("email", .str "a@x.org")]) "tok"
      = .ok { success := true, message := some (.str "Doctor A added successfully!") }
    ∧ (plainTextBackend (saveDoctorRequest "http://localhost:8080"
        (.obj [("name", .str "A"), ("email", .str "a@x.org")]) "tok")).map (fun r => r.status)
      = .ok 200
    ∧ saveDoctor "http://localhost:8080" plainTextBackend
        (.obj [("name", .str "A"), ("email", .str "a@x.org")]) "tok"
      = .ok { success := false,
              message := some (.str "An unexpected network error occurred during saving.") } :=
  ⟨rfl, rfl, rfl, rfl⟩

/-- C8, amended: `saveDoctor` returns `{success: true, "Doctor <name> added successfully!"}`
when the response is ok (status 200 to 299) and its body parses to JSON other than `null`;
for a status outside 200 to 299 it returns `{success: false, message}`, where the message is
the body's `message` when that is truthy and "Failed to add doctor." otherwise, a body that is
not JSON counting as one without a message; a network exception gives `{success: false,
"An unexpected network error occurred during saving."}`, and so do an ok response whose body
does not parse and a response whose body is the JSON `null`. It never throws. -/
theorem saveDoctor_outcomes (API_BASE_URL : String) (fetch : Fetch) (doctor : Json)
    (token : String) :
    (∀ r data name, fetch (saveDoctorRequest API_BASE_URL doctor token) = .ok r →
        r.ok = true → r.json = some data → getProp data "name" = .ok name →
        saveDoctor API_BASE_URL fetch doctor token
          = .ok { success := true,
                  message := some (.str ("Doctor " ++ toStr name ++ " added successfully!")) })
    ∧ (∀ r errorData m, fetch (saveDoctorRequest API_BASE_URL doctor token) = .ok r →
        r.ok = false → (r.json = some errorData ∨ (r.json = none ∧ errorData = .obj [])) →
        getProp errorData "message" = .ok m →
        saveDoctor API_BASE_URL fetch doctor token
          = .ok { success := false,
                  message := if jsTruthy m then m else some (.str "Failed to add doctor.") })
    ∧ (∀ e, fetch (saveDoctorRequest API_BASE_URL doctor token) = .error e →
        saveDoctor API_BASE_URL fetch doctor token
          = .ok { success := false,
                  message := some (.str "An unexpected network error occurred during saving.") })
    ∧ (∀ r, fetch (saveDoctorRequest API_BASE_URL doctor token) = .ok r →
        (r.ok = true ∧ r.json = none) ∨ r.json = some .null →
        saveDoctor API_BASE_URL fetch doctor token
          = .ok { success := false,
                  message := some (.str "An unexpected network error occurred during saving.") })
    ∧ (∀ e, saveDoctor API_BASE_URL fetch doctor token ≠ .error e) := by
  refine ⟨?_, ?_, ?_, ?_, ?_⟩
  · intro r data name hf hok hj hn
    simp [saveDoctor, tryCatch, hf, hok, Response.parseJson, hj, hn, bind, Except.bind, pure,
      Except.pure]
  · intro r errorData m hf hok hj hm
    rcases hj with hj | ⟨hj, hd⟩
    · simp [saveDoctor, tryCatch, hf, hok, Response.parseJson, hj, hm, jsOr, bind, Except.bind,
        pure, Except.pure]
    · subst hd
      simp only [getProp] at hm
      cases hm
      simp [saveDoctor, tryCatch, hf, hok, Response.parseJson, hj, getProp, jsOr, jsTruthy, bind,
        Except.bind, pure, Except.pure]
  · intro e hf
    simp [saveDoctor, tryCatch, hf, bind, Except.bind, pure, Except.pure]
  · intro r hf h
    rcases h with ⟨hok, hj⟩ | hj
    · simp [saveDoctor, tryCatch, hf, hok, Response.parseJson, hj, bind, Except.bind, pure,
        Except.pure]
    · cases hok : r.ok <;>
        simp [saveDoctor, tryCatch, hf, hok, Response.parseJson, hj, getProp, bind, Except.bind,
          pure, Except.pure]
  · intro e
    unfold saveDoctor tryCatch
    split
    · simp
    · simp [pure, Except.pure]

theorem saveDoctor_outcomes_witness :
    saveDoctor "http://localhost:8080" errorBackend (.obj [("name", .str "A")]) "tok"
      = .ok { success := false, message := some (.str "Email already exists") } :=
  (saveDoctor_outcomes "http://localhost:8080" errorBackend (.obj [("name", .str "A")]) "tok").2.1
    { status := 500, statusText := "Internal Server Error",
      text := "\x7b\"message\":\"Email already exists\"\x7d",
      json := some (.obj [("message", .str "Email already exists")]) }
    (.obj [("message", .str "Email already exists")]) (some (.str "Email already exists"))
    rfl rfl (Or.inl rfl) rfl

/-- C9, as stated, fails: a `204 No Content` response, a status that is neither 200 nor 404,
gives `success: true`; and a `500` response whose body is the JSON `null` gives the
network-error message, not one that starts with "Deletion failed: ". -/
theorem deleteDoctor_other_status_can_succeed :
    (noContentBackend (deleteDoctorRequest "http://localhost:8080" (some (.num "1")) "tok")).map
        (fun r => r.status) = .ok 204
    ∧ deleteDoctor "http://localhost:8080" noContentBackend (some (.num "1")) "tok"
      = .ok { success := true, message := some (.str "Doctor deleted successfully.") }
    ∧ (nullErrorBackend (deleteDoctorRequest "http://localhost:8080" (some (.num "1")) "tok")).map
        (fun r => r.status) = .ok 500
    ∧ deleteDoctor "http://localhost:8080" nullErrorBackend (some (.num "1")) "tok"
      = .ok { success := false,
              message := some (.str "An unexpected network error occurred.") } :=
  ⟨rfl, rfl, rfl, rfl⟩

/-- C9, amended: `deleteDoctor` returns `success: true`, with the body text or, when that is
empty, "Doctor deleted successfully." as message, when the response is ok (status 200 to 299);
`{success: false, "Doctor not found."}` when the status is 404; for every other status
`success: false` with message "Deletion failed: " followed by the body's `message` when that
is truthy and by the status text otherwise, a body that is not JSON counting as one without a
message; and `{success: false, "An unexpected network error occurred."}` on a network
exception, and equally for such an other status when the body is the JSON `null`. It never
throws. -/
theorem deleteDoctor_outcomes (API_BASE_URL : String) (fetch : Fetch) (id : JsVal)
    (token : String) :
    (∀ r, fetch (deleteDoctorRequest API_BASE_URL id token) = .ok r → r.ok = true →
        deleteDoctor API_BASE_URL fetch id token
          = .ok { success := true,
                  message := some (.str (if r.text = "" then "Doctor deleted successfully."
                                         else r.text)) })
    ∧ (∀ r, fetch (deleteDoctorRequest API_BASE_URL id token) = .ok r → r.status = 404 →
        deleteDoctor API_BASE_URL fetch id token
          = .ok { success := false, message := some (.str "Doctor not found.") })
    ∧ (∀ r errorData m, fetch (deleteDoctorRequest API_BASE_URL id token) = .ok r →
        r.ok = false → r.status ≠ 404 →
        (r.json = some errorData ∨ (r.json = none ∧ errorData = .obj [])) →
        getProp errorData "message" = .ok m →
        deleteDoctor API_BASE_URL fetch id token
          = .ok { success := false,
                  message := some (.str ("Deletion failed: "
                    ++ if jsTruthy m then toStr m else r.statusText)) })
    ∧ (∀ e, fetch (deleteDoctorRequest API_BASE_URL id token) = .error e →
        deleteDoctor API_BASE_URL fetch id token
          = .ok { success := false,
                  message := some (.str "An unexpected network error occurred.") })
    ∧ (∀ r, fetch (deleteDoctorRequest API_BASE_URL id token) = .ok r →
        r.ok = false → r.status ≠ 404 → r.json = some .null →
        deleteDoctor API_BASE_URL fetch id token
          = .ok { success := false,
                  message := some (.str "An unexpected network error occurred.") })
    ∧ (∀ e, deleteDoctor API_BASE_URL fetch id token ≠ .error e) := by
  refine ⟨?_, ?_, ?_, ?_, ?_, ?_⟩
  · intro r hf hok
    by_cases ht : r.text = "" <;>
      simp [deleteDoctor, tryCatch, hf, hok, jsOr, jsTruthy, ht, bind, Except.bind, pure,
        Except.pure]
  · intro r hf hs
    have hok : r.ok = false := by simp [Response.ok, hs]
    simp [deleteDoctor, tryCatch, hf, hok, hs, bind, Except.bind, pure, Except.pure]
  · intro r errorData m hf hok hs hj hm
    rcases hj with hj | ⟨hj, hd⟩
    · by_cases hm2 : jsTruthy m = true <;>
        simp [deleteDoctor, tryCatch, hf, hok, hs, Response.parseJson, hj, hm, jsOr, hm2, toStr,
          Json.toStr, bind, Except.bind, pure, Except.pure]
    · subst hd
      simp only [getProp] at hm
      cases hm
      simp [deleteDoctor, tryCatch, hf, hok, hs, Response.parseJson, hj, getProp, jsOr, jsTruthy,
        toStr, Json.toStr, bind, Except.bind, pure, Except.pure]
  · intro e hf
    simp [deleteDoctor, tryCatch, hf, bind, Except.bind, pure, Except.pure]
  · intro r hf hok hs hj
    simp [deleteDoctor, tryCatch, hf, hok, hs, Response.parseJson, hj, getProp, bind,
      Except.bind, pure, Except.pure]
  · intro e
    unfold deleteDoctor tryCatch
    split
    · simp
    · simp [pure, Except.pure]

theorem deleteDoctor_outcomes_witness :
    deleteDoctor "http://localhost:8080" errorBackend (some (.num "1")) "tok"
      = .ok { success := false,
              message := some (.str "Deletion failed: Email already exists") } :=
  (deleteDoctor_outcomes "http://localhost:8080" errorBackend (some (.num "1")) "tok").2.2.1
    { status := 500, statusText := "Internal Server Error",
      text := "\x7b\"message\":\"Email already exists\"\x7d",
      json := some (.obj [("message", .str "Email already exists")]) }
    (.obj [("message", .str "Email already exists")]) (some (.str "Email already exists"))
    rfl rfl (by decide) (Or.inl rfl) rfl

theorem createDoctorCard_buttons (localStorage : LocalStorage) (doctor : Doctor) :
    (createDoctorCard localStorage doctor).buttons
      = if localStorage.getItem "userRole" = some "admin" then
          [{ tag := "button", classes := ["danger-btn"], attrs := [], textContent := "Delete",
             listeners := [.confirmDelete doctor] }]
        else if localStorage.getItem "userRole" = some "patient" then
          [{ tag := "button", classes := ["primary-btn"], attrs := [], textContent := "Book Now",
             listeners := [.loginRequired] }]
        else if localStorage.getItem "userRole" = some "loggedPatient" then
          [{ tag := "button", classes := ["primary-btn"], attrs := [], textContent := "Book Now",
             listeners := [.bookAppointment doctor] }]
        else [] := by
  by_cases h1 : localStorage.getItem "userRole" = some "admin"
  · simp [createDoctorCard, Card.buttons, Card.appendChild, Div.appendChild, h1]
  · by_cases h2 : localStorage.getItem "userRole" = some "patient"
    · simp [createDoctorCard, Card.buttons, Card.appendChild, Div.appendChild, h1, h2]
    · by_cases h3 : localStorage.getItem "userRole" = some "loggedPatient"
      · simp [createDoctorCard, Card.buttons, Card.appendChild, Div.appendChild, h1, h2, h3]
      · simp [createDoctorCard, Card.buttons, Card.appendChild, Div.appendChild, h1, h2, h3]

theorem createDoctorCard_hasActionsContainer (localStorage : LocalStorage) (doctor : Doctor) :
    (createDoctorCard localStorage doctor).hasActionsContainer
      = decide (localStorage.getItem "userRole" = some "admin"
          ∨ localStorage.getItem "userRole" = some "patient"
          ∨ localStorage.getItem "userRole" = some "loggedPatient") := by
  by_cases h1 : localStorage.getItem "userRole" = some "admin"
  · simp [createDoctorCard, Card.hasActionsContainer, Card.appendChild, Div.appendChild, h1]
  · by_cases h2 : localStorage.getItem "userRole" = some "patient"
    · simp [createDoctorCard, Card.hasActionsContainer, Card.appendChild, Div.appendChild, h1, h2]
    · by_cases h3 : localStorage.getItem "userRole" = some "loggedPatient"
      · simp [createDoctorCard, Card.hasActionsContainer, Card.appendChild, Div.appendChild,
          h1, h2, h3]
      · simp [createDoctorCard, Card.hasActionsContainer, Card.appendChild, Div.appendChild,
          h1, h2, h3]

/-- C10: for every doctor record and every stored role, the card that `createDoctorCard` builds
has at most one button, and which one depends on the role alone: a Delete button exactly when
the role is admin, a Book Now button exactly when the role is patient or loggedPatient, and
for every other role, an absent one included, no button and no actions container. -/
theorem createDoctorCard_action_button (localStorage : LocalStorage) (doctor : Doctor) :
    (createDoctorCard localStorage doctor).buttons.length ≤ 1
    ∧ ((createDoctorCard localStorage doctor).buttonLabels = ["Delete"]
        ↔ localStorage.getItem "userRole" = some "admin")
    ∧ ((createDoctorCard localStorage doctor).buttonLabels = ["Book Now"]
        ↔ (localStorage.getItem "userRole" = some "patient"
            ∨ localStorage.getItem "userRole" = some "loggedPatient"))
    ∧ ((createDoctorCard localStorage doctor).buttons = []
          ∧ (createDoctorCard localStorage doctor).hasActionsContainer = false
        ↔ (localStorage.getItem "userRole" ≠ some "admin"
            ∧ localStorage.getItem "userRole" ≠ some "patient"
            ∧ localStorage.getItem "userRole" ≠ some "loggedPatient"))
    ∧ (∀ (otherStorage : LocalStorage) (otherDoctor : Doctor),
        otherStorage.getItem "userRole" = localStorage.getItem "userRole" →
        (createDoctorCard otherStorage otherDoctor).buttonLabels
          = (createDoctorCard localStorage doctor).buttonLabels) := by
  have hb := createDoctorCard_buttons localStorage doctor
  have hc := createDoctorCard_hasActionsContainer localStorage doctor
  refine ⟨?_, ?_, ?_, ?_, ?_⟩
  · rw [hb]; split_ifs <;> simp
  · unfold Card.buttonLabels; rw [hb]; split_ifs <;> simp_all
  · unfold Card.buttonLabels; rw [hb]; split_ifs <;> simp_all
  · rw [hb, hc]; split_ifs <;> simp_all
  · intro otherStorage otherDoctor h
    unfold Card.buttonLabels
    rw [hb, createDoctorCard_buttons, h]
    split_ifs <;> rfl

theorem createDoctorCard_action_button_witness :
    (createDoctorCard ⟨[("userRole", "doctor")]⟩ ⟨[("id", .num "2"), ("name", .str "B")]⟩).buttonLabels
      = (createDoctorCard ⟨[("userRole", "doctor"), ("token", "abc")]⟩
          ⟨[("id", .num "1"), ("name", .str "A")]⟩).buttonLabels :=
  (createDoctorCard_action_button ⟨[("userRole", "doctor"), ("token", "abc")]⟩
    ⟨[("id", .num "1"), ("name", .str "A")]⟩).2.2.2.2
    ⟨[("userRole", "doctor")]⟩ ⟨[("id", .num "2"), ("name", .str "B")]⟩ rfl

/-- The functions written for `logout` and `logoutPatient`, had the script defined them: for
every prior session state both leave `userRole` and `token` absent from the session store and
every other key as it was; the one further thing the first does is to assign "/" to
`window.location.href`, and the second assigns "/pages/patientDashboard.html". -/
theorem logoutFunction_clears_session (w : World) :
    ((logoutFunction w).localStorage.getItem "userRole" = none
      ∧ (logoutFunction w).localStorage.getItem "token" = none
      ∧ (∀ key, key ≠ "userRole" → key ≠ "token" →
          (logoutFunction w).localStorage.getItem key = w.localStorage.getItem key)
      ∧ emitted w (logoutFunction w) = [.navigate "/"])
    ∧ ((logoutPatientFunction w).localStorage.getItem "userRole" = none
      ∧ (logoutPatientFunction w).localStorage.getItem "token" = none
      ∧ (∀ key, key ≠ "userRole" → key ≠ "token" →
          (logoutPatientFunction w).localStorage.getItem key = w.localStorage.getItem key)
      ∧ emitted w (logoutPatientFunction w) = [.navigate "/pages/patientDashboard.html"]) :=
  ⟨⟨clearSession_userRole w, clearSession_token w, clearSession_other w,
      emitted_clearSession_emit w _⟩,
   ⟨clearSession_userRole w, clearSession_token w, clearSession_other w,
      emitted_clearSession_emit w _⟩⟩

theorem effectsSince_emit (p : Page) (e : PageEffect) : p.effectsSince (p.emit e) = [e] := by
  simp [Page.effectsSince, Page.emit]

theorem effectsSince_append (p q : Page) (es : List PageEffect) (h : q.log = p.log ++ es) :
    p.effectsSince q = es := by
  simp [Page.effectsSince, h]

theorem findSome_filter_isCard (nodes : List ContentNode) (nodeId : Nat) :
    (nodes.filter (fun n => !n.isCard nodeId)).findSome? (fun n =>
      match n with
      | .card m c => if m = nodeId then some c else none
      | .paragraph _ _ => none) = none := by
  induction nodes with
  | nil => rfl
  | cons n rest ih =>
    cases n with
    | paragraph cls text =>
      simpa [List.filter_cons, ContentNode.isCard, List.findSome?_cons] using ih
    | card m c =>
      by_cases hm : m = nodeId
      · simpa [List.filter_cons, ContentNode.isCard, hm] using ih
      · simpa [List.filter_cons, ContentNode.isCard, hm, List.findSome?_cons] using ih

theorem filterMap_filter_isCard (nodes : List ContentNode) (nodeId : Nat) :
    (nodes.filter (fun n => !n.isCard nodeId)).filterMap (fun n =>
      match n with
      | .card m c => some (m, c)
      | .paragraph _ _ => none)
    = (nodes.filterMap (fun n =>
      match n with
      | .card m c => some (m, c)
      | .paragraph _ _ => none)).filter (fun c => c.1 != nodeId) := by
  induction nodes with
  | nil => rfl
  | cons n rest ih =>
    cases n with
    | paragraph cls text =>
      simpa [List.filter_cons, ContentNode.isCard, List.filterMap_cons] using ih
    | card m c =>
      by_cases hm : m = nodeId
      · simpa [List.filter_cons, ContentNode.isCard, hm, List.filterMap_cons] using ih
      · simpa [List.filter_cons, ContentNode.isCard, hm, List.filterMap_cons] using ih

theorem findCard_removeCard (p : Page) (nodeId : Nat) :
    (p.removeCard nodeId).findCard nodeId = none := by
  unfold Page.removeCard Page.findCard
  cases p.content with
  | none => rfl
  | some nodes => exact findSome_filter_isCard nodes nodeId

/-- The call `card.remove()` takes the node with that identity out of the content area and keeps
every other card node, in the same order. -/
theorem cards_removeCard (p : Page) (nodeId : Nat) :
    (p.removeCard nodeId).cards = p.cards.filter (fun c => c.1 != nodeId) := by
  unfold Page.removeCard Page.cards
  cases p.content with
  | none => rfl
  | some nodes => exact filterMap_filter_isCard nodes nodeId

theorem deleteDoctor_total (API_BASE_URL : String) (fetch : Fetch) (id : JsVal)
    (token : String) :
    ∃ result, deleteDoctor API_BASE_URL fetch id token = .ok result := by
  cases h : deleteDoctor API_BASE_URL fetch id token with
  | ok result => exact ⟨result, rfl⟩
  | error e =>
    exfalso
    revert h
    unfold deleteDoctor tryCatch
    split
    · simp
    · simp [pure, Except.pure]

theorem saveDoctor_total (API_BASE_URL : String) (fetch : Fetch) (doctor : Json)
    (token : String) :
    ∃ result, saveDoctor API_BASE_URL fetch doctor token = .ok result := by
  cases h : saveDoctor API_BASE_URL fetch doctor token with
  | ok result => exact ⟨result, rfl⟩
  | error e =>
    exfalso
    revert h
    unfold saveDoctor tryCatch
    split
    · simp
    · simp [pure, Except.pure]

theorem window_deleteDoctor_noToken (API_BASE_URL : String) (fetch : Fetch) (doctorId : JsVal)
    (p : Page) (h : truthy (p.localStorage.getItem "token") = false) :
    window.deleteDoctor API_BASE_URL fetch doctorId p
      = (p.emit (.showMessageBox "Auth Error" (some (.str "Session expired. Please log in."))
          none false), .ok false) := by
  unfold window.deleteDoctor
  cases ht : p.localStorage.getItem "token" with
  | none => rfl
  | some token =>
    have : token = "" := by simpa [truthy, ht] using h
    simp [this]

theorem window_deleteDoctor_token (API_BASE_URL : String) (fetch : Fetch) (doctorId : JsVal)
    (p : Page) (token : String) (result : ServiceResult)
    (ht : p.localStorage.getItem "token" = some token) (hne : token ≠ "")
    (hr : deleteDoctor API_BASE_URL fetch doctorId token = .ok result) :
    window.deleteDoctor API_BASE_URL fetch doctorId p
      = (if result.success then
          loadDoctorCardsStart API_BASE_URL
            (p.emit (.fetch (deleteDoctorRequest API_BASE_URL doctorId token)))
         else
          (p.emit (.fetch (deleteDoctorRequest API_BASE_URL doctorId token))).emit
            (.showMessageBox "Deletion Failed"
              (jsOr result.message
                (some (.str "Could not delete doctor due to server error."))) none false),
         .ok result.success) := by
  unfold window.deleteDoctor
  simp only [ht, hne, if_false, hr]

theorem log_loadDoctorCardsStart (API_BASE_URL : String) (p : Page) :
    (loadDoctorCardsStart API_BASE_URL p).log
      = p.log ++ [.fetch (getDoctorsRequest API_BASE_URL)] := by
  unfold loadDoctorCardsStart Page.setContent Page.emit
  cases hc : p.content <;> simp [hc]

theorem content_loadDoctorCardsStart (API_BASE_URL : String) (p : Page) :
    (loadDoctorCardsStart API_BASE_URL p).content
      = p.content.map (fun _ => [.paragraph "loading-message" "Loading doctor records..."]) := by
  unfold loadDoctorCardsStart Page.setContent Page.emit
  cases hc : p.content <;> simp [hc]

theorem localStorage_loadDoctorCardsStart (API_BASE_URL : String) (p : Page) :
    (loadDoctorCardsStart API_BASE_URL p).localStorage = p.localStorage := by
  unfold loadDoctorCardsStart Page.setContent Page.emit
  cases hc : p.content <;> simp [hc]

/-- C11: a card that `createDoctorCard` built for the role patient, wherever it sits in the
content area: a click on its Book Now button adds one effect, the message box "Action
Required" with the login-required text, and changes nothing else. No `fetch` and no
`getPatientData` call is made, the booking overlay is not opened, and the session store and the
content area, the card included, are as before. -/
theorem patient_book_now_only_shows_message
    (getPatientData : String → Except JsError JsVal) (p : Page) (nodeId : Nat)
    (storage : LocalStorage) (doctor : Doctor)
    (hrole : storage.getItem "userRole" = some "patient")
    (hcard : p.findCard nodeId = some (createDoctorCard storage doctor)) :
    clickCardButton getPatientData nodeId p
      = { p with log := p.log ++ [.showMessageBox "Action Required"
          (some (.str "You need to log in or sign up as a patient to book an appointment."))
          none false] }
    ∧ (clickCardButton getPatientData nodeId p).localStorage = p.localStorage
    ∧ (clickCardButton getPatientData nodeId p).content = p.content
    ∧ (∀ request, PageEffect.fetch request
        ∉ p.effectsSince (clickCardButton getPatientData nodeId p))
    ∧ (∀ token, PageEffect.getPatientData token
        ∉ p.effectsSince (clickCardButton getPatientData nodeId p))
    ∧ (∀ d patientData, PageEffect.showBookingOverlay d patientData
        ∉ p.effectsSince (clickCardButton getPatientData nodeId p)) := by
  have key : clickCardButton getPatientData nodeId p
      = p.emit (.showMessageBox "Action Required"
          (some (.str "You need to log in or sign up as a patient to book an appointment."))
          none false) := by
    unfold clickCardButton
    rw [hcard]
    simp [createDoctorCard_buttons, hrole, runCardListener]
  rw [key]
  refine ⟨rfl, rfl, rfl, ?_, ?_, ?_⟩ <;> simp [effectsSince_emit]

theorem patient_book_now_only_shows_message_witness :
    (clickCardButton (fun _ => .error .networkFailure) 0
      ⟨⟨[("userRole", "patient")]⟩,
        some [.card 0 (createDoctorCard ⟨[("userRole", "patient")]⟩ ⟨[("name", .str "A")]⟩)],
        1, []⟩).log
      = [.showMessageBox "Action Required"
          (some (.str "You need to log in or sign up as a patient to book an appointment."))
          none false] :=
  congrArg Page.log (patient_book_now_only_shows_message (fun _ => .error .networkFailure)
    ⟨⟨[("userRole", "patient")]⟩,
      some [.card 0 (createDoctorCard ⟨[("userRole", "patient")]⟩ ⟨[("name", .str "A")]⟩)],
      1, []⟩ 0 ⟨[("userRole", "patient")]⟩ ⟨[("name", .str "A")]⟩ (by decide) rfl).1

theorem window_deleteDoctor_total (API_BASE_URL : String) (fetch : Fetch) (doctorId : JsVal)
    (p : Page) :
    ∃ success, (window.deleteDoctor API_BASE_URL fetch doctorId p).2 = .ok success := by
  cases ht : truthy (p.localStorage.getItem "token") with
  | false => exact ⟨false, by rw [window_deleteDoctor_noToken _ _ _ _ ht]⟩
  | true =>
    obtain ⟨token, hs, hne⟩ := (truthy_eq_true_iff _).1 ht
    obtain ⟨result, hr⟩ := deleteDoctor_total API_BASE_URL fetch doctorId token
    exact ⟨result.success, by rw [window_deleteDoctor_token _ _ _ _ _ _ hs hne hr]⟩

theorem window_deleteDoctor_true (API_BASE_URL : String) (fetch : Fetch) (doctorId : JsVal)
    (p : Page) (h : (window.deleteDoctor API_BASE_URL fetch doctorId p).2 = .ok true) :
    ∃ token result, p.localStorage.getItem "token" = some token ∧ token ≠ ""
      ∧ deleteDoctor API_BASE_URL fetch doctorId token = .ok result ∧ result.success = true
      ∧ (window.deleteDoctor API_BASE_URL fetch doctorId p).1
          = loadDoctorCardsStart API_BASE_URL
              (p.emit (.fetch (deleteDoctorRequest API_BASE_URL doctorId token))) := by
  cases ht : truthy (p.localStorage.getItem "token") with
  | false =>
    rw [window_deleteDoctor_noToken _ _ _ _ ht] at h
    simp at h
  | true =>
    obtain ⟨token, hs, hne⟩ := (truthy_eq_true_iff _).1 ht
    obtain ⟨result, hr⟩ := deleteDoctor_total API_BASE_URL fetch doctorId token
    rw [window_deleteDoctor_token _ _ _ _ _ _ hs hne hr] at h ⊢
    have hsucc : result.success = true := by simpa using h
    exact ⟨token, result, hs, hne, hr, hsucc, by simp [hsucc]⟩

theorem window_deleteDoctor_false (API_BASE_URL : String) (fetch : Fetch) (doctorId : JsVal)
    (p : Page) (h : (window.deleteDoctor API_BASE_URL fetch doctorId p).2 = .ok false) :
    (window.deleteDoctor API_BASE_URL fetch doctorId p).1.content = p.content
    ∧ (window.deleteDoctor API_BASE_URL fetch doctorId p).1.localStorage = p.localStorage := by
  cases ht : truthy (p.localStorage.getItem "token") with
  | false =>
    rw [window_deleteDoctor_noToken _ _ _ _ ht]
    exact ⟨rfl, rfl⟩
  | true =>
    obtain ⟨token, hs, hne⟩ := (truthy_eq_true_iff _).1 ht
    obtain ⟨result, hr⟩ := deleteDoctor_total API_BASE_URL fetch doctorId token
    rw [window_deleteDoctor_token _ _ _ _ _ _ hs hne hr] at h ⊢
    have hsucc : result.success = false := by simpa using h
    simp only [hsucc]
    exact ⟨rfl, rfl⟩

theorem findCard_emit (p : Page) (e : PageEffect) (nodeId : Nat) :
    (p.emit e).findCard nodeId = p.findCard nodeId := rfl

theorem findCard_congr (p q : Page) (nodeId : Nat) (h : q.content = p.content) :
    q.findCard nodeId = p.findCard nodeId := by
  unfold Page.findCard
  rw [h]

/-- C12: a card that `createDoctorCard` built for the role admin. A click on its Delete button
only opens the confirmation box, with the card's callback; no delete call is made. When the box
answers with declined, the callback changes nothing: no call, and the card stays. When it
answers with confirmed, `window.deleteDoctor` is called, and it yields a success flag: on true
the card node is no longer in the content area and the last effect is the message box
"Success"; on false the content area is as before, the card in its place, and the last effect
is the message box "Error". -/
theorem admin_delete_needs_confirmation (API_BASE_URL : String) (fetch : Fetch)
    (getPatientData : String → Except JsError JsVal) (p : Page) (nodeId : Nat)
    (storage : LocalStorage) (doctor : Doctor)
    (hrole : storage.getItem "userRole" = some "admin")
    (hcard : p.findCard nodeId = some (createDoctorCard storage doctor)) :
    clickCardButton getPatientData nodeId p
      = p.emit (.showMessageBox "Confirm Deletion"
          (some (.str ("Are you sure you want to delete Dr. " ++ toStr (doctor.get "name")
            ++ "? This action cannot be undone.")))
          (some (.deleteConfirmed nodeId doctor)) true)
    ∧ runPageCallback API_BASE_URL fetch false (.deleteConfirmed nodeId doctor) p = p
    ∧ (∃ success,
        (window.deleteDoctor API_BASE_URL fetch (doctor.get "id") p).2 = .ok success)
    ∧ ((window.deleteDoctor API_BASE_URL fetch (doctor.get "id") p).2 = .ok true →
        (runPageCallback API_BASE_URL fetch true (.deleteConfirmed nodeId doctor) p).findCard
            nodeId = none
        ∧ (runPageCallback API_BASE_URL fetch true (.deleteConfirmed nodeId doctor) p).log
          = (window.deleteDoctor API_BASE_URL fetch (doctor.get "id") p).1.log
            ++ [.showMessageBox "Success"
                  (some (.str (toStr (doctor.get "name") ++ " has been deleted."))) none false])
    ∧ ((window.deleteDoctor API_BASE_URL fetch (doctor.get "id") p).2 = .ok false →
        (runPageCallback API_BASE_URL fetch true (.deleteConfirmed nodeId doctor) p).content
          = p.content
        ∧ (runPageCallback API_BASE_URL fetch true (.deleteConfirmed nodeId doctor) p).findCard
            nodeId = some (createDoctorCard storage doctor)
        ∧ (runPageCallback API_BASE_URL fetch true (.deleteConfirmed nodeId doctor) p).log
          = (window.deleteDoctor API_BASE_URL fetch (doctor.get "id") p).1.log
            ++ [.showMessageBox "Error"
                  (some (.str ("Failed to delete " ++ toStr (doctor.get "name")
                    ++ ". Please try again."))) none false]) := by
  refine ⟨?_, rfl, window_deleteDoctor_total _ _ _ _, ?_, ?_⟩
  · unfold clickCardButton
    rw [hcard]
    simp [createDoctorCard_buttons, hrole, runCardListener]
  · intro h
    cases hwd : window.deleteDoctor API_BASE_URL fetch (doctor.get "id") p with
    | mk q r =>
      rw [hwd] at h
      simp only at h
      subst h
      simp only [runPageCallback, hwd, if_true]
      exact ⟨by rw [findCard_emit]; exact findCard_removeCard _ _, rfl⟩
  · intro h
    have hc := (window_deleteDoctor_false _ _ _ _ h).1
    cases hwd : window.deleteDoctor API_BASE_URL fetch (doctor.get "id") p with
    | mk q r =>
      rw [hwd] at h hc
      simp only at h hc
      subst h
      simp only [runPageCallback, hwd, if_true, Bool.false_eq_true, if_false]
      refine ⟨hc, ?_, rfl⟩
      rw [findCard_emit, findCard_congr p q nodeId hc, hcard]

/-- C19: `window.deleteDoctor(doctorId)`. With no token stored (absent or empty) it returns
false and makes no request, only showing the message box "Auth Error". With a token it calls
the delete service once and returns exactly the `success` flag of the service result; when the
flag is true it starts the reload of the list and shows no message, when it is false it shows
the message box "Deletion Failed" and nothing else. So it returns true exactly when a token is
stored and the service reports success. -/
theorem window_deleteDoctor_returns_success_flag (API_BASE_URL : String) (fetch : Fetch)
    (doctorId : JsVal) (p : Page) :
    ((p.localStorage.getItem "token" = none ∨ p.localStorage.getItem "token" = some "") →
        window.deleteDoctor API_BASE_URL fetch doctorId p
          = (p.emit (.showMessageBox "Auth Error"
              (some (.str "Session expired. Please log in.")) none false), .ok false)
        ∧ ∀ request, PageEffect.fetch request
            ∉ p.effectsSince (window.deleteDoctor API_BASE_URL fetch doctorId p).1)
    ∧ (∀ token, p.localStorage.getItem "token" = some token → token ≠ "" →
        ∃ result, deleteDoctor API_BASE_URL fetch doctorId token = .ok result
          ∧ (window.deleteDoctor API_BASE_URL fetch doctorId p).2 = .ok result.success
          ∧ (result.success = true →
              p.effectsSince (window.deleteDoctor API_BASE_URL fetch doctorId p).1
                = [.fetch (deleteDoctorRequest API_BASE_URL doctorId token),
                   .fetch (getDoctorsRequest API_BASE_URL)])
          ∧ (result.success = false →
              p.effectsSince (window.deleteDoctor API_BASE_URL fetch doctorId p).1
                = [.fetch (deleteDoctorRequest API_BASE_URL doctorId token),
                   .showMessageBox "Deletion Failed"
                     (jsOr result.message
                       (some (.str "Could not delete doctor due to server error.")))
                     none false]))
    ∧ ((window.deleteDoctor API_BASE_URL fetch doctorId p).2 = .ok true
        ↔ ∃ token result, p.localStorage.getItem "token" = some token ∧ token ≠ ""
            ∧ deleteDoctor API_BASE_URL fetch doctorId token = .ok result
            ∧ result.success = true) := by
  refine ⟨?_, ?_, ?_⟩
  · intro h
    have ht := (truthy_eq_false_iff _).2 h
    rw [window_deleteDoctor_noToken _ _ _ _ ht]
    refine ⟨rfl, ?_⟩
    intro request
    simp [effectsSince_emit]
  · intro token hs hne
    obtain ⟨result, hr⟩ := deleteDoctor_total API_BASE_URL fetch doctorId token
    refine ⟨result, hr, ?_, ?_, ?_⟩
    · rw [window_deleteDoctor_token _ _ _ _ _ _ hs hne hr]
    · intro hsucc
      rw [window_deleteDoctor_token _ _ _ _ _ _ hs hne hr]
      simp only [hsucc, if_true]
      apply effectsSince_append
      rw [log_loadDoctorCardsStart]
      simp [Page.emit]
    · intro hsucc
      rw [window_deleteDoctor_token _ _ _ _ _ _ hs hne hr]
      simp only [hsucc, Bool.false_eq_true, if_false]
      apply effectsSince_append
      simp [Page.emit]
  · constructor
    · intro h
      obtain ⟨token, result, hs, hne, hr, hsucc, _⟩ := window_deleteDoctor_true _ _ _ _ h
      exact ⟨token, result, hs, hne, hr, hsucc⟩
    · rintro ⟨token, result, hs, hne, hr, hsucc⟩
      rw [window_deleteDoctor_token _ _ _ _ _ _ hs hne hr, hsucc]

theorem adminAddDoctor_noToken (API_BASE_URL : String) (fetch : Fetch) (form : AddDoctorForm)
    (p : Page) (h : truthy (p.localStorage.getItem "token") = false) :
    window.adminAddDoctor API_BASE_URL fetch form p
      = (p.emit .preventDefault).emit (.showMessageBox "Authentication Error"
          (some (.str "Admin token missing. Please log in again.")) none false) := by
  unfold window.adminAddDoctor
  have hls : (p.emit .preventDefault).localStorage = p.localStorage := rfl
  simp only [hls]
  cases ht : p.localStorage.getItem "token" with
  | none => rfl
  | some token =>
    have : token = "" := by simpa [truthy, ht] using h
    simp [this]

theorem adminAddDoctor_invalid (API_BASE_URL : String) (fetch : Fetch) (form : AddDoctorForm)
    (p : Page) (token : String) (ht : p.localStorage.getItem "token" = some token)
    (hne : token ≠ "")
    (hinvalid : jsTrim form.addDoctorName = "" ∨ jsTrim form.addDoctorSpecialty = ""
      ∨ jsTrim form.addDoctorEmail = "" ∨ form.addDoctorPassword = ""
      ∨ jsTrim form.addDoctorMobile = "" ∨ form.availability = []) :
    window.adminAddDoctor API_BASE_URL fetch form p
      = (p.emit .preventDefault).emit (.showMessageBox "Validation Error"
          (some (.str "Please fill in all fields and select at least one availability slot."))
          none false) := by
  unfold window.adminAddDoctor
  have hls : (p.emit .preventDefault).localStorage = p.localStorage := rfl
  have hcond : jsTrim form.addDoctorName = "" ∨ jsTrim form.addDoctorSpecialty = ""
      ∨ jsTrim form.addDoctorEmail = "" ∨ form.addDoctorPassword = ""
      ∨ jsTrim form.addDoctorMobile = "" ∨ form.availability.length = 0 := by
    simpa [List.length_eq_zero] using hinvalid
  simp only [hls, ht, hne, if_false, hcond, if_true]

theorem adminAddDoctor_valid (API_BASE_URL : String) (fetch : Fetch) (form : AddDoctorForm)
    (p : Page) (token : String) (ht : p.localStorage.getItem "token" = some token)
    (hne : token ≠ "")
    (hvalid : jsTrim form.addDoctorName ≠ "" ∧ jsTrim form.addDoctorSpecialty ≠ ""
      ∧ jsTrim form.addDoctorEmail ≠ "" ∧ form.addDoctorPassword ≠ ""
      ∧ jsTrim form.addDoctorMobile ≠ "" ∧ form.availability ≠ []) :
    ∃ title message callback,
      window.adminAddDoctor API_BASE_URL fetch form p
        = ((p.emit .preventDefault).emit (.fetch (saveDoctorRequest API_BASE_URL
            (newDoctor (jsTrim form.addDoctorName) (jsTrim form.addDoctorSpecialty)
              (jsTrim form.addDoctorEmail) form.addDoctorPassword (jsTrim form.addDoctorMobile)
              form.availability) token))).emit
            (.showMessageBox title message callback false) := by
  obtain ⟨h1, h2, h3, h4, h5, h6⟩ := hvalid
  have hls : (p.emit .preventDefault).localStorage = p.localStorage := rfl
  have hcond : ¬ (jsTrim form.addDoctorName = "" ∨ jsTrim form.addDoctorSpecialty = ""
      ∨ jsTrim form.addDoctorEmail = "" ∨ form.addDoctorPassword = ""
      ∨ jsTrim form.addDoctorMobile = "" ∨ form.availability.length = 0) := by
    simp [h1, h2, h3, h4, h5, h6, List.length_eq_zero]
  obtain ⟨result, hr⟩ := saveDoctor_total API_BASE_URL fetch
    (newDoctor (jsTrim form.addDoctorName) (jsTrim form.addDoctorSpecialty)
      (jsTrim form.addDoctorEmail) form.addDoctorPassword (jsTrim form.addDoctorMobile)
      form.availability) token
  unfold window.adminAddDoctor
  simp only [hls, ht, hne, if_false, hcond, hr]
  cases result.success with
  | true => exact ⟨_, _, _, rfl⟩
  | false => exact ⟨_, _, _, rfl⟩

/-- C20: `adminAddDoctor` sends a request, and then it is the one of `saveDoctor` for the
collected doctor and the stored token, exactly when a token is stored (not absent, not empty)
and name, specialty, email and mobile number are non-empty after trimming, the password is
non-empty as typed, and at least one availability slot is checked. With no token it shows the
message box "Authentication Error" and stops; with a token and a field that fails, it shows
the message box "Validation Error" and stops; in both cases nothing is sent. -/
theorem adminAddDoctor_calls_saveDoctor_iff_valid (API_BASE_URL : String) (fetch : Fetch)
    (form : AddDoctorForm) (p : Page) :
    ((∃ request, PageEffect.fetch request
          ∈ p.effectsSince (window.adminAddDoctor API_BASE_URL fetch form p))
      ↔ ((∃ token, p.localStorage.getItem "token" = some token ∧ token ≠ "")
          ∧ jsTrim form.addDoctorName ≠ "" ∧ jsTrim form.addDoctorSpecialty ≠ ""
          ∧ jsTrim form.addDoctorEmail ≠ "" ∧ form.addDoctorPassword ≠ ""
          ∧ jsTrim form.addDoctorMobile ≠ "" ∧ form.availability ≠ []))
    ∧ (∀ token, p.localStorage.getItem "token" = some token → token ≠ "" →
        jsTrim form.addDoctorName ≠ "" ∧ jsTrim form.addDoctorSpecialty ≠ ""
          ∧ jsTrim form.addDoctorEmail ≠ "" ∧ form.addDoctorPassword ≠ ""
          ∧ jsTrim form.addDoctorMobile ≠ "" ∧ form.availability ≠ [] →
        ∃ title message callback,
          p.effectsSince (window.adminAddDoctor API_BASE_URL fetch form p)
            = [.preventDefault,
               .fetch (saveDoctorRequest API_BASE_URL
                  (newDoctor (jsTrim form.addDoctorName) (jsTrim form.addDoctorSpecialty)
                    (jsTrim form.addDoctorEmail) form.addDoctorPassword
                    (jsTrim form.addDoctorMobile) form.availability) token),
               .showMessageBox title message callback false])
    ∧ ((p.localStorage.getItem "token" = none ∨ p.localStorage.getItem "token" = some "") →
        window.adminAddDoctor API_BASE_URL fetch form p
          = (p.emit .preventDefault).emit (.showMessageBox "Authentication Error"
              (some (.str "Admin token missing. Please log in again.")) none false))
    ∧ (∀ token, p.localStorage.getItem "token" = some token → token ≠ "" →
        (jsTrim form.addDoctorName = "" ∨ jsTrim form.addDoctorSpecialty = ""
          ∨ jsTrim form.addDoctorEmail = "" ∨ form.addDoctorPassword = ""
          ∨ jsTrim form.addDoctorMobile = "" ∨ form.availability = []) →
        window.adminAddDoctor API_BASE_URL fetch form p
          = (p.emit .preventDefault).emit (.showMessageBox "Validation Error"
              (some (.str
                "Please fill in all fields and select at least one availability slot."))
              none false)) := by
  have hvalidEffects : ∀ token, p.localStorage.getItem "token" = some token → token ≠ "" →
      jsTrim form.addDoctorName ≠ "" ∧ jsTrim form.addDoctorSpecialty ≠ ""
        ∧ jsTrim form.addDoctorEmail ≠ "" ∧ form.addDoctorPassword ≠ ""
        ∧ jsTrim form.addDoctorMobile ≠ "" ∧ form.availability ≠ [] →
      ∃ title message callback,
        p.effectsSince (window.adminAddDoctor API_BASE_URL fetch form p)
          = [.preventDefault,
             .fetch (saveDoctorRequest API_BASE_URL
                (newDoctor (jsTrim form.addDoctorName) (jsTrim form.addDoctorSpecialty)
                  (jsTrim form.addDoctorEmail) form.addDoctorPassword
                  (jsTrim form.addDoctorMobile) form.availability) token),
             .showMessageBox title message callback false] := by
    intro token ht hne hvalid
    obtain ⟨title, message, callback, h⟩ :=
      adminAddDoctor_valid API_BASE_URL fetch form p token ht hne hvalid
    refine ⟨title, message, callback, ?_⟩
    rw [h]
    apply effectsSince_append
    simp [Page.emit]
  refine ⟨?_, hvalidEffects, ?_, ?_⟩
  · constructor
    · rintro ⟨request, hmem⟩
      cases htr : truthy (p.localStorage.getItem "token") with
      | false =>
        rw [adminAddDoctor_noToken _ _ _ _ htr] at hmem
        simp [Page.effectsSince, Page.emit] at hmem
      | true =>
        obtain ⟨token, ht, hne⟩ := (truthy_eq_true_iff _).1 htr
        by_cases hinvalid : jsTrim form.addDoctorName = "" ∨ jsTrim form.addDoctorSpecialty = ""
            ∨ jsTrim form.addDoctorEmail = "" ∨ form.addDoctorPassword = ""
            ∨ jsTrim form.addDoctorMobile = "" ∨ form.availability = []
        · rw [adminAddDoctor_invalid _ _ _ _ token ht hne hinvalid] at hmem
          simp [Page.effectsSince, Page.emit] at hmem
        · refine ⟨⟨token, ht, hne⟩, ?_⟩
          simpa [not_or] using hinvalid
    · rintro ⟨⟨token, ht, hne⟩, hvalid⟩
      obtain ⟨title, message, callback, h⟩ := hvalidEffects token ht hne hvalid
      refine ⟨saveDoctorRequest API_BASE_URL
        (newDoctor (jsTrim form.addDoctorName) (jsTrim form.addDoctorSpecialty)
          (jsTrim form.addDoctorEmail) form.addDoctorPassword (jsTrim form.addDoctorMobile)
          form.availability) token, ?_⟩
      rw [h]
      simp
  · intro h
    exact adminAddDoctor_noToken _ _ _ _ ((truthy_eq_false_iff _).2 h)
  · intro token ht hne hinvalid
    exact adminAddDoctor_invalid _ _ _ _ token ht hne hinvalid

theorem getItem_setItem_self (s : LocalStorage) (key value : String) :
    (s.setItem key value).getItem key = some value := by
  simp [LocalStorage.setItem, LocalStorage.getItem, List.lookup]

theorem getItem_setItem_other (s : LocalStorage) (key value other : String) (h : other ≠ key) :
    (s.setItem key value).getItem other = s.getItem other := by
  have hne : (other == key) = false := by simpa using h
  simp only [LocalStorage.setItem, LocalStorage.getItem, List.lookup, hne]
  exact lookup_filter_other s.items key other h

/-- C14: the login handlers with an empty field. If the user name (for the doctor: the email)
or the password is empty, the handler shows the message box "Login Error" and stops: no request
is sent and the session store, `token` and `userRole` included, is as before. -/
theorem login_empty_field_sends_nothing (API_BASE_URL : String) (fetch : Fetch)
    (first password : String) (p : Page) (h : first = "" ∨ password = "") :
    (window.adminLoginHandler API_BASE_URL fetch first password p
        = (p.emit .preventDefault).emit (.showMessageBox "Login Error"
            (some (.str "Please enter both username and password.")) none false)
      ∧ (window.adminLoginHandler API_BASE_URL fetch first password p).localStorage
          = p.localStorage
      ∧ ∀ request, PageEffect.fetch request
          ∉ p.effectsSince (window.adminLoginHandler API_BASE_URL fetch first password p))
    ∧ (window.doctorLoginHandler API_BASE_URL fetch first password p
        = (p.emit .preventDefault).emit (.showMessageBox "Login Error"
            (some (.str "Please enter both email and password.")) none false)
      ∧ (window.doctorLoginHandler API_BASE_URL fetch first password p).localStorage
          = p.localStorage
      ∧ ∀ request, PageEffect.fetch request
          ∉ p.effectsSince (window.doctorLoginHandler API_BASE_URL fetch first password p)) := by
  have ha : window.adminLoginHandler API_BASE_URL fetch first password p
      = (p.emit .preventDefault).emit (.showMessageBox "Login Error"
          (some (.str "Please enter both username and password.")) none false) := by
    unfold window.adminLoginHandler
    simp only [h, if_true]
  have hd : window.doctorLoginHandler API_BASE_URL fetch first password p
      = (p.emit .preventDefault).emit (.showMessageBox "Login Error"
          (some (.str "Please enter both email and password.")) none false) := by
    unfold window.doctorLoginHandler
    simp only [h, if_true]
  rw [ha, hd]
  refine ⟨⟨rfl, rfl, ?_⟩, ⟨rfl, rfl, ?_⟩⟩ <;>
    (intro request; simp [Page.effectsSince, Page.emit])

theorem adminLogin_network_error (API_BASE_URL : String) (fetch : Fetch)
    (first password : String) (p : Page) (h1 : first ≠ "") (h2 : password ≠ "") (e : JsError)
    (hf : fetch (adminLoginRequest API_BASE_URL first password) = .error e) :
    window.adminLoginHandler API_BASE_URL fetch first password p
      = ((p.emit .preventDefault).emit (.fetch (adminLoginRequest API_BASE_URL first password))).emit (.showMessageBox "System Error"
          (some (.str "An unexpected network or system error occurred.")) none false) := by
  have hfields : ¬ (first = "" ∨ password = "") := by simp [h1, h2]
  unfold window.adminLoginHandler
  simp only [hfields, if_false, hf]

theorem adminLogin_not_ok (API_BASE_URL : String) (fetch : Fetch)
    (first password : String) (p : Page) (h1 : first ≠ "") (h2 : password ≠ "") (r : Response)
    (hf : fetch (adminLoginRequest API_BASE_URL first password) = .ok r) (hok : r.ok = false) :
    window.adminLoginHandler API_BASE_URL fetch first password p
      = ((p.emit .preventDefault).emit (.fetch (adminLoginRequest API_BASE_URL first password))).emit (.showMessageBox "Login Failed"
          (some (.str "Invalid Admin credentials!")) none false) := by
  have hfields : ¬ (first = "" ∨ password = "") := by simp [h1, h2]
  unfold window.adminLoginHandler
  simp only [hfields, if_false, hf, hok, Bool.false_eq_true]

theorem adminLogin_unparsable (API_BASE_URL : String) (fetch : Fetch)
    (first password : String) (p : Page) (h1 : first ≠ "") (h2 : password ≠ "") (r : Response)
    (hf : fetch (adminLoginRequest API_BASE_URL first password) = .ok r) (hok : r.ok = true) (hj : r.json = none) :
    window.adminLoginHandler API_BASE_URL fetch first password p
      = ((p.emit .preventDefault).emit (.fetch (adminLoginRequest API_BASE_URL first password))).emit (.showMessageBox "System Error"
          (some (.str "An unexpected network or system error occurred.")) none false) := by
  have hfields : ¬ (first = "" ∨ password = "") := by simp [h1, h2]
  unfold window.adminLoginHandler
  simp only [hfields, if_false, hf, hok, if_true, Response.parseJson, hj]

theorem adminLogin_null_body (API_BASE_URL : String) (fetch : Fetch)
    (first password : String) (p : Page) (h1 : first ≠ "") (h2 : password ≠ "") (r : Response) (data : Json) (e : JsError)
    (hf : fetch (adminLoginRequest API_BASE_URL first password) = .ok r) (hok : r.ok = true) (hj : r.json = some data)
    (hg : getProp data "token" = .error e) :
    window.adminLoginHandler API_BASE_URL fetch first password p
      = ((p.emit .preventDefault).emit (.fetch (adminLoginRequest API_BASE_URL first password))).emit (.showMessageBox "System Error"
          (some (.str "An unexpected network or system error occurred.")) none false) := by
  have hfields : ¬ (first = "" ∨ password = "") := by simp [h1, h2]
  unfold window.adminLoginHandler
  simp only [hfields, if_false, hf, hok, if_true, Response.parseJson, hj, hg]

theorem adminLogin_no_token (API_BASE_URL : String) (fetch : Fetch)
    (first password : String) (p : Page) (h1 : first ≠ "") (h2 : password ≠ "") (r : Response) (data : Json) (token : JsVal)
    (hf : fetch (adminLoginRequest API_BASE_URL first password) = .ok r) (hok : r.ok = true) (hj : r.json = some data)
    (hg : getProp data "token" = .ok token) (ht : jsTruthy token = false) :
    window.adminLoginHandler API_BASE_URL fetch first password p
      = ((p.emit .preventDefault).emit (.fetch (adminLoginRequest API_BASE_URL first password))).emit (.showMessageBox "Login Failed"
          (some (.str "Authentication successful, but no token received.")) none false) := by
  have hfields : ¬ (first = "" ∨ password = "") := by simp [h1, h2]
  unfold window.adminLoginHandler
  simp only [hfields, if_false, hf, hok, if_true, Response.parseJson, hj, hg, ht,
    Bool.false_eq_true]

theorem adminLogin_token (API_BASE_URL : String) (fetch : Fetch)
    (first password : String) (p : Page) (h1 : first ≠ "") (h2 : password ≠ "") (r : Response) (data : Json) (token : JsVal)
    (hf : fetch (adminLoginRequest API_BASE_URL first password) = .ok r) (hok : r.ok = true) (hj : r.json = some data)
    (hg : getProp data "token" = .ok token) (ht : jsTruthy token = true) :
    window.adminLoginHandler API_BASE_URL fetch first password p
      = ((((p.emit .preventDefault).emit (.fetch (adminLoginRequest API_BASE_URL first password))).setItem "token" (toStr token)).setItem "userRole" "admin").emit
          (.selectRole "admin") := by
  have hfields : ¬ (first = "" ∨ password = "") := by simp [h1, h2]
  unfold window.adminLoginHandler
  simp only [hfields, if_false, hf, hok, if_true, Response.parseJson, hj, hg, ht]

/-- The outcomes of `adminLoginHandler` with both fields non-empty: either the response carries a
truthy token and both keys are written, or a message box follows the request and nothing is
written. -/
theorem adminLogin_cases (API_BASE_URL : String) (fetch : Fetch)
    (first password : String) (p : Page) (h1 : first ≠ "") (h2 : password ≠ "") :
    (∃ r data token, fetch (adminLoginRequest API_BASE_URL first password) = .ok r ∧ r.ok = true ∧ r.json = some data
        ∧ getProp data "token" = .ok token ∧ jsTruthy token = true
        ∧ window.adminLoginHandler API_BASE_URL fetch first password p
          = ((((p.emit .preventDefault).emit (.fetch (adminLoginRequest API_BASE_URL first password))).setItem "token" (toStr token)).setItem "userRole" "admin").emit
              (.selectRole "admin"))
    ∨ ∃ title message,
        window.adminLoginHandler API_BASE_URL fetch first password p
          = ((p.emit .preventDefault).emit (.fetch (adminLoginRequest API_BASE_URL first password))).emit (.showMessageBox title message none false) := by
  cases hf : fetch (adminLoginRequest API_BASE_URL first password) with
  | error e => exact Or.inr ⟨_, _, adminLogin_network_error _ _ _ _ _ h1 h2 e hf⟩
  | ok r =>
    cases hok : r.ok with
    | false => exact Or.inr ⟨_, _, adminLogin_not_ok _ _ _ _ _ h1 h2 r hf hok⟩
    | true =>
      cases hj : r.json with
      | none => exact Or.inr ⟨_, _, adminLogin_unparsable _ _ _ _ _ h1 h2 r hf hok hj⟩
      | some data =>
        cases hg : getProp data "token" with
        | error e => exact Or.inr ⟨_, _, adminLogin_null_body _ _ _ _ _ h1 h2 r data e hf hok hj hg⟩
        | ok token =>
          cases ht : jsTruthy token with
          | false =>
            exact Or.inr ⟨_, _, adminLogin_no_token _ _ _ _ _ h1 h2 r data token hf hok hj hg ht⟩
          | true =>
            exact Or.inl ⟨r, data, token, rfl, hok, hj, hg, ht,
              adminLogin_token _ _ _ _ _ h1 h2 r data token hf hok hj hg ht⟩

theorem doctorLogin_network_error (API_BASE_URL : String) (fetch : Fetch)
    (first password : String) (p : Page) (h1 : first ≠ "") (h2 : password ≠ "") (e : JsError)
    (hf : fetch (doctorLoginRequest API_BASE_URL first password) = .error e) :
    window.doctorLoginHandler API_BASE_URL fetch first password p
      = ((p.emit .preventDefault).emit (.fetch (doctorLoginRequest API_BASE_URL first password))).emit (.showMessageBox "System Error"
          (some (.str "An unexpected network or system error occurred.")) none false) := by
  have hfields : ¬ (first = "" ∨ password = "") := by simp [h1, h2]
  unfold window.doctorLoginHandler
  simp only [hfields, if_false, hf]

theorem doctorLogin_not_ok (API_BASE_URL : String) (fetch : Fetch)
    (first password : String) (p : Page) (h1 : first ≠ "") (h2 : password ≠ "") (r : Response)
    (hf : fetch (doctorLoginRequest API_BASE_URL first password) = .ok r) (hok : r.ok = false) :
    window.doctorLoginHandler API_BASE_URL fetch first password p
      = ((p.emit .preventDefault).emit (.fetch (doctorLoginRequest API_BASE_URL first password))).emit (.showMessageBox "Login Failed"
          (some (.str "Invalid Doctor credentials!")) none false) := by
  have hfields : ¬ (first = "" ∨ password = "") := by simp [h1, h2]
  unfold window.doctorLoginHandler
  simp only [hfields, if_false, hf, hok, Bool.false_eq_true]

theorem doctorLogin_unparsable (API_BASE_URL : String) (fetch : Fetch)
    (first password : String) (p : Page) (h1 : first ≠ "") (h2 : password ≠ "") (r : Response)
    (hf : fetch (doctorLoginRequest API_BASE_URL first password) = .ok r) (hok : r.ok = true) (hj : r.json = none) :
    window.doctorLoginHandler API_BASE_URL fetch first password p
      = ((p.emit .preventDefault).emit (.fetch (doctorLoginRequest API_BASE_URL first password))).emit (.showMessageBox "System Error"
          (some (.str "An unexpected network or system error occurred.")) none false) := by
  have hfields : ¬ (first = "" ∨ password = "") := by simp [h1, h2]
  unfold window.doctorLoginHandler
  simp only [hfields, if_false, hf, hok, if_true, Response.parseJson, hj]

theorem doctorLogin_null_body (API_BASE_URL : String) (fetch : Fetch)
    (first password : String) (p : Page) (h1 : first ≠ "") (h2 : password ≠ "") (r : Response) (data : Json) (e : JsError)
    (hf : fetch (doctorLoginRequest API_BASE_URL first password) = .ok r) (hok : r.ok = true) (hj : r.json = some data)
    (hg : getProp data "token" = .error e) :
    window.doctorLoginHandler API_BASE_URL fetch first password p
      = ((p.emit .preventDefault).emit (.fetch (doctorLoginRequest API_BASE_URL first password))).emit (.showMessageBox "System Error"
          (some (.str "An unexpected network or system error occurred.")) none false) := by
  have hfields : ¬ (first = "" ∨ password = "") := by simp [h1, h2]
  unfold window.doctorLoginHandler
  simp only [hfields, if_false, hf, hok, if_true, Response.parseJson, hj, hg]

theorem doctorLogin_no_token (API_BASE_URL : String) (fetch : Fetch)
    (first password : String) (p : Page) (h1 : first ≠ "") (h2 : password ≠ "") (r : Response) (data : Json) (token : JsVal)
    (hf : fetch (doctorLoginRequest API_BASE_URL first password) = .ok r) (hok : r.ok = true) (hj : r.json = some data)
    (hg : getProp data "token" = .ok token) (ht : jsTruthy token = false) :
    window.doctorLoginHandler API_BASE_URL fetch first password p
      = ((p.emit .preventDefault).emit (.fetch (doctorLoginRequest API_BASE_URL first password))).emit (.showMessageBox "Login Failed"
          (some (.str "Authentication successful, but no token received.")) none false) := by
  have hfields : ¬ (first = "" ∨ password = "") := by simp [h1, h2]
  unfold window.doctorLoginHandler
  simp only [hfields, if_false, hf, hok, if_true, Response.parseJson, hj, hg, ht,
    Bool.false_eq_true]

theorem doctorLogin_token (API_BASE_URL : String) (fetch : Fetch)
    (first password : String) (p : Page) (h1 : first ≠ "") (h2 : password ≠ "") (r : Response) (data : Json) (token : JsVal)
    (hf : fetch (doctorLoginRequest API_BASE_URL first password) = .ok r) (hok : r.ok = true) (hj : r.json = some data)
    (hg : getProp data "token" = .ok token) (ht : jsTruthy token = true) :
    window.doctorLoginHandler API_BASE_URL fetch first password p
      = ((((p.emit .preventDefault).emit (.fetch (doctorLoginRequest API_BASE_URL first password))).setItem "token" (toStr token)).setItem "userRole" "doctor").emit
          (.selectRole "doctor") := by
  have hfields : ¬ (first = "" ∨ password = "") := by simp [h1, h2]
  unfold window.doctorLoginHandler
  simp only [hfields, if_false, hf, hok, if_true, Response.parseJson, hj, hg, ht]

/-- The outcomes of `doctorLoginHandler` with both fields non-empty: either the response carries a
truthy token and both keys are written, or a message box follows the request and nothing is
written. -/
theorem doctorLogin_cases (API_BASE_URL : String) (fetch : Fetch)
    (first password : String) (p : Page) (h1 : first ≠ "") (h2 : password ≠ "") :
    (∃ r data token, fetch (doctorLoginRequest API_BASE_URL first password) = .ok r ∧ r.ok = true ∧ r.json = some data
        ∧ getProp data "token" = .ok token ∧ jsTruthy token = true
        ∧ window.doctorLoginHandler API_BASE_URL fetch first password p
          = ((((p.emit .preventDefault).emit (.fetch (doctorLoginRequest API_BASE_URL first password))).setItem "token" (toStr token)).setItem "userRole" "doctor").emit
              (.selectRole "doctor"))
    ∨ ∃ title message,
        window.doctorLoginHandler API_BASE_URL fetch first password p
          = ((p.emit .preventDefault).emit (.fetch (doctorLoginRequest API_BASE_URL first password))).emit (.showMessageBox title message none false) := by
  cases hf : fetch (doctorLoginRequest API_BASE_URL first password) with
  | error e => exact Or.inr ⟨_, _, doctorLogin_network_error _ _ _ _ _ h1 h2 e hf⟩
  | ok r =>
    cases hok : r.ok with
    | false => exact Or.inr ⟨_, _, doctorLogin_not_ok _ _ _ _ _ h1 h2 r hf hok⟩
    | true =>
      cases hj : r.json with
      | none => exact Or.inr ⟨_, _, doctorLogin_unparsable _ _ _ _ _ h1 h2 r hf hok hj⟩
      | some data =>
        cases hg : getProp data "token" with
        | error e => exact Or.inr ⟨_, _, doctorLogin_null_body _ _ _ _ _ h1 h2 r data e hf hok hj hg⟩
        | ok token =>
          cases ht : jsTruthy token with
          | false =>
            exact Or.inr ⟨_, _, doctorLogin_no_token _ _ _ _ _ h1 h2 r data token hf hok hj hg ht⟩
          | true =>
            exact Or.inl ⟨r, data, token, rfl, hok, hj, hg, ht,
              doctorLogin_token _ _ _ _ _ h1 h2 r data token hf hok hj hg ht⟩

/-- C15: the login handlers with both fields non-empty. When the response is ok, its body
parses and carries a truthy `token`, the handler stores that token (as a string) under `token`
and the role (admin, respectively doctor) under `userRole`, and then calls `selectRole` with
that role, showing no message. In every other case (a status that is not a success, a network
exception, a body that does not parse, no token in the body) the session store is as before
and the one thing that follows the request is a message box. So after a login attempt the
store is either as it was or has both keys written. -/
theorem login_writes_token_and_role_together (API_BASE_URL : String) (fetch : Fetch)
    (first password : String) (p : Page) (h1 : first ≠ "") (h2 : password ≠ "") :
    ((∀ r data token, fetch (adminLoginRequest API_BASE_URL first password) = .ok r → r.ok = true →
          r.json = some data → getProp data "token" = .ok token → jsTruthy token = true →
          (window.adminLoginHandler API_BASE_URL fetch first password p).localStorage
              = (p.localStorage.setItem "token" (toStr token)).setItem "userRole" "admin"
          ∧ (window.adminLoginHandler API_BASE_URL fetch first password p).localStorage.getItem "token" = some (toStr token)
          ∧ (window.adminLoginHandler API_BASE_URL fetch first password p).localStorage.getItem "userRole" = some "admin"
          ∧ p.effectsSince (window.adminLoginHandler API_BASE_URL fetch first password p)
              = [.preventDefault, .fetch (adminLoginRequest API_BASE_URL first password), .selectRole "admin"])
      ∧ ((∀ r data token, fetch (adminLoginRequest API_BASE_URL first password) = .ok r → r.ok = true →
            r.json = some data → getProp data "token" = .ok token → jsTruthy token = false) →
          (window.adminLoginHandler API_BASE_URL fetch first password p).localStorage = p.localStorage
          ∧ ∃ title message, p.effectsSince (window.adminLoginHandler API_BASE_URL fetch first password p)
              = [.preventDefault, .fetch (adminLoginRequest API_BASE_URL first password),
                 .showMessageBox title message none false])
      ∧ (∀ r, fetch (adminLoginRequest API_BASE_URL first password) = .ok r → r.ok = false →
          p.effectsSince (window.adminLoginHandler API_BASE_URL fetch first password p)
            = [.preventDefault, .fetch (adminLoginRequest API_BASE_URL first password),
               .showMessageBox "Login Failed" (some (.str "Invalid Admin credentials!")) none false])
      ∧ (∀ e, fetch (adminLoginRequest API_BASE_URL first password) = .error e →
          p.effectsSince (window.adminLoginHandler API_BASE_URL fetch first password p)
            = [.preventDefault, .fetch (adminLoginRequest API_BASE_URL first password),
               .showMessageBox "System Error"
                 (some (.str "An unexpected network or system error occurred.")) none false])
      ∧ (∀ r data token, fetch (adminLoginRequest API_BASE_URL first password) = .ok r → r.ok = true →
          r.json = some data → getProp data "token" = .ok token → jsTruthy token = false →
          p.effectsSince (window.adminLoginHandler API_BASE_URL fetch first password p)
            = [.preventDefault, .fetch (adminLoginRequest API_BASE_URL first password),
               .showMessageBox "Login Failed"
                 (some (.str "Authentication successful, but no token received.")) none false])
      ∧ ((window.adminLoginHandler API_BASE_URL fetch first password p).localStorage = p.localStorage
          ∨ ∃ token, (window.adminLoginHandler API_BASE_URL fetch first password p).localStorage
              = (p.localStorage.setItem "token" token).setItem "userRole" "admin"))
    ∧
    ((∀ r data token, fetch (doctorLoginRequest API_BASE_URL first password) = .ok r → r.ok = true →
          r.json = some data → getProp data "token" = .ok token → jsTruthy token = true →
          (window.doctorLoginHandler API_BASE_URL fetch first password p).localStorage
              = (p.localStorage.setItem "token" (toStr token)).setItem "userRole" "doctor"
          ∧ (window.doctorLoginHandler API_BASE_URL fetch first password p).localStorage.getItem "token" = some (toStr token)
          ∧ (window.doctorLoginHandler API_BASE_URL fetch first password p).localStorage.getItem "userRole" = some "doctor"
          ∧ p.effectsSince (window.doctorLoginHandler API_BASE_URL fetch first password p)
              = [.preventDefault, .fetch (doctorLoginRequest API_BASE_URL first password), .selectRole "doctor"])
      ∧ ((∀ r data token, fetch (doctorLoginRequest API_BASE_URL first password) = .ok r → r.ok = true →
            r.json = some data → getProp data "token" = .ok token → jsTruthy token = false) →
          (window.doctorLoginHandler API_BASE_URL fetch first password p).localStorage = p.localStorage
          ∧ ∃ title message, p.effectsSince (window.doctorLoginHandler API_BASE_URL fetch first password p)
              = [.preventDefault, .fetch (doctorLoginRequest API_BASE_URL first password),
                 .showMessageBox title message none false])
      ∧ (∀ r, fetch (doctorLoginRequest API_BASE_URL first password) = .ok r → r.ok = false →
          p.effectsSince (window.doctorLoginHandler API_BASE_URL fetch first password p)
            = [.preventDefault, .fetch (doctorLoginRequest API_BASE_URL first password),
               .showMessageBox "Login Failed" (some (.str "Invalid Doctor credentials!")) none false])
      ∧ (∀ e, fetch (doctorLoginRequest API_BASE_URL first password) = .error e →
          p.effectsSince (window.doctorLoginHandler API_BASE_URL fetch first password p)
            = [.preventDefault, .fetch (doctorLoginRequest API_BASE_URL first password),
               .showMessageBox "System Error"
                 (some (.str "An unexpected network or system error occurred.")) none false])
      ∧ (∀ r data token, fetch (doctorLoginRequest API_BASE_URL first password) = .ok r → r.ok = true →
          r.json = some data → getProp data "token" = .ok token → jsTruthy token = false →
          p.effectsSince (window.doctorLoginHandler API_BASE_URL fetch first password p)
            = [.preventDefault, .fetch (doctorLoginRequest API_BASE_URL first password),
               .showMessageBox "Login Failed"
                 (some (.str "Authentication successful, but no token received.")) none false])
      ∧ ((window.doctorLoginHandler API_BASE_URL fetch first password p).localStorage = p.localStorage
          ∨ ∃ token, (window.doctorLoginHandler API_BASE_URL fetch first password p).localStorage
              = (p.localStorage.setItem "token" token).setItem "userRole" "doctor")) := by
  constructor
  · refine ⟨?_, ?_, ?_, ?_, ?_, ?_⟩
    · intro r data token hf hok hj hg ht
      rw [adminLogin_token _ _ _ _ _ h1 h2 r data token hf hok hj hg ht]
      refine ⟨rfl, ?_, ?_, ?_⟩
      · show ((p.localStorage.setItem "token" (toStr token)).setItem "userRole"
            "admin").getItem "token" = _
        rw [getItem_setItem_other _ _ _ _ (by decide), getItem_setItem_self]
      · show ((p.localStorage.setItem "token" (toStr token)).setItem "userRole"
            "admin").getItem "userRole" = _
        rw [getItem_setItem_self]
      · apply effectsSince_append
        simp [Page.emit, Page.setItem]
    · intro hfail
      rcases adminLogin_cases API_BASE_URL fetch first password p h1 h2 with
        ⟨r, data, token, hf, hok, hj, hg, ht, _⟩ | ⟨title, message, h⟩
      · rw [hfail r data token hf hok hj hg] at ht
        exact absurd ht (by decide)
      · rw [h]
        exact ⟨rfl, title, message, effectsSince_append _ _ _ (by simp [Page.emit])⟩
    · intro r hf hok
      rw [adminLogin_not_ok _ _ _ _ _ h1 h2 r hf hok]
      exact effectsSince_append _ _ _ (by simp [Page.emit])
    · intro e hf
      rw [adminLogin_network_error _ _ _ _ _ h1 h2 e hf]
      exact effectsSince_append _ _ _ (by simp [Page.emit])
    · intro r data token hf hok hj hg ht
      rw [adminLogin_no_token _ _ _ _ _ h1 h2 r data token hf hok hj hg ht]
      exact effectsSince_append _ _ _ (by simp [Page.emit])
    · rcases adminLogin_cases API_BASE_URL fetch first password p h1 h2 with
        ⟨r, data, token, _, _, _, _, _, h⟩ | ⟨title, message, h⟩
      · rw [h]
        exact Or.inr ⟨toStr token, rfl⟩
      · rw [h]
        exact Or.inl rfl
  · refine ⟨?_, ?_, ?_, ?_, ?_, ?_⟩
    · intro r data token hf hok hj hg ht
      rw [doctorLogin_token _ _ _ _ _ h1 h2 r data token hf hok hj hg ht]
      refine ⟨rfl, ?_, ?_, ?_⟩
      · show ((p.localStorage.setItem "token" (toStr token)).setItem "userRole"
            "doctor").getItem "token" = _
        rw [getItem_setItem_other _ _ _ _ (by decide), getItem_setItem_self]
      · show ((p.localStorage.setItem "token" (toStr token)).setItem "userRole"
            "doctor").getItem "userRole" = _
        rw [getItem_setItem_self]
      · apply effectsSince_append
        simp [Page.emit, Page.setItem]
    · intro hfail
      rcases doctorLogin_cases API_BASE_URL fetch first password p h1 h2 with
        ⟨r, data, token, hf, hok, hj, hg, ht, _⟩ | ⟨title, message, h⟩
      · rw [hfail r data token hf hok hj hg] at ht
        exact absurd ht (by decide)
      · rw [h]
        exact ⟨rfl, title, message, effectsSince_append _ _ _ (by simp [Page.emit])⟩
    · intro r hf hok
      rw [doctorLogin_not_ok _ _ _ _ _ h1 h2 r hf hok]
      exact effectsSince_append _ _ _ (by simp [Page.emit])
    · intro e hf
      rw [doctorLogin_network_error _ _ _ _ _ h1 h2 e hf]
      exact effectsSince_append _ _ _ (by simp [Page.emit])
    · intro r data token hf hok hj hg ht
      rw [doctorLogin_no_token _ _ _ _ _ h1 h2 r data token hf hok hj hg ht]
      exact effectsSince_append _ _ _ (by simp [Page.emit])
    · rcases doctorLogin_cases API_BASE_URL fetch first password p h1 h2 with
        ⟨r, data, token, _, _, _, _, _, h⟩ | ⟨title, message, h⟩
      · rw [h]
        exact Or.inr ⟨toStr token, rfl⟩
      · rw [h]
        exact Or.inl rfl

theorem renderDoctorCards_empty (p : Page) :
    renderDoctorCards (.arr []) p
      = { p with content := p.content.map (fun _ =>
          [.paragraph "no-records-message" "No doctors found matching the criteria."]) } := by
  obtain ⟨storage, content, nextNodeId, log⟩ := p
  cases content with
  | none => rfl
  | some nodes => rfl

theorem filterDoctorsOnChange_failure (API_BASE_URL : String) (fetch : Fetch)
    (controls : FilterControls) (p : Page)
    (hfail : ∀ r j,
      fetch (filterDoctorsRequest API_BASE_URL
        ((controls.searchBar.map jsTrim).getD "")
        (controls.filterTime.getD "") (controls.filterSpecialty.getD "")) = .ok r →
      r.ok = true → r.json ≠ some j) :
    filterDoctorsOnChange API_BASE_URL fetch controls p
      = { p with
          content := p.content.map (fun _ =>
            [.paragraph "no-records-message" "No doctors found matching the criteria."]),
          log := p.log ++ [.fetch (filterDoctorsRequest API_BASE_URL
            ((controls.searchBar.map jsTrim).getD "")
            (controls.filterTime.getD "") (controls.filterSpecialty.getD ""))] } := by
  have hres : filterDoctors API_BASE_URL fetch
      ((controls.searchBar.map jsTrim).getD "")
      (controls.filterTime.getD "") (controls.filterSpecialty.getD "") = .ok (.arr []) :=
    (listResponse_cases _).2 hfail
  unfold filterDoctorsOnChange
  simp only [hres, renderDoctorCards_empty]
  obtain ⟨storage, content, nextNodeId, log⟩ := p
  cases content <;> rfl

theorem loadDoctorCards_failure (API_BASE_URL : String) (fetch : Fetch) (p : Page)
    (hfail : ∀ r j, fetch (getDoctorsRequest API_BASE_URL) = .ok r →
      r.ok = true → r.json ≠ some j) :
    loadDoctorCards API_BASE_URL fetch p
      = { p with
          content := p.content.map (fun _ =>
            [.paragraph "no-records-message" "No doctors found matching the criteria."]),
          log := p.log ++ [.fetch (getDoctorsRequest API_BASE_URL)] } := by
  have hres : getDoctors API_BASE_URL fetch = .ok (.arr []) :=
    (listResponse_cases _).2 hfail
  unfold loadDoctorCards loadDoctorCardsFinish loadDoctorCardsStart
  simp only [hres, renderDoctorCards_empty]
  obtain ⟨storage, content, nextNodeId, log⟩ := p
  cases content <;> rfl

/-- C17: the filter path at a backend that cannot be reached, with "Smith" in the search bar.
`filterDoctorsOnChange` sends its request and then shows the empty-state message in the
content area; the request is its only effect, and no alert and no message box follows, where
the comments of `adminDashboard.js` and `doctorServices.js` say that the error is shown with
an alert. -/
theorem filter_path_shows_no_alert :
    filterDoctorsOnChange "http://localhost:8080" unreachableBackend
        ⟨some "Smith", some "", some ""⟩
        ⟨⟨[("userRole", "admin"), ("token", "abc")]⟩, some [], 0, []⟩
      = ⟨⟨[("userRole", "admin"), ("token", "abc")]⟩,
          some [.paragraph "no-records-message" "No doctors found matching the criteria."], 0,
          [.fetch ⟨"http://localhost:8080/doctor/filter?name=Smith", "GET", [], none⟩]⟩ := by
  rfl

/-- What the two paths do with an error during the fetch (a network exception, a status that
is not a success, a body that does not parse): on the filter path (`filterDoctorsOnChange`
calling `filterDoctors`) as on the list path (`loadDoctorCards` calling `getDoctors`) the
content area, when the page has one, ends with the empty-state message alone, and the request
is the only effect. -/
theorem filter_and_list_paths_swallow_errors (API_BASE_URL : String) (fetch : Fetch)
    (controls : FilterControls) (p : Page) :
    ((∀ r j,
        fetch (filterDoctorsRequest API_BASE_URL
          ((controls.searchBar.map jsTrim).getD "")
          (controls.filterTime.getD "") (controls.filterSpecialty.getD "")) = .ok r →
        r.ok = true → r.json ≠ some j) →
      filterDoctorsOnChange API_BASE_URL fetch controls p
        = { p with
            content := p.content.map (fun _ =>
              [.paragraph "no-records-message" "No doctors found matching the criteria."]),
            log := p.log ++ [.fetch (filterDoctorsRequest API_BASE_URL
              ((controls.searchBar.map jsTrim).getD "")
              (controls.filterTime.getD "") (controls.filterSpecialty.getD ""))] })
    ∧ ((∀ r j, fetch (getDoctorsRequest API_BASE_URL) = .ok r →
          r.ok = true → r.json ≠ some j) →
      loadDoctorCards API_BASE_URL fetch p
        = { p with
            content := p.content.map (fun _ =>
              [.paragraph "no-records-message" "No doctors found matching the criteria."]),
            log := p.log ++ [.fetch (getDoctorsRequest API_BASE_URL)] }) :=
  ⟨filterDoctorsOnChange_failure _ _ _ _, loadDoctorCards_failure _ _ _⟩

theorem filter_and_list_paths_swallow_errors_witness :
    loadDoctorCards "http://localhost:8080" unreachableBackend
        ⟨⟨[("userRole", "admin"), ("token", "abc")]⟩, some [], 0, []⟩
      = ⟨⟨[("userRole", "admin"), ("token", "abc")]⟩,
          some [.paragraph "no-records-message" "No doctors found matching the criteria."], 0,
          [.fetch (getDoctorsRequest "http://localhost:8080")]⟩ :=
  (filter_and_list_paths_swallow_errors "http://localhost:8080" unreachableBackend
    ⟨some "Smith", some "", some ""⟩
    ⟨⟨[("userRole", "admin"), ("token", "abc")]⟩, some [], 0, []⟩).2
    (by intro r j h; cases h)

theorem appendDoctorCards_objects (records : List Doctor) (p : Page)
    (nodes : List ContentNode) (h : p.content = some nodes) :
    appendDoctorCards (records.map (fun r => Json.obj r.fields)) p
      = { p with
          content := some (nodes ++ (records.enumFrom p.nextNodeId).map
            (fun ir => ContentNode.card ir.1 (createDoctorCard p.localStorage ir.2))),
          nextNodeId := p.nextNodeId + records.length } := by
  induction records generalizing p nodes with
  | nil =>
    obtain ⟨storage, content, nextNodeId, log⟩ := p
    simp only at h
    subst h
    simp [appendDoctorCards]
  | cons r rest ih =>
    obtain ⟨storage, content, nextNodeId, log⟩ := p
    simp only at h
    subst h
    simp only [List.map_cons, appendDoctorCards, doctorOfJson, Page.appendChild,
      Option.map_some']
    rw [ih _ (nodes ++ [ContentNode.card nextNodeId (createDoctorCard storage r)]) rfl]
    simp [List.enumFrom_cons, Nat.add_assoc, Nat.add_comm 1]

/-- The cards that `renderDoctorCards` puts in the content area for a non-empty list of doctor
objects: one new node for each, in the order of the list. -/
theorem renderDoctorCards_objects (records : List Doctor) (hne : records ≠ []) (p : Page)
    (nodes : List ContentNode) (h : p.content = some nodes) :
    renderDoctorCards (.arr (records.map (fun r => Json.obj r.fields))) p
      = { p with
          content := some ((records.enumFrom p.nextNodeId).map
            (fun ir => ContentNode.card ir.1 (createDoctorCard p.localStorage ir.2))),
          nextNodeId := p.nextNodeId + records.length } := by
  unfold renderDoctorCards
  have hz : lengthIsZero (.arr (records.map (fun r => Json.obj r.fields))) = false := by
    cases records with
    | nil => exact absurd rfl hne
    | cons r rest => rfl
  simp only [h, jsTruthy, hz, Bool.not_true, Bool.or_self, Bool.false_eq_true, if_false]
  rw [appendDoctorCards_objects records _ [] rfl]
  simp

theorem cards_of_cardNodes (cards : List (Nat × Card)) (p : Page)
    (h : p.content = some (cards.map (fun c => ContentNode.card c.1 c.2))) :
    p.cards = cards := by
  unfold Page.cards
  rw [h]
  induction cards generalizing p with
  | nil => rfl
  | cons c rest ih =>
    simp only [List.map_cons, List.filterMap_cons]
    congr 1
    exact ih ⟨p.localStorage, some (rest.map (fun c => ContentNode.card c.1 c.2)), p.nextNodeId,
      p.log⟩ rfl

theorem deleteConfirmed_success (API_BASE_URL : String) (fetch : Fetch) (p : Page)
    (nodeId : Nat) (doctor : Doctor) (nodes : List ContentNode)
    (hcontent : p.content = some nodes)
    (hsuccess : (window.deleteDoctor API_BASE_URL fetch (doctor.get "id") p).2 = .ok true) :
    ∃ token, p.localStorage.getItem "token" = some token ∧ token ≠ ""
      ∧ runPageCallback API_BASE_URL fetch true (.deleteConfirmed nodeId doctor) p
        = { p with
            content := some [.paragraph "loading-message" "Loading doctor records..."],
            log := p.log ++ [.fetch (deleteDoctorRequest API_BASE_URL (doctor.get "id") token),
              .fetch (getDoctorsRequest API_BASE_URL),
              .showMessageBox "Success"
                (some (.str (toStr (doctor.get "name") ++ " has been deleted."))) none false] } := by
  obtain ⟨token, result, hs, hne, hr, hsucc, hpage⟩ := window_deleteDoctor_true _ _ _ _ hsuccess
  refine ⟨token, hs, hne, ?_⟩
  cases hwd : window.deleteDoctor API_BASE_URL fetch (doctor.get "id") p with
  | mk q r =>
    rw [hwd] at hsuccess hpage
    simp only at hsuccess hpage
    subst hsuccess
    simp only [runPageCallback, hwd, if_true]
    rw [hpage]
    obtain ⟨storage, content, nextNodeId, log⟩ := p
    simp only at hcontent
    subst hcontent
    simp [loadDoctorCardsStart, Page.setContent, Page.emit, Page.removeCard,
      ContentNode.isCard]

/-- C13, as stated, fails: the admin's page shows the cards of A and B, the deletion of A
succeeds, and when the delete handler has finished the content area holds the loading message
alone: the card of B, which was there before, is gone too. -/
theorem delete_success_clears_every_card :
    twoCardsPage.cards.map (fun c => c.1) = [0, 1]
    ∧ (twoCardsPage.findCard 1).isSome = true
    ∧ (window.deleteDoctor "http://localhost:8080" deletingBackend (some (.num "1"))
        twoCardsPage).2 = .ok true
    ∧ (runPageCallback "http://localhost:8080" deletingBackend true
        (.deleteConfirmed 0 ⟨[("id", .num "1"), ("name", .str "A")]⟩) twoCardsPage).content
        = some [.paragraph "loading-message" "Loading doctor records..."]
    ∧ (runPageCallback "http://localhost:8080" deletingBackend true
        (.deleteConfirmed 0 ⟨[("id", .num "1"), ("name", .str "A")]⟩) twoCardsPage).findCard 1
        = none :=
  ⟨rfl, rfl, rfl, rfl, rfl⟩

/-- C13, amended: for every content area and every card in it, a successful delete of that
card's doctor takes that card node out of the content area, and with it every other node:
`window.deleteDoctor` starts the reload of the list, which replaces the whole content by the
loading message before the delete handler removes the card and shows its message. When the
handler has finished the content area holds the loading message and no card; when the list
then arrives, a new card node is rendered for each doctor of the list, in the order of the
list. The call `card.remove()` by itself removes that node only and keeps the others in
order. -/
theorem delete_success_reloads_content (API_BASE_URL : String) (fetch : Fetch) (p : Page)
    (nodeId : Nat) (doctor : Doctor) (card : Card)
    (hcard : p.findCard nodeId = some card)
    (hsuccess : (window.deleteDoctor API_BASE_URL fetch (doctor.get "id") p).2 = .ok true) :
    (runPageCallback API_BASE_URL fetch true (.deleteConfirmed nodeId doctor) p).content
      = some [.paragraph "loading-message" "Loading doctor records..."]
    ∧ (runPageCallback API_BASE_URL fetch true (.deleteConfirmed nodeId doctor) p).findCard
        nodeId = none
    ∧ (runPageCallback API_BASE_URL fetch true (.deleteConfirmed nodeId doctor) p).cards = []
    ∧ (∃ token, p.localStorage.getItem "token" = some token ∧ token ≠ ""
        ∧ p.effectsSince
            (runPageCallback API_BASE_URL fetch true (.deleteConfirmed nodeId doctor) p)
          = [.fetch (deleteDoctorRequest API_BASE_URL (doctor.get "id") token),
             .fetch (getDoctorsRequest API_BASE_URL),
             .showMessageBox "Success"
               (some (.str (toStr (doctor.get "name") ++ " has been deleted."))) none false])
    ∧ (∀ (fetchLater : Fetch) (records : List Doctor), records ≠ [] →
        getDoctors API_BASE_URL fetchLater = .ok (.arr (records.map (fun r => Json.obj r.fields)))
        → (loadDoctorCardsFinish API_BASE_URL fetchLater
            (runPageCallback API_BASE_URL fetch true (.deleteConfirmed nodeId doctor) p)).cards
          = (records.enumFrom p.nextNodeId).map
              (fun ir => (ir.1, createDoctorCard p.localStorage ir.2)))
    ∧ (p.removeCard nodeId).cards = p.cards.filter (fun c => c.1 != nodeId) := by
  have hcontent : ∃ nodes, p.content = some nodes := by
    cases hc : p.content with
    | none => simp [Page.findCard, hc] at hcard
    | some nodes => exact ⟨nodes, rfl⟩
  obtain ⟨nodes, hcontent⟩ := hcontent
  obtain ⟨token, hs, hne, hq⟩ :=
    deleteConfirmed_success API_BASE_URL fetch p nodeId doctor nodes hcontent hsuccess
  rw [hq]
  refine ⟨rfl, rfl, rfl, ⟨token, hs, hne, effectsSince_append _ _ _ rfl⟩, ?_,
    cards_removeCard p nodeId⟩
  intro fetchLater records hne2 hlist
  unfold loadDoctorCardsFinish
  rw [hlist]
  simp only
  rw [renderDoctorCards_objects records hne2 _ _ rfl]
  apply cards_of_cardNodes
  simp

/-- C16, as stated, fails: with a patient name in the search filter, zero results give the row
"No appointments found for 2025-01-01 matching the search query.", which is not the message
"No appointments found for 2025-01-01."; and on a page without the table body no row is
rendered at all. -/
theorem no_appointments_message_depends_on_filter :
    (loadAppointments (fun _ _ _ _ => .ok (some (.arr []))) (fun _ => Except.ok "row")
        ⟨some [], "2025-01-01", some "tok", some "Ann", some "7"⟩).tableBody
      = some [.message "No appointments found for 2025-01-01 matching the search query."]
    ∧ "No appointments found for 2025-01-01 matching the search query."
        ≠ "No appointments found for 2025-01-01."
    ∧ (loadAppointments (fun _ _ _ _ => .ok (some (.arr []))) (fun _ => Except.ok "row")
        ⟨none, "2025-01-01", some "tok", none, some "7"⟩).tableBody = none :=
  ⟨rfl, by decide, rfl⟩

theorem isPlainText_append (a b : String) :
    isPlainText (a ++ b) = (isPlainText a && isPlainText b) := by
  unfold isPlainText
  rw [String.data_append, List.all_append]

theorem displayMessageRow_plain {Row : Type} (s : DoctorDashboard Row) (message : String)
    (hplain : isPlainText message = true) :
    s.displayMessageRow message
      = { s with tableBody := s.tableBody.map (fun _ => [.message message]) } := by
  obtain ⟨tableBody, selectedDate, token, patientName, doctorId⟩ := s
  unfold DoctorDashboard.displayMessageRow
  cases tableBody with
  | none => rfl
  | some rows => simp only [hplain, if_true, Option.map_some']

/-- A selected date that holds markup: the message row is read as markup, and which rows the
table body then holds is left open. -/
theorem loadAppointments_markup_in_date :
    (loadAppointments (fun _ _ _ _ => .ok (some (.arr []))) (fun _ => Except.ok "row")
        ⟨some [], "2025-01-01</td></tr><tr><td>x", some "tok", none, some "7"⟩).tableBody
      = some [.markup "No appointments found for 2025-01-01</td></tr><tr><td>x."] :=
  rfl

theorem displayMessageRow_present {Row : Type} (s : DoctorDashboard Row)
    (rows : List (TableRow Row)) (h : s.tableBody = some rows) (message : String)
    (hplain : isPlainText message = true) :
    s.displayMessageRow message = { s with tableBody := some [.message message] } := by
  rw [displayMessageRow_plain s message hplain, h]
  rfl

/-- C16, amended: on a page that has the table body, for every selected date that is plain text
(it holds none of the characters that `innerHTML` reads as markup): when the appointment fetch
returns zero results (an empty list, `null` or `undefined`), `loadAppointments` leaves
exactly one row in the table, the message row "No appointments found for <date>." when no
patient name is set in the search filter and
"No appointments found for <date> matching the search query." when one is set; when the fetch
throws, and when the token or the doctor id is missing, it likewise leaves exactly one message
row and no appointment row, whatever the selected date. -/
theorem loadAppointments_single_message_row {Row : Type}
    (getAllAppointments : String → Option String → Option String → Option String
      → Except JsError JsVal)
    (createPatientRow : Json → Except JsError Row) (s : DoctorDashboard Row)
    (rows : List (TableRow Row)) (hbody : s.tableBody = some rows) :
    ((truthy s.token = false ∨ truthy s.doctorId = false) →
        loadAppointments getAllAppointments createPatientRow s
          = { s with tableBody := some [.message "Authentication required. Please log in."] })
    ∧ (∀ appointments, truthy s.token = true → truthy s.doctorId = true →
        getAllAppointments s.selectedDate s.patientName s.token s.doctorId = .ok appointments →
        (appointments = none ∨ appointments = some .null ∨ appointments = some (.arr [])) →
        isPlainText s.selectedDate = true →
        loadAppointments getAllAppointments createPatientRow s
            = { s with tableBody := some [.message ("No appointments found for "
                ++ s.selectedDate
                ++ (if truthy s.patientName then " matching the search query." else "."))] }
        ∧ (truthy s.patientName = false →
            (loadAppointments getAllAppointments createPatientRow s).tableBody
              = some [.message ("No appointments found for " ++ s.selectedDate ++ ".")])
        ∧ (truthy s.patientName = true →
            (loadAppointments getAllAppointments createPatientRow s).tableBody
              = some [.message ("No appointments found for " ++ s.selectedDate
                  ++ " matching the search query.")]))
    ∧ (∀ e, truthy s.token = true → truthy s.doctorId = true →
        getAllAppointments s.selectedDate s.patientName s.token s.doctorId = .error e →
        loadAppointments getAllAppointments createPatientRow s
          = { s with tableBody := some [.message
              "An error occurred while fetching appointments. Please try again."] }) := by
  obtain ⟨tableBody, selectedDate, token, patientName, doctorId⟩ := s
  simp only at hbody
  subst hbody
  refine ⟨?_, ?_, ?_⟩
  · intro h
    unfold loadAppointments
    simp only [h, if_true]
    rfl
  · intro appointments ht hd hget hzero hdate
    have hcond : ¬ (truthy token = false ∨ truthy doctorId = false) := by simp [ht, hd]
    have hplain : isPlainText ("No appointments found for " ++ selectedDate
        ++ (if truthy patientName then " matching the search query." else ".")) = true := by
      simp only at hdate
      rw [isPlainText_append, isPlainText_append, hdate]
      cases truthy patientName <;> rfl
    have key : loadAppointments getAllAppointments createPatientRow
          ⟨some rows, selectedDate, token, patientName, doctorId⟩
        = ⟨some [.message ("No appointments found for " ++ selectedDate
            ++ (if truthy patientName then " matching the search query." else "."))],
            selectedDate, token, patientName, doctorId⟩ := by
      unfold loadAppointments
      simp only [hcond, if_false, DoctorDashboard.displayMessageRow, hget]
      rcases hzero with h | h | h <;> subst h <;> simp only [hplain] <;> rfl
    rw [key]
    refine ⟨rfl, ?_, ?_⟩
    · intro hp
      simp [hp]
    · intro hp
      simp [hp]
  · intro e ht hd hget
    have hcond : ¬ (truthy token = false ∨ truthy doctorId = false) := by simp [ht, hd]
    unfold loadAppointments
    simp only [hcond, if_false, DoctorDashboard.displayMessageRow, hget]
    rfl

theorem loadAppointments_single_message_row_witness :
    loadAppointments (fun _ _ _ _ => .ok (some (.arr []))) (fun _ => Except.ok "row")
        ⟨some [.patient "old row"], "2025-01-01", some "tok", none, some "7"⟩
      = ⟨some [.message "No appointments found for 2025-01-01."], "2025-01-01", some "tok", none,
          some "7"⟩ :=
  ((loadAppointments_single_message_row (fun _ _ _ _ => .ok (some (.arr [])))
    (fun _ => Except.ok "row")
    ⟨some [.patient "old row"], "2025-01-01", some "tok", none, some "7"⟩
    [.patient "old row"] rfl).2.1 (some (.arr [])) (by decide) (by decide) rfl
    (Or.inr (Or.inr rfl)) (by decide)).1

theorem admin_delete_needs_confirmation_witness :
    (runPageCallback "http://localhost:8080" deletingBackend true
        (.deleteConfirmed 0 ⟨[("id", .num "1"), ("name", .str "A")]⟩) twoCardsPage).findCard 0
      = none :=
  ((admin_delete_needs_confirmation "http://localhost:8080" deletingBackend
    (fun _ => .error .networkFailure) twoCardsPage 0
    ⟨[("userRole", "admin"), ("token", "abc")]⟩ ⟨[("id", .num "1"), ("name", .str "A")]⟩
    (by decide) rfl).2.2.2.1 rfl).1

theorem delete_success_reloads_content_witness :
    (runPageCallback "http://localhost:8080" deletingBackend true
        (.deleteConfirmed 0 ⟨[("id", .num "1"), ("name", .str "A")]⟩) twoCardsPage).cards
      = [] :=
  (delete_success_reloads_content "http://localhost:8080" deletingBackend twoCardsPage 0
    ⟨[("id", .num "1"), ("name", .str "A")]⟩
    (createDoctorCard ⟨[("userRole", "admin"), ("token", "abc")]⟩
      ⟨[("id", .num "1"), ("name", .str "A")]⟩) rfl rfl).2.2.1

theorem login_empty_field_sends_nothing_witness :
    window.adminLoginHandler "http://localhost:8080" tokenBackend "" "secret"
        ⟨⟨[]⟩, none, 0, []⟩
      = ⟨⟨[]⟩, none, 0, [.preventDefault, .showMessageBox "Login Error"
          (some (.str "Please enter both username and password.")) none false]⟩ :=
  (login_empty_field_sends_nothing "http://localhost:8080" tokenBackend "" "secret"
    ⟨⟨[]⟩, none, 0, []⟩ (Or.inl rfl)).1.1

theorem login_writes_token_and_role_together_witness :
    (window.doctorLoginHandler "http://localhost:8080" tokenBackend "d@x.org" "secret"
        ⟨⟨[]⟩, none, 0, []⟩).localStorage.getItem "token" = some "jwt-1" :=
  ((login_writes_token_and_role_together "http://localhost:8080" tokenBackend "d@x.org"
    "secret" ⟨⟨[]⟩, none, 0, []⟩ (by decide) (by decide)).2.1
    { status := 200, statusText := "OK", text := "\x7b\"token\":\"jwt-1\"\x7d",
      json := some (.obj [("token", .str "jwt-1")]) }
    (.obj [("token", .str "jwt-1")]) (some (.str "jwt-1")) rfl rfl rfl rfl rfl).2.1

theorem window_deleteDoctor_returns_success_flag_witness :
    window.deleteDoctor "http://localhost:8080" deletingBackend (some (.num "1"))
        ⟨⟨[("userRole", "admin")]⟩, some [], 0, []⟩
      = (⟨⟨[("userRole", "admin")]⟩, some [], 0,
          [.showMessageBox "Auth Error" (some (.str "Session expired. Please log in."))
            none false]⟩, .ok false) :=
  ((window_deleteDoctor_returns_success_flag "http://localhost:8080" deletingBackend
    (some (.num "1")) ⟨⟨[("userRole", "admin")]⟩, some [], 0, []⟩).1 (Or.inl rfl)).1

theorem adminAddDoctor_calls_saveDoctor_iff_valid_witness :
    window.adminAddDoctor "http://localhost:8080" createdBackend
        ⟨"Ann Lee", "Cardiology", "ann@x.org", "", "555", ["09:00"]⟩
        ⟨⟨[("userRole", "admin"), ("token", "abc")]⟩, some [], 0, []⟩
      = ⟨⟨[("userRole", "admin"), ("token", "abc")]⟩, some [], 0,
          [.preventDefault, .showMessageBox "Validation Error"
            (some (.str "Please fill in all fields and select at least one availability slot."))
            none false]⟩ :=
  (adminAddDoctor_calls_saveDoctor_iff_valid "http://localhost:8080" createdBackend
    ⟨"Ann Lee", "Cardiology", "ann@x.org", "", "555", ["09:00"]⟩
    ⟨⟨[("userRole", "admin"), ("token", "abc")]⟩, some [], 0, []⟩).2.2.2 "abc" rfl
    (by decide) (Or.inr (Or.inr (Or.inr (Or.inl rfl))))

theorem loadDoctorCards_list (API_BASE_URL : String) (fetch : Fetch) (p : Page)
    (nodes : List ContentNode) (records : List Doctor) (r : Response)
    (hcontent : p.content = some nodes)
    (hfetch : fetch (getDoctorsRequest API_BASE_URL) = .ok r) (hok : r.ok = true)
    (hjson : r.json = some (.arr (records.map (fun d => Json.obj d.fields))))
    (hne : records ≠ []) :
    loadDoctorCards API_BASE_URL fetch p
      = { p with
          content := some ((records.enumFrom p.nextNodeId).map
            (fun ir => ContentNode.card ir.1 (createDoctorCard p.localStorage ir.2))),
          nextNodeId := p.nextNodeId + records.length,
          log := p.log ++ [.fetch (getDoctorsRequest API_BASE_URL)] } := by
  have hres : getDoctors API_BASE_URL fetch
      = .ok (.arr (records.map (fun d => Json.obj d.fields))) :=
    (listResponse_cases _).1 r _ hfetch hok hjson
  obtain ⟨storage, content, nextNodeId, log⟩ := p
  simp only at hcontent
  subst hcontent
  unfold loadDoctorCards loadDoctorCardsFinish loadDoctorCardsStart
  simp only [hres]
  rw [renderDoctorCards_objects records hne _
    [.paragraph "loading-message" "Loading doctor records..."] rfl]
  rfl

theorem loadDoctorCards_emptyList (API_BASE_URL : String) (fetch : Fetch) (p : Page)
    (nodes : List ContentNode) (r : Response)
    (hcontent : p.content = some nodes)
    (hfetch : fetch (getDoctorsRequest API_BASE_URL) = .ok r) (hok : r.ok = true)
    (hjson : r.json = some (.arr [])) :
    loadDoctorCards API_BASE_URL fetch p
      = { p with
          content := some
            [.paragraph "no-records-message" "No doctors found matching the criteria."],
          log := p.log ++ [.fetch (getDoctorsRequest API_BASE_URL)] } := by
  have hres : getDoctors API_BASE_URL fetch = .ok (.arr []) :=
    (listResponse_cases _).1 r _ hfetch hok hjson
  obtain ⟨storage, content, nextNodeId, log⟩ := p
  simp only at hcontent
  subst hcontent
  unfold loadDoctorCards loadDoctorCardsFinish loadDoctorCardsStart
  simp only [hres, renderDoctorCards_empty]
  rfl

theorem map_snd_enumFrom_map {α β : Type} (f : α → β) (l : List α) (n : Nat) :
    ((l.enumFrom n).map (fun ir => (ir.1, f ir.2))).map (fun c => c.2) = l.map f := by
  induction l generalizing n with
  | nil => rfl
  | cons a rest ih => simp [List.enumFrom_cons, ih]

theorem map_fst_enumFrom_map {α β : Type} (f : α → β) (l : List α) (n : Nat) :
    ((l.enumFrom n).map (fun ir => (ir.1, f ir.2))).map (fun c => c.1)
      = List.range' n l.length := by
  induction l generalizing n with
  | nil => rfl
  | cons a rest ih => simp [List.enumFrom_cons, ih, List.range'_succ]

theorem createDoctorCard_buttons_admin (localStorage : LocalStorage) (doctor : Doctor)
    (hrole : localStorage.getItem "userRole" = some "admin") :
    (createDoctorCard localStorage doctor).buttons
      = [{ tag := "button", classes := ["danger-btn"], attrs := [], textContent := "Delete",
           listeners := [.confirmDelete doctor] }] := by
  rw [createDoctorCard_buttons, if_pos hrole]

/-- C21: the admin's page with a content area, and `GET /doctor` answered with a successful
response whose body is a list of `n` doctor objects. When the list is not empty,
`loadDoctorCards` leaves exactly `n` nodes in the content area, all of them cards: the card
that `createDoctorCard` builds for each doctor of the list, in the order of the list, each a
new node and each with the one button Delete, whose listener is the delete confirmation for
that doctor. When the list is empty the content area holds no card and the one paragraph
"No doctors found matching the criteria.". In both cases the request is the only effect. -/
theorem loadDoctorCards_renders_one_card_per_doctor (API_BASE_URL : String) (fetch : Fetch)
    (p : Page) (nodes : List ContentNode) (records : List Doctor) (r : Response)
    (hrole : p.localStorage.getItem "userRole" = some "admin")
    (hcontent : p.content = some nodes)
    (hfetch : fetch (getDoctorsRequest API_BASE_URL) = .ok r) (hok : r.ok = true)
    (hjson : r.json = some (.arr (records.map (fun d => Json.obj d.fields)))) :
    (records ≠ [] →
        (loadDoctorCards API_BASE_URL fetch p).content
          = some ((records.enumFrom p.nextNodeId).map
              (fun ir => ContentNode.card ir.1 (createDoctorCard p.localStorage ir.2)))
        ∧ (loadDoctorCards API_BASE_URL fetch p).cards.length = records.length
        ∧ (loadDoctorCards API_BASE_URL fetch p).cards.map (fun c => c.2)
            = records.map (createDoctorCard p.localStorage)
        ∧ (loadDoctorCards API_BASE_URL fetch p).cards.map (fun c => c.1)
            = List.range' p.nextNodeId records.length
        ∧ (∀ c ∈ (loadDoctorCards API_BASE_URL fetch p).cards, c.2.buttonLabels = ["Delete"])
        ∧ (loadDoctorCards API_BASE_URL fetch p).cards.map (fun c => c.2.buttons)
            = records.map (fun d =>
                [{ tag := "button", classes := ["danger-btn"], attrs := [],
                   textContent := "Delete", listeners := [.confirmDelete d] }]))
    ∧ (records = [] →
        (loadDoctorCards API_BASE_URL fetch p).content
          = some [.paragraph "no-records-message" "No doctors found matching the criteria."]
        ∧ (loadDoctorCards API_BASE_URL fetch p).cards = [])
    ∧ p.effectsSince (loadDoctorCards API_BASE_URL fetch p)
        = [.fetch (getDoctorsRequest API_BASE_URL)]
    ∧ (loadDoctorCards API_BASE_URL fetch p).localStorage = p.localStorage := by
  by_cases hne : records = []
  · subst hne
    have key := loadDoctorCards_emptyList API_BASE_URL fetch p nodes r hcontent hfetch hok hjson
    rw [key]
    refine ⟨fun h => absurd rfl h, fun _ => ⟨rfl, rfl⟩, effectsSince_append _ _ _ rfl, rfl⟩
  · have key := loadDoctorCards_list API_BASE_URL fetch p nodes records r hcontent hfetch hok
      hjson hne
    have hcards : (loadDoctorCards API_BASE_URL fetch p).cards
        = (records.enumFrom p.nextNodeId).map
            (fun ir => (ir.1, createDoctorCard p.localStorage ir.2)) := by
      apply cards_of_cardNodes
      rw [key]
      simp
    refine ⟨fun _ => ⟨?_, ?_, ?_, ?_, ?_, ?_⟩, fun h => absurd h hne, ?_, ?_⟩
    · rw [key]
    · rw [hcards]; simp
    · rw [hcards]; exact map_snd_enumFrom_map _ _ _
    · rw [hcards]; exact map_fst_enumFrom_map _ _ _
    · intro c hc
      rw [hcards] at hc
      obtain ⟨ir, _, rfl⟩ := List.mem_map.1 hc
      simp only [Card.buttonLabels, createDoctorCard_buttons_admin _ _ hrole, List.map_cons,
        List.map_nil]
    · rw [hcards, List.map_map, ← map_snd_enumFrom_map _ records p.nextNodeId, List.map_map]
      apply List.map_congr_left
      intro ir _
      simp only [Function.comp, createDoctorCard_buttons_admin _ _ hrole]
    · rw [key]; exact effectsSince_append _ _ _ rfl
    · rw [key]

theorem loadDoctorCards_renders_one_card_per_doctor_witness :
    (loadDoctorCards "http://localhost:8080" listOnlyBackend adminPage).cards.length = 1
    ∧ (loadDoctorCards "http://localhost:8080" listOnlyBackend adminPage).cards.map
          (fun c => c.2.buttons)
        = [[{ tag := "button", classes := ["danger-btn"], attrs := [], textContent := "Delete",
              listeners := [.confirmDelete ⟨[("id", .num "1"), ("name", .str "A")]⟩] }]] :=
  ⟨((loadDoctorCards_renders_one_card_per_doctor "http://localhost:8080" listOnlyBackend
      adminPage [] [⟨[("id", .num "1"), ("name", .str "A")]⟩]
      { status := 200, statusText := "OK", text := "[\x7b\"id\":1,\"name\":\"A\"\x7d]",
        json := some (.arr [.obj [("id", .num "1"), ("name", .str "A")]]) }
      (by decide) rfl rfl (by decide) rfl).1 (by simp)).2.1,
   ((loadDoctorCards_renders_one_card_per_doctor "http://localhost:8080" listOnlyBackend
      adminPage [] [⟨[("id", .num "1"), ("name", .str "A")]⟩]
      { status := 200, statusText := "OK", text := "[\x7b\"id\":1,\"name\":\"A\"\x7d]",
        json := some (.arr [.obj [("id", .num "1"), ("name", .str "A")]]) }
      (by decide) rfl rfl (by decide) rfl).1 (by simp)).2.2.2.2.2⟩

theorem bookAppointment_noToken (getPatientData : String → Except JsError JsVal)
    (nodeId : Nat) (doctor : Doctor) (p : Page)
    (h : truthy (p.localStorage.getItem "token") = false) :
    runCardListener getPatientData nodeId (.bookAppointment doctor) p
      = p.emit (.showMessageBox "Error"
          (some (.str "Authentication token missing. Please log in again.")) none false) := by
  unfold runCardListener
  cases ht : p.localStorage.getItem "token" with
  | none => simp only [ht]
  | some token =>
    have : token = "" := by simpa [truthy, ht] using h
    simp only [ht, this, if_true]

theorem bookAppointment_error (getPatientData : String → Except JsError JsVal)
    (nodeId : Nat) (doctor : Doctor) (p : Page) (token : String) (e : JsError)
    (ht : p.localStorage.getItem "token" = some token) (hne : token ≠ "")
    (hget : getPatientData token = .error e) :
    runCardListener getPatientData nodeId (.bookAppointment doctor) p
      = { p with log := p.log ++ [.getPatientData token, .uncaught e] } := by
  unfold runCardListener
  simp only [ht, hne, if_false, hget]
  simp [Page.emit]

theorem bookAppointment_data (getPatientData : String → Except JsError JsVal)
    (nodeId : Nat) (doctor : Doctor) (p : Page) (token : String) (patientData : JsVal)
    (ht : p.localStorage.getItem "token" = some token) (hne : token ≠ "")
    (hget : getPatientData token = .ok patientData) (hdata : jsTruthy patientData = true) :
    runCardListener getPatientData nodeId (.bookAppointment doctor) p
      = { p with log := p.log ++ [.getPatientData token,
          .showBookingOverlay doctor patientData] } := by
  unfold runCardListener
  simp only [ht, hne, if_false, hget, hdata, if_true]
  simp [Page.emit]

theorem bookAppointment_noData (getPatientData : String → Except JsError JsVal)
    (nodeId : Nat) (doctor : Doctor) (p : Page) (token : String) (patientData : JsVal)
    (ht : p.localStorage.getItem "token" = some token) (hne : token ≠ "")
    (hget : getPatientData token = .ok patientData) (hdata : jsTruthy patientData = false) :
    runCardListener getPatientData nodeId (.bookAppointment doctor) p
      = { p with log := p.log ++ [.getPatientData token,
          .showMessageBox "Error"
            (some (.str "Could not retrieve patient data. Cannot proceed with booking."))
            none false] } := by
  unfold runCardListener
  simp only [ht, hne, if_false, hget, hdata, Bool.false_eq_true]
  simp [Page.emit]

theorem clickCardButton_loggedPatient (getPatientData : String → Except JsError JsVal)
    (p : Page) (nodeId : Nat) (storage : LocalStorage) (doctor : Doctor)
    (hrole : storage.getItem "userRole" = some "loggedPatient")
    (hcard : p.findCard nodeId = some (createDoctorCard storage doctor)) :
    clickCardButton getPatientData nodeId p
      = runCardListener getPatientData nodeId (.bookAppointment doctor) p := by
  unfold clickCardButton
  rw [hcard]
  simp [createDoctorCard_buttons, hrole]

/-- C22: a card that `createDoctorCard` built for the role loggedPatient, and a click on its
Book Now button. With no token stored (absent or empty) the click shows the message
"Authentication token missing. Please log in again." and neither `getPatientData` nor
`showBookingOverlay` is called. With a token stored, `getPatientData` is called with that
token first; when it yields a truthy value the overlay is opened next for this doctor and that
patient data, when it yields a falsy value (no data) the message "Could not retrieve patient
data. Cannot proceed with booking." is shown and the overlay is not opened, and when it throws
the overlay is not opened either. So the overlay is opened only after `getPatientData` ran
with the stored token and gave patient data. The session store and the content area stay as
they are. -/
theorem logged_patient_book_now_fetches_profile_first
    (getPatientData : String → Except JsError JsVal) (p : Page) (nodeId : Nat)
    (storage : LocalStorage) (doctor : Doctor)
    (hrole : storage.getItem "userRole" = some "loggedPatient")
    (hcard : p.findCard nodeId = some (createDoctorCard storage doctor)) :
    (truthy (p.localStorage.getItem "token") = false →
        clickCardButton getPatientData nodeId p
          = { p with log := p.log ++ [.showMessageBox "Error"
              (some (.str "Authentication token missing. Please log in again.")) none false] })
    ∧ (∀ token patientData, p.localStorage.getItem "token" = some token → token ≠ "" →
        getPatientData token = .ok patientData → jsTruthy patientData = true →
        clickCardButton getPatientData nodeId p
          = { p with log := p.log ++ [.getPatientData token,
              .showBookingOverlay doctor patientData] })
    ∧ (∀ token patientData, p.localStorage.getItem "token" = some token → token ≠ "" →
        getPatientData token = .ok patientData → jsTruthy patientData = false →
        clickCardButton getPatientData nodeId p
          = { p with log := p.log ++ [.getPatientData token,
              .showMessageBox "Error"
                (some (.str "Could not retrieve patient data. Cannot proceed with booking."))
                none false] })
    ∧ (∀ token e, p.localStorage.getItem "token" = some token → token ≠ "" →
        getPatientData token = .error e →
        clickCardButton getPatientData nodeId p
          = { p with log := p.log ++ [.getPatientData token, .uncaught e] })
    ∧ (∀ d patientData, PageEffect.showBookingOverlay d patientData
          ∈ p.effectsSince (clickCardButton getPatientData nodeId p) →
        ∃ token, p.localStorage.getItem "token" = some token ∧ token ≠ ""
          ∧ getPatientData token = .ok patientData ∧ jsTruthy patientData = true
          ∧ p.effectsSince (clickCardButton getPatientData nodeId p)
            = [.getPatientData token, .showBookingOverlay doctor patientData])
    ∧ (∀ token, PageEffect.getPatientData token
          ∈ p.effectsSince (clickCardButton getPatientData nodeId p) →
        p.localStorage.getItem "token" = some token ∧ token ≠ "")
    ∧ (∀ request, PageEffect.fetch request
        ∉ p.effectsSince (clickCardButton getPatientData nodeId p))
    ∧ (clickCardButton getPatientData nodeId p).localStorage = p.localStorage
    ∧ (clickCardButton getPatientData nodeId p).content = p.content := by
  rw [clickCardButton_loggedPatient getPatientData p nodeId storage doctor hrole hcard]
  have hno := bookAppointment_noToken getPatientData nodeId doctor p
  refine ⟨?_, ?_, ?_, ?_, ?_⟩
  · intro h
    rw [hno h]; rfl
  · intro token patientData ht hne hget hdata
    exact bookAppointment_data getPatientData nodeId doctor p token patientData ht hne hget hdata
  · intro token patientData ht hne hget hdata
    exact bookAppointment_noData getPatientData nodeId doctor p token patientData ht hne hget
      hdata
  · intro token e ht hne hget
    exact bookAppointment_error getPatientData nodeId doctor p token e ht hne hget
  · cases htok : truthy (p.localStorage.getItem "token") with
    | false =>
      rw [hno htok, effectsSince_emit]
      refine ⟨?_, ?_, ?_, rfl, rfl⟩
      · intro d patientData hmem
        simp at hmem
      · intro t hmem
        simp at hmem
      · intro request
        simp
    | true =>
      obtain ⟨token, ht, hne⟩ := (truthy_eq_true_iff _).1 htok
      cases hget : getPatientData token with
      | error e =>
        rw [bookAppointment_error getPatientData nodeId doctor p token e ht hne hget,
          effectsSince_append p _ _ rfl]
        refine ⟨?_, ?_, ?_, rfl, rfl⟩
        · intro d patientData hmem
          simp at hmem
        · intro t hmem
          simp at hmem
          subst hmem
          exact ⟨ht, hne⟩
        · intro request
          simp
      | ok patientData =>
        cases hj : jsTruthy patientData with
        | true =>
          rw [bookAppointment_data getPatientData nodeId doctor p token patientData ht hne hget
            hj, effectsSince_append p _ _ rfl]
          refine ⟨?_, ?_, ?_, rfl, rfl⟩
          · intro d data hmem
            simp at hmem
            obtain ⟨rfl, rfl⟩ := hmem
            exact ⟨token, ht, hne, hget, hj, rfl⟩
          · intro t hmem
            simp at hmem
            subst hmem
            exact ⟨ht, hne⟩
          · intro request
            simp
        | false =>
          rw [bookAppointment_noData getPatientData nodeId doctor p token patientData ht hne
            hget hj, effectsSince_append p _ _ rfl]
          refine ⟨?_, ?_, ?_, rfl, rfl⟩
          · intro d patientData hmem
            simp at hmem
          · intro t hmem
            simp at hmem
            subst hmem
            exact ⟨ht, hne⟩
          · intro request
            simp

theorem logged_patient_book_now_fetches_profile_first_witness :
    clickCardButton (fun _ => .ok (some (.obj [("id", .num "3")]))) 0
        ⟨⟨[("userRole", "loggedPatient"), ("token", "abc")]⟩,
          some [.card 0 (createDoctorCard ⟨[("userRole", "loggedPatient")]⟩
            ⟨[("name", .str "A")]⟩)], 1, []⟩
      = ⟨⟨[("userRole", "loggedPatient"), ("token", "abc")]⟩,
          some [.card 0 (createDoctorCard ⟨[("userRole", "loggedPatient")]⟩
            ⟨[("name", .str "A")]⟩)], 1,
          [.getPatientData "abc",
           .showBookingOverlay ⟨[("name", .str "A")]⟩ (some (.obj [("id", .num "3")]))]⟩ :=
  (logged_patient_book_now_fetches_profile_first
    (fun _ => .ok (some (.obj [("id", .num "3")])))
    ⟨⟨[("userRole", "loggedPatient"), ("token", "abc")]⟩,
      some [.card 0 (createDoctorCard ⟨[("userRole", "loggedPatient")]⟩
        ⟨[("name", .str "A")]⟩)], 1, []⟩ 0 ⟨[("userRole", "loggedPatient")]⟩
    ⟨[("name", .str "A")]⟩ (by decide) rfl).2.1 "abc" (some (.obj [("id", .num "3")])) rfl
    (by decide) rfl rfl

theorem dropWhile_head_false {α : Type} (q : α → Bool) (l : List α) (a : α)
    (h : (l.dropWhile q).head? = some a) : q a = false := by
  induction l with
  | nil => simp at h
  | cons b rest ih =>
    by_cases hb : q b = true
    · rw [List.dropWhile_cons_of_pos hb] at h
      exact ih h
    · rw [List.dropWhile_cons_of_neg hb] at h
      simp at h
      subst h
      simpa using hb

theorem dropWhile_of_head_false {α : Type} (q : α → Bool) (l : List α)
    (h : ∀ a, l.head? = some a → q a = false) : l.dropWhile q = l := by
  cases l with
  | nil => rfl
  | cons b rest =>
    have hb : ¬ q b = true := by simp [h b rfl]
    exact List.dropWhile_cons_of_neg hb

/-- The characters of a trimmed string: white space removed at the end of what is left when
white space is removed at the start. -/
theorem jsTrim_data (s : String) :
    (jsTrim s).data = ((s.data.dropWhile isJsWhitespace).reverse.dropWhile isJsWhitespace).reverse :=
  rfl

theorem jsTrim_getLast (s : String) (c : Char) (h : (jsTrim s).data.getLast? = some c) :
    isJsWhitespace c = false := by
  rw [jsTrim_data, List.getLast?_reverse] at h
  exact dropWhile_head_false _ _ _ h

theorem reverse_dropWhile_reverse_prefix {α : Type} (q : α → Bool) (l : List α) :
    (l.reverse.dropWhile q).reverse <+: l := by
  have h : l.reverse.dropWhile q <:+ l.reverse := List.dropWhile_suffix q
  have := List.reverse_prefix.2 h
  simpa using this

theorem jsTrim_head (s : String) (c : Char) (h : (jsTrim s).data.head? = some c) :
    isJsWhitespace c = false := by
  rw [jsTrim_data] at h
  obtain ⟨t, ht⟩ := reverse_dropWhile_reverse_prefix isJsWhitespace
    (s.data.dropWhile isJsWhitespace)
  apply dropWhile_head_false isJsWhitespace s.data c
  rw [← ht]
  cases hl : ((s.data.dropWhile isJsWhitespace).reverse.dropWhile isJsWhitespace).reverse with
  | nil => rw [hl] at h; simp at h
  | cons a rest => rw [hl] at h; simpa using h

theorem jsTrim_idempotent (s : String) : jsTrim (jsTrim s) = jsTrim s := by
  have h1 : (jsTrim s).data.dropWhile isJsWhitespace = (jsTrim s).data :=
    dropWhile_of_head_false _ _ (jsTrim_head s)
  have h2 : (jsTrim s).data.reverse.dropWhile isJsWhitespace = (jsTrim s).data.reverse := by
    apply dropWhile_of_head_false
    intro a ha
    rw [List.head?_reverse] at ha
    exact jsTrim_getLast s a ha
  show (⟨(((jsTrim s).data.dropWhile isJsWhitespace).reverse.dropWhile isJsWhitespace).reverse⟩
    : String) = jsTrim s
  rw [h1, h2, List.reverse_reverse]

theorem displayMessageRow_state {Row : Type} (s : DoctorDashboard Row) (message : String) :
    ((s.displayMessageRow message).selectedDate, (s.displayMessageRow message).token,
        (s.displayMessageRow message).patientName, (s.displayMessageRow message).doctorId)
      = (s.selectedDate, s.token, s.patientName, s.doctorId) := by
  unfold DoctorDashboard.displayMessageRow
  cases s.tableBody <;> rfl

theorem appendPatientRows_state {Row : Type} (createPatientRow : Json → Except JsError Row)
    (items : List Json) (s : DoctorDashboard Row) :
    ((appendPatientRows createPatientRow items s).1.selectedDate,
        (appendPatientRows createPatientRow items s).1.token,
        (appendPatientRows createPatientRow items s).1.patientName,
        (appendPatientRows createPatientRow items s).1.doctorId)
      = (s.selectedDate, s.token, s.patientName, s.doctorId) := by
  induction items generalizing s with
  | nil => rfl
  | cons a rest ih =>
    unfold appendPatientRows
    cases createPatientRow a with
    | error e => rfl
    | ok row => exact ih _

/-- The function `loadAppointments` writes the table body only: the state variables are as
before. -/
theorem loadAppointments_state {Row : Type}
    (getAllAppointments : String → Option String → Option String → Option String
      → Except JsError JsVal)
    (createPatientRow : Json → Except JsError Row) (s : DoctorDashboard Row) :
    ((loadAppointments getAllAppointments createPatientRow s).selectedDate,
        (loadAppointments getAllAppointments createPatientRow s).token,
        (loadAppointments getAllAppointments createPatientRow s).patientName,
        (loadAppointments getAllAppointments createPatientRow s).doctorId)
      = (s.selectedDate, s.token, s.patientName, s.doctorId) := by
  have hload := displayMessageRow_state s "Loading appointments..."
  unfold loadAppointments
  split
  · exact displayMessageRow_state _ _
  · simp only
    split
    · exact (displayMessageRow_state _ _).trans hload
    · split
      · exact (displayMessageRow_state _ _).trans hload
      · split
        · exact (displayMessageRow_state _ _).trans hload
        · split
          · split
            · rename_i items _ _ _ s2 heq
              have := appendPatientRows_state createPatientRow items
                { s.displayMessageRow "Loading appointments..." with
                  tableBody := (s.displayMessageRow "Loading appointments...").tableBody.map
                    (fun _ => []) }
              rw [heq] at this
              exact this.trans hload
            · rename_i items _ _ _ s2 e heq
              have := appendPatientRows_state createPatientRow items
                { s.displayMessageRow "Loading appointments..." with
                  tableBody := (s.displayMessageRow "Loading appointments...").tableBody.map
                    (fun _ => []) }
              rw [heq] at this
              exact (displayMessageRow_state _ _).trans (this.trans hload)
          · exact (displayMessageRow_state _ _).trans hload

theorem loadAppointments_patientName {Row : Type}
    (getAllAppointments : String → Option String → Option String → Option String
      → Except JsError JsVal)
    (createPatientRow : Json → Except JsError Row) (s : DoctorDashboard Row) :
    (loadAppointments getAllAppointments createPatientRow s).patientName = s.patientName :=
  congrArg (fun t => t.2.2.1) (loadAppointments_state getAllAppointments createPatientRow s)

/-- C23: for every text `v` of the search bar, `handleSearchChange` sets `patientName` to
`null` when `v.trim()` is empty and to `v.trim()` otherwise, and then reloads the
appointments, which leaves `patientName` alone. So a stored filter is never the empty string
and has no white space at its start or end (trimming it changes nothing), and the handler
applied again to the stored value (the empty text for `null`) gives the same filter. -/
theorem handleSearchChange_normalises_filter {Row : Type}
    (getAllAppointments : String → Option String → Option String → Option String
      → Except JsError JsVal)
    (createPatientRow : Json → Except JsError Row) (v : String) (s : DoctorDashboard Row) :
    (handleSearchChange getAllAppointments createPatientRow v s).patientName
      = (if jsTrim v = "" then none else some (jsTrim v))
    ∧ (∀ name,
        (handleSearchChange getAllAppointments createPatientRow v s).patientName = some name →
        name ≠ "" ∧ jsTrim name = name
        ∧ (∀ c, name.data.head? = some c → isJsWhitespace c = false)
        ∧ (∀ c, name.data.getLast? = some c → isJsWhitespace c = false))
    ∧ (handleSearchChange getAllAppointments createPatientRow
          ((handleSearchChange getAllAppointments createPatientRow v s).patientName.getD "")
          (handleSearchChange getAllAppointments createPatientRow v s)).patientName
        = (handleSearchChange getAllAppointments createPatientRow v s).patientName
    ∧ handleSearchChange getAllAppointments createPatientRow v s
        = loadAppointments getAllAppointments createPatientRow
            { s with patientName := if jsTrim v = "" then none else some (jsTrim v) } := by
  have key : ∀ (w : String) (t : DoctorDashboard Row),
      (handleSearchChange getAllAppointments createPatientRow w t).patientName
        = (if jsTrim w = "" then none else some (jsTrim w)) := by
    intro w t
    unfold handleSearchChange
    simp only [loadAppointments_patientName]
  refine ⟨key v s, ?_, ?_, rfl⟩
  · intro name hname
    rw [key] at hname
    by_cases hv : jsTrim v = ""
    · simp [hv] at hname
    · simp only [hv, if_false, Option.some.injEq] at hname
      subst hname
      exact ⟨hv, jsTrim_idempotent v, jsTrim_head v, jsTrim_getLast v⟩
  · rw [key, key]
    by_cases hv : jsTrim v = ""
    · simp only [hv, if_true, Option.getD_none]
      rfl
    · simp only [hv, if_false, Option.getD_some, jsTrim_idempotent]

theorem handleSearchChange_normalises_filter_witness :
    (handleSearchChange (fun _ _ _ _ => .ok (some (.arr []))) (fun _ => Except.ok "row")
        "  Ann Lee\t" ⟨some [], "2025-01-01", some "tok", none, some "7"⟩).patientName
      = some "Ann Lee" :=
  (handleSearchChange_normalises_filter (fun _ _ _ _ => .ok (some (.arr [])))
    (fun _ => Except.ok "row") "  Ann Lee\t"
    ⟨some [], "2025-01-01", some "tok", none, some "7"⟩).1.trans (by decide)

theorem listResponse_shape (outcome : Except JsError Response) :
    ∃ j, tryCatch (do
          let response ← outcome
          if !response.ok then
            return Json.arr []
          response.parseJson) (fun _ => pure (Json.arr [])) = .ok j
      ∧ (j = .arr [] ∨ ∃ r, outcome = .ok r ∧ r.ok = true ∧ r.json = some j) := by
  cases hf : outcome with
  | error e => exact ⟨.arr [], by simp [tryCatch, bind, Except.bind, pure, Except.pure], Or.inl rfl⟩
  | ok r =>
    cases hok : r.ok with
    | false =>
      exact ⟨.arr [], by simp [tryCatch, hok, bind, Except.bind, pure, Except.pure], Or.inl rfl⟩
    | true =>
      cases hj : r.json with
      | none =>
        exact ⟨.arr [], by
          simp [tryCatch, hok, Response.parseJson, hj, bind, Except.bind, pure, Except.pure],
          Or.inl rfl⟩
      | some j =>
        exact ⟨j, by
          simp [tryCatch, hok, Response.parseJson, hj, bind, Except.bind, pure, Except.pure],
          Or.inr ⟨r, rfl, hok, hj⟩⟩

theorem isNonEmptyString_append (a b : String) (h : a ≠ "") :
    isNonEmptyString (some (.str (a ++ b))) = true := by
  have : a ++ b ≠ "" := by
    intro hab
    apply h
    have hd := congrArg String.data hab
    rw [String.data_append] at hd
    have : a.data = [] := (List.append_eq_nil.1 hd).1
    exact String.ext this
  simpa [isNonEmptyString] using this

theorem deleteDoctor_shape (API_BASE_URL : String) (fetch : Fetch) (id : JsVal)
    (token : String) :
    ∃ result, deleteDoctor API_BASE_URL fetch id token = .ok result
      ∧ isNonEmptyString result.message = true
      ∧ (result.success = true →
          ∃ r, fetch (deleteDoctorRequest API_BASE_URL id token) = .ok r ∧ r.ok = true) := by
  unfold deleteDoctor
  cases hf : fetch (deleteDoctorRequest API_BASE_URL id token) with
  | error e =>
    exact ⟨⟨false, some (.str "An unexpected network error occurred.")⟩,
      by simp [tryCatch, bind, Except.bind, pure, Except.pure], rfl, by simp⟩
  | ok r =>
    cases hok : r.ok with
    | true =>
      by_cases ht : r.text = ""
      · refine ⟨⟨true, some (.str "Doctor deleted successfully.")⟩, ?_, rfl, fun _ => ⟨r, rfl, hok⟩⟩
        simp [tryCatch, bind, Except.bind, pure, Except.pure, hok, jsOr, jsTruthy, ht]
      · refine ⟨⟨true, some (.str r.text)⟩, ?_, ?_, fun _ => ⟨r, rfl, hok⟩⟩
        · simp [tryCatch, bind, Except.bind, pure, Except.pure, hok, jsOr, jsTruthy, ht]
        · simpa [isNonEmptyString] using ht
    | false =>
      by_cases h404 : r.status = 404
      · exact ⟨⟨false, some (.str "Doctor not found.")⟩,
          by simp [tryCatch, bind, Except.bind, pure, Except.pure, hok, h404], rfl, by simp⟩
      · cases hg : getProp ((r.json).getD (.obj [])) "message" with
        | error e =>
          refine ⟨⟨false, some (.str "An unexpected network error occurred.")⟩, ?_, rfl, by simp⟩
          cases hj : r.json with
          | none => simp [hj, getProp] at hg
          | some errorData =>
            simp only [hj, Option.getD_some] at hg
            simp [tryCatch, bind, Except.bind, pure, Except.pure, hok, h404,
              Response.parseJson, hj, hg]
        | ok m =>
          refine ⟨⟨false, some (.str ("Deletion failed: "
            ++ toStr (jsOr m (some (.str r.statusText)))))⟩, ?_,
            isNonEmptyString_append _ _ (by decide), by simp⟩
          cases hj : r.json with
          | none =>
            simp only [hj, Option.getD_none] at hg
            simp [tryCatch, bind, Except.bind, pure, Except.pure, hok, h404,
              Response.parseJson, hj, hg]
          | some errorData =>
            simp only [hj, Option.getD_some] at hg
            simp [tryCatch, bind, Except.bind, pure, Except.pure, hok, h404,
              Response.parseJson, hj, hg]

theorem jsTruthy_of_isNonEmptyString (v : JsVal) (h : isNonEmptyString v = true) :
    jsTruthy v = true := by
  cases v with
  | none => simp [isNonEmptyString] at h
  | some j => cases j <;> simp_all [isNonEmptyString, jsTruthy]

theorem saveDoctor_shape (API_BASE_URL : String) (fetch : Fetch) (doctor : Json)
    (token : String) :
    ∃ result, saveDoctor API_BASE_URL fetch doctor token = .ok result
      ∧ jsTruthy result.message = true
      ∧ (isNonEmptyString result.message = true
          ∨ ∃ r errorData, fetch (saveDoctorRequest API_BASE_URL doctor token) = .ok r
              ∧ r.ok = false ∧ r.json = some errorData
              ∧ getProp errorData "message" = .ok result.message)
      ∧ (result.success = true →
          isNonEmptyString result.message = true
          ∧ ∃ r, fetch (saveDoctorRequest API_BASE_URL doctor token) = .ok r ∧ r.ok = true) := by
  unfold saveDoctor
  cases hf : fetch (saveDoctorRequest API_BASE_URL doctor token) with
  | error e =>
    exact ⟨⟨false, some (.str "An unexpected network error occurred during saving.")⟩,
      by simp [tryCatch, bind, Except.bind, pure, Except.pure], rfl, Or.inl rfl, by simp⟩
  | ok r =>
    cases hok : r.ok with
    | true =>
      cases hj : r.json with
      | none =>
        exact ⟨⟨false, some (.str "An unexpected network error occurred during saving.")⟩,
          by simp [tryCatch, bind, Except.bind, pure, Except.pure, hok, Response.parseJson, hj],
          rfl, Or.inl rfl, by simp⟩
      | some data =>
        cases hg : getProp data "name" with
        | error e =>
          exact ⟨⟨false, some (.str "An unexpected network error occurred during saving.")⟩,
            by simp [tryCatch, bind, Except.bind, pure, Except.pure, hok, Response.parseJson,
              hj, hg],
            rfl, Or.inl rfl, by simp⟩
        | ok name =>
          have hm := isNonEmptyString_append "Doctor " (toStr name ++ " added successfully!")
            (by decide)
          refine ⟨⟨true, some (.str ("Doctor " ++ (toStr name ++ " added successfully!")))⟩,
            ?_, jsTruthy_of_isNonEmptyString _ hm, Or.inl hm, fun _ => ⟨hm, r, rfl, hok⟩⟩
          simp [tryCatch, bind, Except.bind, pure, Except.pure, hok, Response.parseJson,
            hj, hg, String.append_assoc]
    | false =>
      cases hg : getProp ((r.json).getD (.obj [])) "message" with
      | error e =>
        refine ⟨⟨false, some (.str "An unexpected network error occurred during saving.")⟩,
          ?_, rfl, Or.inl rfl, by simp⟩
        cases hj : r.json with
        | none => simp [hj, getProp] at hg
        | some errorData =>
          simp only [hj, Option.getD_some] at hg
          simp [tryCatch, bind, Except.bind, pure, Except.pure, hok, Response.parseJson, hj, hg]
      | ok m =>
        cases hm : jsTruthy m with
        | false =>
          refine ⟨⟨false, some (.str "Failed to add doctor.")⟩, ?_, rfl, Or.inl rfl, by simp⟩
          cases hj : r.json with
          | none =>
            simp only [hj, Option.getD_none] at hg
            simp [tryCatch, bind, Except.bind, pure, Except.pure, hok, Response.parseJson, hj,
              hg, jsOr, hm]
          | some errorData =>
            simp only [hj, Option.getD_some] at hg
            simp [tryCatch, bind, Except.bind, pure, Except.pure, hok, Response.parseJson, hj,
              hg, jsOr, hm]
        | true =>
          cases hj : r.json with
          | none =>
            simp only [hj, Option.getD_none, getProp, List.lookup] at hg
            cases hg
            simp [jsTruthy] at hm
          | some errorData =>
            simp only [hj, Option.getD_some] at hg
            refine ⟨⟨false, m⟩, ?_, hm, Or.inr ⟨r, errorData, rfl, hok, hj, hg⟩, by simp⟩
            simp [tryCatch, bind, Except.bind, pure, Except.pure, hok, Response.parseJson, hj,
              hg, jsOr, hm]

/-- C24: a backend that answers `201 Created` with a JSON object makes `getDoctors` and
`filterDoctors` return that object, which is not an array, where their documentation promises
an array; and a backend that answers `400` with a body whose `message` is an empty list makes
`saveDoctor` return that list as the message, which is not a string and reads as the empty
text, where its documentation promises a string. -/
theorem list_services_return_the_body_as_is :
    getDoctors "http://localhost:8080" createdBackend
      = .ok (.obj [("id", .num "7"), ("name", .str "A")])
    ∧ filterDoctors "http://localhost:8080" createdBackend "A" "" ""
      = .ok (.obj [("id", .num "7"), ("name", .str "A")])
    ∧ (Json.obj [("id", .num "7"), ("name", .str "A")]).isArray = false
    ∧ saveDoctor "http://localhost:8080" validationBackend (.obj [("name", .str "A")]) "abc"
      = .ok { success := false, message := some (.arr []) }
    ∧ isNonEmptyString (some (.arr [])) = false
    ∧ toStr (some (.arr [])) = "" :=
  ⟨rfl, rfl, rfl, rfl, rfl, rfl⟩

/-- What the four doctor service operations do guarantee: for every response status, every
body (one that fails to parse included) and every network exception each of them returns and
none throws. `getDoctors` and `filterDoctors` return the empty array on every
failure and otherwise the parsed body of the successful response as it is, so an array
whenever the backend sends arrays. `deleteDoctor` returns `{success, message}` with a
non-empty string as message. `saveDoctor` returns `{success, message}` with a truthy message:
a non-empty string, except that a truthy `message` of any type in the body of a response that
is not a success is handed on unchanged. For both, `success` is true only when the response
was a success (status 200 to 299). -/
theorem doctor_services_are_total (API_BASE_URL : String) (fetch : Fetch)
    (name time specialty : String) (id : JsVal) (doctor : Json) (token : String) :
    (∃ j, getDoctors API_BASE_URL fetch = .ok j
        ∧ (j = .arr [] ∨ ∃ r, fetch (getDoctorsRequest API_BASE_URL) = .ok r ∧ r.ok = true
            ∧ r.json = some j)
        ∧ ((∀ r b, fetch (getDoctorsRequest API_BASE_URL) = .ok r → r.json = some b →
              b.isArray = true) → j.isArray = true))
    ∧ (∃ j, filterDoctors API_BASE_URL fetch name time specialty = .ok j
        ∧ (j = .arr [] ∨ ∃ r, fetch (filterDoctorsRequest API_BASE_URL name time specialty)
              = .ok r ∧ r.ok = true ∧ r.json = some j)
        ∧ ((∀ r b, fetch (filterDoctorsRequest API_BASE_URL name time specialty) = .ok r →
              r.json = some b → b.isArray = true) → j.isArray = true))
    ∧ (∃ result, deleteDoctor API_BASE_URL fetch id token = .ok result
        ∧ isNonEmptyString result.message = true
        ∧ (result.success = true →
            ∃ r, fetch (deleteDoctorRequest API_BASE_URL id token) = .ok r ∧ r.ok = true))
    ∧ (∃ result, saveDoctor API_BASE_URL fetch doctor token = .ok result
        ∧ jsTruthy result.message = true
        ∧ (isNonEmptyString result.message = true
            ∨ ∃ r errorData, fetch (saveDoctorRequest API_BASE_URL doctor token) = .ok r
                ∧ r.ok = false ∧ r.json = some errorData
                ∧ getProp errorData "message" = .ok result.message)
        ∧ (result.success = true →
            isNonEmptyString result.message = true
            ∧ ∃ r, fetch (saveDoctorRequest API_BASE_URL doctor token) = .ok r
                ∧ r.ok = true)) := by
  refine ⟨?_, ?_, deleteDoctor_shape API_BASE_URL fetch id token,
    saveDoctor_shape API_BASE_URL fetch doctor token⟩
  · obtain ⟨j, hj, hshape⟩ := listResponse_shape (fetch (getDoctorsRequest API_BASE_URL))
    refine ⟨j, hj, hshape, ?_⟩
    intro harr
    rcases hshape with h | ⟨r, hf, _, hb⟩
    · rw [h]; rfl
    · exact harr r j hf hb
  · obtain ⟨j, hj, hshape⟩ :=
      listResponse_shape (fetch (filterDoctorsRequest API_BASE_URL name time specialty))
    refine ⟨j, hj, hshape, ?_⟩
    intro harr
    rcases hshape with h | ⟨r, hf, _, hb⟩
    · rw [h]; rfl
    · exact harr r j hf hb

theorem doctor_services_are_total_witness :
    ∃ result, deleteDoctor "http://localhost:8080" errorBackend (some (.num "1")) "abc"
        = .ok result
      ∧ isNonEmptyString result.message = true
      ∧ (result.success = true →
          ∃ r, errorBackend (deleteDoctorRequest "http://localhost:8080" (some (.num "1")) "abc")
            = .ok r ∧ r.ok = true) :=
  (doctor_services_are_total "http://localhost:8080" errorBackend "" "" "" (some (.num "1"))
    (.obj []) "abc").2.2.1

/-- C5: for every name, time and specialty, `filterDoctors` hands exactly one request to
`fetch`, the `GET` of `DOCTOR_API + "/filter?"` followed by the query string: what `fetch`
answers to that request is what `filterDoctors` returns, no other request has a say, and a
backend that echoes the request it received gets that method and URL. Read back by the URL
Standard's parser, the query string carries exactly the parameters of the fields name, time,
specialty, in this order, whose argument is not empty, each with the argument as its value: a
field has a parameter exactly when its argument is non-empty. For
`filterDoctors("Smith", "", "")` the query string is exactly `name=Smith`. -/
theorem filterDoctors_query_parameters (API_BASE_URL name time specialty : String) :
    (∀ (fetch : Fetch) r j,
        fetch (filterDoctorsRequest API_BASE_URL name time specialty) = .ok r →
        r.ok = true → r.json = some j →
        filterDoctors API_BASE_URL fetch name time specialty = .ok j)
    ∧ (∀ (fetch other : Fetch),
        fetch (filterDoctorsRequest API_BASE_URL name time specialty)
          = other (filterDoctorsRequest API_BASE_URL name time specialty) →
        filterDoctors API_BASE_URL fetch name time specialty
          = filterDoctors API_BASE_URL other name time specialty)
    ∧ filterDoctors API_BASE_URL echoBackend name time specialty
      = .ok (.str ("GET " ++ (DOCTOR_API API_BASE_URL ++ "/filter?"
          ++ (filterDoctorsParams name time specialty).toString)))
    ∧ filterDoctors API_BASE_URL echoBackend "Smith" "" ""
      = .ok (.str ("GET " ++ (DOCTOR_API API_BASE_URL ++ "/filter?name=Smith")))
    ∧ (filterDoctorsRequest API_BASE_URL name time specialty).method = "GET"
    ∧ (filterDoctorsRequest API_BASE_URL name time specialty).url
      = DOCTOR_API API_BASE_URL ++ "/filter?"
          ++ (filterDoctorsParams name time specialty).toString
    ∧ parseQuery (filterDoctorsParams name time specialty).toString
      = [("name", name), ("time", time), ("specialty", specialty)].filter
          (fun nv => nv.2 != "")
    ∧ (∀ value, ("name", value) ∈ parseQuery (filterDoctorsParams name time specialty).toString
        ↔ name ≠ "" ∧ value = name)
    ∧ (∀ value, ("time", value) ∈ parseQuery (filterDoctorsParams name time specialty).toString
        ↔ time ≠ "" ∧ value = time)
    ∧ (∀ value,
        ("specialty", value) ∈ parseQuery (filterDoctorsParams name time specialty).toString
        ↔ specialty ≠ "" ∧ value = specialty)
    ∧ (∀ field value,
        (field, value) ∈ parseQuery (filterDoctorsParams name time specialty).toString →
        field = "name" ∨ field = "time" ∨ field = "specialty")
    ∧ (filterDoctorsParams "Smith" "" "").toString = "name=Smith" := by
  have hold := filterDoctorsRequest_query_parameters API_BASE_URL name time specialty
  have hecho : ∀ n t sp, filterDoctors API_BASE_URL echoBackend n t sp
      = .ok (.str ("GET " ++ (filterDoctorsRequest API_BASE_URL n t sp).url)) := by
    intro n t sp
    have h := (listResponse_cases (echoBackend (filterDoctorsRequest API_BASE_URL n t sp))).1
      _ (.str ("GET" ++ " " ++ (filterDoctorsRequest API_BASE_URL n t sp).url)) rfl rfl rfl
    exact h
  refine ⟨?_, ?_, ?_, ?_, rfl, hold.1, hold.2.1, hold.2.2.1, hold.2.2.2.1, hold.2.2.2.2.1,
    hold.2.2.2.2.2.1, hold.2.2.2.2.2.2.1⟩
  · intro fetch r j hf hok hj
    exact (listResponse_cases _).1 r j hf hok hj
  · intro fetch other h
    unfold filterDoctors
    rw [h]
  · rw [hecho, hold.1]
  · rw [hecho, hold.2.2.2.2.2.2.2]

theorem filterDoctors_query_parameters_witness :
    filterDoctors "http://localhost:8080" echoBackend "Smith" "" ""
      = .ok (.str "GET http://localhost:8080/doctor/filter?name=Smith") :=
  (filterDoctors_query_parameters "http://localhost:8080" "Smith" "" "").2.2.2.1

/-! ## The calls of the header's globals -/

set_option maxRecDepth 100000

theorem headerJs_does_not_parse : headerJsParses = false := by decide

theorem renderHeader_undefined (w : World) :
    renderHeader w = .error (.referenceError "renderHeader") := rfl

theorem logout_undefined (w : World) :
    logout w = .error (.referenceError "logout")
    ∧ logoutPatient w = .error (.referenceError "logoutPatient") := ⟨rfl, rfl⟩

/-- C1: `header.js` does not parse, so `window.renderHeader` is never defined. On the non-root
page "/pages/adminDashboard.html" with the `#header` element and the stored role "nurse", the
call `renderHeader()` throws a `ReferenceError` and nothing is assigned to
`window.location.href`, where the function written for `renderHeader` assigns "/" to it. -/
theorem renderHeader_undefined_no_redirect :
    headerJsParses = false
    ∧ window.renderHeader.isNone = true
    ∧ renderHeader ⟨"/pages/adminDashboard.html", ⟨[("userRole", "nurse"), ("token", "t0")]⟩,
        .present none, []⟩ = .error (.referenceError "renderHeader")
    ∧ renderHeaderFunction ⟨"/pages/adminDashboard.html",
        ⟨[("userRole", "nurse"), ("token", "t0")]⟩, .present none, []⟩
      = ⟨"/pages/adminDashboard.html", ⟨[("userRole", "nurse"), ("token", "t0")]⟩,
          .present none, [.navigate "/"]⟩ :=
  ⟨by decide, by decide, rfl, by decide⟩

/-- C2: `header.js` does not parse, so `window.renderHeader` is never defined. On the non-root
page "/pages/adminDashboard.html" with the `#header` element, the stored role "admin" and no
token, the call `renderHeader()` throws a `ReferenceError`: the role stays in the session
store and no message is shown, where the function written for `renderHeader` removes the role
and shows the session-expired message box. -/
theorem renderHeader_undefined_keeps_expired_session :
    headerJsParses = false
    ∧ renderHeader ⟨"/pages/adminDashboard.html", ⟨[("userRole", "admin")]⟩, .present none, []⟩
      = .error (.referenceError "renderHeader")
    ∧ renderHeaderFunction ⟨"/pages/adminDashboard.html", ⟨[("userRole", "admin")]⟩,
        .present none, []⟩
      = ⟨"/pages/adminDashboard.html", ⟨[]⟩, .present none,
          [.showMessageBox "Session Expired"
            "Session expired or invalid login. Please log in again." (some (.redirectTo "/"))]⟩ :=
  ⟨by decide, rfl, by decide⟩

/-- C3: `header.js` does not parse, so `window.renderHeader` is never defined. On the root
path "/" of a page with the `#header` element, with the role "admin" and the token "abc"
stored, the call `renderHeader()` throws a `ReferenceError`: role and token stay in the
session store and no header is shown, where the function written for `renderHeader` removes
both and shows the minimal root header. -/
theorem renderHeader_undefined_keeps_session_on_root :
    headerJsParses = false
    ∧ isRootPath "/" = true
    ∧ renderHeader ⟨"/", ⟨[("userRole", "admin"), ("token", "abc")]⟩, .present none, []⟩
      = .error (.referenceError "renderHeader")
    ∧ renderHeaderFunction ⟨"/", ⟨[("userRole", "admin"), ("token", "abc")]⟩, .present none, []⟩
      = ⟨"/", ⟨[]⟩, .present (some rootHeaderWired), [.setHeaderHTML rootHeader]⟩ :=
  ⟨by decide, by decide, rfl, by decide⟩

/-- C4: `header.js` does not parse, so `window.renderHeader` is never defined. On the non-root
page "/pages/doctorDashboard.html" with the `#header` element, the stored role "doctor" and
the token "abc", the call `renderHeader()` throws a `ReferenceError` and the header element
stays empty, where the function written for `renderHeader` leaves the controls Home and
Logout in it. -/
theorem renderHeader_undefined_no_role_buttons :
    headerJsParses = false
    ∧ renderHeader ⟨"/pages/doctorDashboard.html", ⟨[("userRole", "doctor"), ("token", "abc")]⟩,
        .present none, []⟩ = .error (.referenceError "renderHeader")
    ∧ navLabels (renderHeaderFunction ⟨"/pages/doctorDashboard.html",
        ⟨[("userRole", "doctor"), ("token", "abc")]⟩, .present none, []⟩).header
      = [("button", "Home"), ("a", "Logout")] :=
  ⟨by decide, rfl, by decide⟩

/-- C18: `header.js` does not parse, so `window.logout` and `window.logoutPatient` are never
defined. With a role and a token stored, the calls `logout()` and `logoutPatient()` throw a
`ReferenceError`: role and token stay in the session store and nothing is assigned to
`window.location.href`, where the functions written for them remove both and assign "/",
respectively "/pages/patientDashboard.html". -/
theorem logout_undefined_keeps_session :
    headerJsParses = false
    ∧ logout ⟨"/pages/adminDashboard.html", ⟨[("userRole", "admin"), ("token", "abc")]⟩,
        .present none, []⟩ = .error (.referenceError "logout")
    ∧ logoutPatient ⟨"/pages/loggedPatientDashboard.html",
        ⟨[("userRole", "loggedPatient"), ("token", "abc")]⟩, .present none, []⟩
      = .error (.referenceError "logoutPatient")
    ∧ logoutFunction ⟨"/pages/adminDashboard.html",
        ⟨[("userRole", "admin"), ("token", "abc")]⟩, .present none, []⟩
      = ⟨"/pages/adminDashboard.html", ⟨[]⟩, .present none, [.navigate "/"]⟩
    ∧ logoutPatientFunction ⟨"/pages/loggedPatientDashboard.html",
        ⟨[("userRole", "loggedPatient"), ("token", "abc")]⟩, .present none, []⟩
      = ⟨"/pages/loggedPatientDashboard.html", ⟨[]⟩, .present none,
          [.navigate "/pages/patientDashboard.html"]⟩ :=
  ⟨by decide, rfl, rfl, by decide, by decide⟩


end HealthFlow
